import Mathlib

/-!
# MissionItemProtocol: the mission-item transfer state machine

A shallow embedding of `libraries/GCS_MAVLink/MissionItemProtocol.cpp`.

* The member variables of the class become the record `Session`.
* The pure-virtual members (the item store of one category) become the record
  `Hooks σ` of functions over an abstract store state `σ`.
* Everything the code does to the outside (a MAVLink message written to a
  channel, an `ap_message` queued on a link, a text, an internal error, a call
  of a store hook) is appended to an event log, oldest event first.
* What the code reads from the outside (the millisecond clock, the free space
  of a channel, the protocol version of a link) comes from an `Env`.
-/

namespace MissionItemProtocol

/-! ## Machine integers -/

/-- Conversion of an integer to `uint16_t`. -/
def uint16_of (x : Int) : Nat := (x % 65536).toNat

/-- Conversion of an integer to `int16_t` (two's complement). -/
def int16_of (x : Int) : Int := (x + 32768) % 65536 - 32768

/-- Conversion of an integer to `unsigned` (32 bits), as in `(unsigned)packet.start_index`. -/
def unsigned_of (x : Int) : Nat := (x % 4294967296).toNat

/-- Subtraction of two `uint32_t` values, as in `tnow - timelast_receive_ms`. -/
def uint32_sub (a b : Nat) : Nat := (((a : Int) - (b : Int)) % 4294967296).toNat

/-! ## MAVLink enumerations and packets -/

/-- The enumeration `MAV_MISSION_RESULT`. -/
inductive MAV_MISSION_RESULT
  | MAV_MISSION_ACCEPTED
  | MAV_MISSION_ERROR
  | MAV_MISSION_UNSUPPORTED_FRAME
  | MAV_MISSION_UNSUPPORTED
  | MAV_MISSION_NO_SPACE
  | MAV_MISSION_INVALID
  | MAV_MISSION_INVALID_PARAM1
  | MAV_MISSION_INVALID_PARAM2
  | MAV_MISSION_INVALID_PARAM3
  | MAV_MISSION_INVALID_PARAM4
  | MAV_MISSION_INVALID_PARAM5_X
  | MAV_MISSION_INVALID_PARAM6_Y
  | MAV_MISSION_INVALID_PARAM7
  | MAV_MISSION_INVALID_SEQUENCE
  | MAV_MISSION_DENIED
  | MAV_MISSION_OPERATION_CANCELLED
  deriving DecidableEq, Repr

/-- The enumeration `MAV_MISSION_TYPE`. -/
inductive MAV_MISSION_TYPE
  | MAV_MISSION_TYPE_MISSION
  | MAV_MISSION_TYPE_FENCE
  | MAV_MISSION_TYPE_RALLY
  | MAV_MISSION_TYPE_ALL
  deriving DecidableEq, Repr

open MAV_MISSION_RESULT MAV_MISSION_TYPE

/-- The MAVLink messages whose payload size the code checks before writing. -/
inductive MsgId
  | MISSION_ACK
  | MISSION_COUNT
  | MISSION_REQUEST
  deriving DecidableEq, Repr

/-- The texts the code sends with `GCS_SEND_TEXT`. -/
inductive Text
  | need_mavlink2
  | only_n_items_supported (n : Nat)
  | got_mission_request
  | got_mission_item
  | flight_plan_update_rejected
  deriving DecidableEq, Repr

/-- The fields of `mavlink_message_t` the code reads. -/
structure mavlink_message_t where
  sysid : Nat
  compid : Nat
  deriving DecidableEq, Repr

/-- The field of `mavlink_mission_count_t` the code reads. -/
structure mavlink_mission_count_t where
  count : Nat
  deriving DecidableEq, Repr

/-- The field of `mavlink_mission_request_int_t` the code reads. -/
structure mavlink_mission_request_int_t where
  seq : Nat
  deriving DecidableEq, Repr

/-- The field of `mavlink_mission_request_t` the code reads. -/
structure mavlink_mission_request_t where
  seq : Nat
  deriving DecidableEq, Repr

/-- The fields of `mavlink_mission_write_partial_list_t` the code reads (both `int16_t`). -/
structure mavlink_mission_write_partial_list_t where
  start_index : Int
  end_index : Int
  deriving DecidableEq, Repr

/-- An item in the `MISSION_ITEM_INT` encoding; `body` stands for the fields
the protocol only carries (frame, command, parameters, position). -/
structure mavlink_mission_item_int_t where
  seq : Nat
  target_system : Nat
  target_component : Nat
  body : Nat
  deriving DecidableEq, Repr

/-- An item in the legacy `MISSION_ITEM` encoding. -/
structure mavlink_mission_item_t where
  seq : Nat
  target_system : Nat
  target_component : Nat
  body : Nat
  deriving DecidableEq, Repr

/-! ## Events -/

/-- What one execution of the code does to its collaborators. A link is named
by its channel number. -/
inductive Event
  | mavlink_msg_mission_ack_send (chan sysid compid : Nat) (result : MAV_MISSION_RESULT)
      (mission_type : MAV_MISSION_TYPE)
  | mavlink_msg_mission_count_send (chan sysid compid count : Nat)
      (mission_type : MAV_MISSION_TYPE)
  | mavlink_msg_mission_request_send (chan sysid compid seq : Nat)
      (mission_type : MAV_MISSION_TYPE)
  | send_message (chan : Nat) (id : Nat)
  | send_message_mission_item_int (chan : Nat) (packet : mavlink_mission_item_int_t)
  | send_message_mission_item (chan : Nat) (packet : mavlink_mission_item_t)
  | send_text (text : Text)
  | internal_error
  | free_upload_resources
  | allocate_receive_resources (count : Nat) (ret : MAV_MISSION_RESULT)
  | allocate_update_resources (ret : MAV_MISSION_RESULT)
  | truncate (count : Nat)
  | complete (chan : Nat) (ret : MAV_MISSION_RESULT)
  | timeout
  | replace_item (cmd : mavlink_mission_item_int_t) (ret : MAV_MISSION_RESULT)
  | append_item (cmd : mavlink_mission_item_int_t) (ret : MAV_MISSION_RESULT)
  | clear_all_items (ret : Bool)
  | get_item (seq : Nat) (ret : MAV_MISSION_RESULT)
  | convert_MISSION_ITEM_INT_to_MISSION_ITEM (ret : MAV_MISSION_RESULT)
  deriving DecidableEq, Repr

/-! ## The session, its collaborators and the world -/

/-- The member variables of `MissionItemProtocol`. `request_i` and
`request_last` are `uint16_t`, the two identifiers `uint8_t`, the two times
`uint32_t`; `link` is the pointer to the bound link, `none` for `nullptr`. -/
structure Session where
  receiving : Bool
  link : Option Nat
  request_last : Nat
  request_i : Nat
  dest_sysid : Nat
  dest_compid : Nat
  timelast_receive_ms : Nat
  timelast_request_ms : Nat
  mission_item_warning_sent : Bool
  mission_request_warning_sent : Bool
  deriving DecidableEq, Repr

/-- The virtual members of `MissionItemProtocol` that a category implements,
as functions over the state `σ` of its item store, with the constant
`upload_timeout_ms` and the external item converter. A hook that is not
`const` returns the new store state; a hook reads and changes the store only,
never the member variables of the session. -/
structure Hooks (σ : Type) where
  mission_type : MAV_MISSION_TYPE
  next_item_ap_message_id : Nat
  upload_timeout_ms : Nat
  item_count : σ → Nat
  max_items : σ → Nat
  get_item : σ → Nat → (MAV_MISSION_RESULT × mavlink_mission_item_int_t) × σ
  replace_item : σ → mavlink_mission_item_int_t → MAV_MISSION_RESULT × σ
  append_item : σ → mavlink_mission_item_int_t → MAV_MISSION_RESULT × σ
  clear_all_items : σ → Bool × σ
  allocate_receive_resources : σ → Nat → MAV_MISSION_RESULT × σ
  allocate_update_resources : σ → MAV_MISSION_RESULT × σ
  free_upload_resources : σ → σ
  truncate : σ → mavlink_mission_count_t → σ
  complete : σ → Nat → MAV_MISSION_RESULT × σ
  timeout : σ → σ
  convert_MISSION_ITEM_INT_to_MISSION_ITEM :
    mavlink_mission_item_int_t → MAV_MISSION_RESULT × mavlink_mission_item_t

/-- What one invocation reads from its environment. `millis k` is the value of
the `k`-th call of `AP_HAL::millis()` within the invocation. The argument of
`have_payload_space` that is a log is the event history at the moment of the
query, so that the answer may change once something has been written. -/
structure Env where
  millis : Nat → Nat
  have_payload_space : List Event → Nat → MsgId → Bool
  sending_mavlink1 : Nat → Bool
  get_stream_slowdown_ms : Nat → Nat

/-- The session, the item store of its category, and the events so far. -/
structure World (σ : Type) where
  sess : Session
  store : σ
  log : List Event

variable {σ : Type}

/-- Append one event to the log. -/
def World.emit (w : World σ) (e : Event) : World σ :=
  { w with log := w.log ++ [e] }

/-! ## Calls of the store hooks -/

/-- The call `item_count()`, a `uint16_t`. -/
def item_count (h : Hooks σ) (w : World σ) : Nat := h.item_count w.store % 65536

/-- The call `max_items()`, a `uint16_t`. -/
def max_items (h : Hooks σ) (w : World σ) : Nat := h.max_items w.store % 65536

/-- The call `free_upload_resources()`. -/
def free_upload_resources (h : Hooks σ) (w : World σ) : World σ :=
  { w with store := h.free_upload_resources w.store,
           log := w.log ++ [Event.free_upload_resources] }

/-- The call `allocate_receive_resources(count)`. -/
def allocate_receive_resources (h : Hooks σ) (count : Nat) (w : World σ) :
    MAV_MISSION_RESULT × World σ :=
  ((h.allocate_receive_resources w.store count).1,
   { w with store := (h.allocate_receive_resources w.store count).2,
            log := w.log ++ [Event.allocate_receive_resources count
                              (h.allocate_receive_resources w.store count).1] })

/-- The call `allocate_update_resources()`. -/
def allocate_update_resources (h : Hooks σ) (w : World σ) : MAV_MISSION_RESULT × World σ :=
  ((h.allocate_update_resources w.store).1,
   { w with store := (h.allocate_update_resources w.store).2,
            log := w.log ++ [Event.allocate_update_resources
                              (h.allocate_update_resources w.store).1] })

/-- The call `truncate(packet)`. -/
def truncate (h : Hooks σ) (packet : mavlink_mission_count_t) (w : World σ) : World σ :=
  { w with store := h.truncate w.store packet,
           log := w.log ++ [Event.truncate packet.count] }

/-- The call `complete(_link)`. -/
def complete (h : Hooks σ) (_link : Nat) (w : World σ) : MAV_MISSION_RESULT × World σ :=
  ((h.complete w.store _link).1,
   { w with store := (h.complete w.store _link).2,
            log := w.log ++ [Event.complete _link (h.complete w.store _link).1] })

/-- The call `timeout()`. -/
def timeout (h : Hooks σ) (w : World σ) : World σ :=
  { w with store := h.timeout w.store, log := w.log ++ [Event.timeout] }

/-- The call `replace_item(cmd)`. -/
def replace_item (h : Hooks σ) (cmd : mavlink_mission_item_int_t) (w : World σ) :
    MAV_MISSION_RESULT × World σ :=
  ((h.replace_item w.store cmd).1,
   { w with store := (h.replace_item w.store cmd).2,
            log := w.log ++ [Event.replace_item cmd (h.replace_item w.store cmd).1] })

/-- The call `append_item(cmd)`. -/
def append_item (h : Hooks σ) (cmd : mavlink_mission_item_int_t) (w : World σ) :
    MAV_MISSION_RESULT × World σ :=
  ((h.append_item w.store cmd).1,
   { w with store := (h.append_item w.store cmd).2,
            log := w.log ++ [Event.append_item cmd (h.append_item w.store cmd).1] })

/-- The call `clear_all_items()`. -/
def clear_all_items (h : Hooks σ) (w : World σ) : Bool × World σ :=
  ((h.clear_all_items w.store).1,
   { w with store := (h.clear_all_items w.store).2,
            log := w.log ++ [Event.clear_all_items (h.clear_all_items w.store).1] })

/-- The call `get_item(seq, ret_packet)`: the result code, the packet, the world. -/
def get_item (h : Hooks σ) (seq : Nat) (w : World σ) :
    MAV_MISSION_RESULT × mavlink_mission_item_int_t × World σ :=
  ((h.get_item w.store seq).1.1, (h.get_item w.store seq).1.2,
   { w with store := (h.get_item w.store seq).2,
            log := w.log ++ [Event.get_item seq (h.get_item w.store seq).1.1] })

/-! ## The member functions -/

/-- `send_mission_ack(_link, msg, result)`: nothing is written when the channel
has no room for a MISSION_ACK (`CHECK_PAYLOAD_SIZE2_VOID`). -/
def send_mission_ack_link (h : Hooks σ) (env : Env) (_link : Nat) (msg : mavlink_message_t)
    (result : MAV_MISSION_RESULT) (w : World σ) : World σ :=
  if env.have_payload_space w.log _link MsgId.MISSION_ACK then
    w.emit (Event.mavlink_msg_mission_ack_send _link msg.sysid msg.compid result h.mission_type)
  else
    w

/-- `send_mission_ack(msg, result)`: over the bound link. -/
def send_mission_ack (h : Hooks σ) (env : Env) (msg : mavlink_message_t)
    (result : MAV_MISSION_RESULT) (w : World σ) : World σ :=
  match w.sess.link with
  | none => w.emit Event.internal_error
  | some l => send_mission_ack_link h env l msg result w

/-- `init_send_requests(_link, msg, _request_first, _request_last)`; the two
bounds are `int16_t`. -/
def init_send_requests (h : Hooks σ) (env : Env) (_link : Nat) (msg : mavlink_message_t)
    (_request_first _request_last : Int) (w : World σ) : World σ :=
  { w with
    sess := { w.sess with
      timelast_receive_ms := env.millis 0
      receiving := true
      request_i := uint16_of _request_first
      request_last := uint16_of _request_last
      dest_sysid := msg.sysid
      dest_compid := msg.compid
      link := some _link
      timelast_request_ms := env.millis 1
      mission_item_warning_sent := false
      mission_request_warning_sent := false }
    log := w.log ++ [Event.send_message _link h.next_item_ap_message_id] }

/-- `mavlink2_requirement_met(_link, msg)`. -/
def mavlink2_requirement_met (h : Hooks σ) (env : Env) (_link : Nat) (msg : mavlink_message_t)
    (w : World σ) : Bool × World σ :=
  if h.mission_type = MAV_MISSION_TYPE_MISSION then (true, w)
  else if env.sending_mavlink1 _link = false then (true, w)
  else
    (false, send_mission_ack_link h env _link msg MAV_MISSION_UNSUPPORTED
      (w.emit (Event.send_text Text.need_mavlink2)))

/-- `cancel_upload(_link, msg)`. -/
def cancel_upload (h : Hooks σ) (env : Env) (_link : Nat) (msg : mavlink_message_t)
    (w : World σ) : Bool × World σ :=
  if w.sess.receiving then
    if msg.sysid ≠ w.sess.dest_sysid ∨ msg.compid ≠ w.sess.dest_compid then
      (false, send_mission_ack_link h env _link msg MAV_MISSION_DENIED w)
    else
      (true, { free_upload_resources h w with
                sess := { w.sess with receiving := false, link := none } })
  else
    (true, w)

/-- `transfer_is_complete(_link, msg)`. -/
def transfer_is_complete (h : Hooks σ) (env : Env) (_link : Nat) (msg : mavlink_message_t)
    (w : World σ) : World σ :=
  let w1 := free_upload_resources h
    (send_mission_ack_link h env _link msg (complete h _link w).1 (complete h _link w).2)
  { w1 with sess := { w1.sess with receiving := false, link := none } }

/-- `handle_mission_clear_all(_link, msg)`. -/
def handle_mission_clear_all (h : Hooks σ) (env : Env) (_link : Nat) (msg : mavlink_message_t)
    (w : World σ) : World σ :=
  if (cancel_upload h env _link msg w).1 then
    send_mission_ack_link h env _link msg
      (if (clear_all_items h (cancel_upload h env _link msg w).2).1
        then MAV_MISSION_ACCEPTED else MAV_MISSION_ERROR)
      (clear_all_items h (cancel_upload h env _link msg w).2).2
  else
    send_mission_ack_link h env _link msg MAV_MISSION_ERROR (cancel_upload h env _link msg w).2

/-- `handle_mission_count(_link, packet, msg)`. -/
def handle_mission_count (h : Hooks σ) (env : Env) (_link : Nat)
    (packet : mavlink_mission_count_t) (msg : mavlink_message_t) (w : World σ) : World σ :=
  if (mavlink2_requirement_met h env _link msg w).1 = false then
    (mavlink2_requirement_met h env _link msg w).2
  else
    let w1 := (mavlink2_requirement_met h env _link msg w).2
    if (cancel_upload h env _link msg w1).1 = false then
      (cancel_upload h env _link msg w1).2
    else
      let w2 := (cancel_upload h env _link msg w1).2
      if packet.count > max_items h w2 then
        (send_mission_ack_link h env _link msg MAV_MISSION_NO_SPACE w2).emit
          (Event.send_text (Text.only_n_items_supported (max_items h w2)))
      else if (allocate_receive_resources h packet.count w2).1 ≠ MAV_MISSION_ACCEPTED then
        send_mission_ack_link h env _link msg (allocate_receive_resources h packet.count w2).1
          (allocate_receive_resources h packet.count w2).2
      else
        let w3 := truncate h packet (allocate_receive_resources h packet.count w2).2
        if packet.count = 0 then
          transfer_is_complete h env _link msg w3
        else
          init_send_requests h env _link msg (int16_of 0)
            (int16_of ((packet.count : Int) - 1)) w3

/-- `handle_mission_request_list(_link, packet, msg)`. -/
def handle_mission_request_list (h : Hooks σ) (env : Env) (_link : Nat)
    (msg : mavlink_message_t) (w : World σ) : World σ :=
  if (mavlink2_requirement_met h env _link msg w).1 = false then
    (mavlink2_requirement_met h env _link msg w).2
  else
    let w1 := (mavlink2_requirement_met h env _link msg w).2
    if w1.sess.receiving then
      send_mission_ack_link h env _link msg MAV_MISSION_DENIED w1
    else if env.have_payload_space w1.log _link MsgId.MISSION_COUNT then
      w1.emit (Event.mavlink_msg_mission_count_send _link msg.sysid msg.compid
        (item_count h w1) h.mission_type)
    else
      w1

/-- `handle_mission_request_int(_link, packet, msg)`. -/
def handle_mission_request_int (h : Hooks σ) (env : Env) (_link : Nat)
    (packet : mavlink_mission_request_int_t) (msg : mavlink_message_t) (w : World σ) :
    World σ :=
  if (mavlink2_requirement_met h env _link msg w).1 = false then
    (mavlink2_requirement_met h env _link msg w).2
  else
    let w1 := (mavlink2_requirement_met h env _link msg w).2
    if w1.sess.receiving then
      send_mission_ack_link h env _link msg MAV_MISSION_DENIED w1
    else
      let result_code := (get_item h packet.seq w1).1
      let ret_packet := (get_item h packet.seq w1).2.1
      let w2 := (get_item h packet.seq w1).2.2
      if result_code ≠ MAV_MISSION_ACCEPTED then
        let w3 :=
          if result_code = MAV_MISSION_INVALID_SEQUENCE then
            if env.have_payload_space w2.log _link MsgId.MISSION_COUNT then
              w2.emit (Event.mavlink_msg_mission_count_send _link msg.sysid msg.compid
                (item_count h w2) h.mission_type)
            else w2
          else w2
        send_mission_ack_link h env _link msg result_code w3
      else
        w2.emit (Event.send_message_mission_item_int _link
          { ret_packet with target_system := msg.sysid, target_component := msg.compid })

/-- `handle_mission_request(_link, packet, msg)`, the legacy fetch. -/
def handle_mission_request (h : Hooks σ) (env : Env) (_link : Nat)
    (packet : mavlink_mission_request_t) (msg : mavlink_message_t) (w : World σ) : World σ :=
  if (mavlink2_requirement_met h env _link msg w).1 = false then
    (mavlink2_requirement_met h env _link msg w).2
  else
    let w1 := (mavlink2_requirement_met h env _link msg w).2
    let ret := (get_item h packet.seq w1).1
    let item_int := (get_item h packet.seq w1).2.1
    let w2 := (get_item h packet.seq w1).2.2
    if ret ≠ MAV_MISSION_ACCEPTED then
      send_mission_ack_link h env _link msg ret w2
    else
      let conv := h.convert_MISSION_ITEM_INT_to_MISSION_ITEM
        { item_int with target_system := msg.sysid, target_component := msg.compid }
      let w3 := w2.emit (Event.convert_MISSION_ITEM_INT_to_MISSION_ITEM conv.1)
      if conv.1 ≠ MAV_MISSION_ACCEPTED then
        send_mission_ack_link h env _link msg conv.1 w3
      else
        let w4 :=
          if w3.sess.mission_request_warning_sent = false then
            { w3 with sess := { w3.sess with mission_request_warning_sent := true } }.emit
              (Event.send_text Text.got_mission_request)
          else w3
        w4.emit (Event.send_message_mission_item _link conv.2)

/-- `send_mission_item_warning()`. -/
def send_mission_item_warning (w : World σ) : World σ :=
  if w.sess.mission_item_warning_sent then w
  else
    { w with sess := { w.sess with mission_item_warning_sent := true } }.emit
      (Event.send_text Text.got_mission_item)

/-- `handle_mission_write_partial_list(_link, msg, packet)`. -/
def handle_mission_write_partial_list (h : Hooks σ) (env : Env) (_link : Nat)
    (msg : mavlink_message_t) (packet : mavlink_mission_write_partial_list_t) (w : World σ) :
    World σ :=
  if (mavlink2_requirement_met h env _link msg w).1 = false then
    (mavlink2_requirement_met h env _link msg w).2
  else
    let w1 := (mavlink2_requirement_met h env _link msg w).2
    if w1.sess.receiving then
      send_mission_ack_link h env _link msg MAV_MISSION_DENIED w1
    else if unsigned_of packet.start_index > item_count h w1 ∨
        unsigned_of packet.end_index > item_count h w1 ∨
        packet.end_index < packet.start_index then
      send_mission_ack_link h env _link msg MAV_MISSION_ERROR
        (w1.emit (Event.send_text Text.flight_plan_update_rejected))
    else if (allocate_update_resources h w1).1 ≠ MAV_MISSION_ACCEPTED then
      send_mission_ack_link h env _link msg (allocate_update_resources h w1).1
        (allocate_update_resources h w1).2
    else
      init_send_requests h env _link msg packet.start_index packet.end_index
        (allocate_update_resources h w1).2

/-- `queued_request_send()`; `tnow` is the value `AP_HAL::millis()` returns in it. -/
def queued_request_send (h : Hooks σ) (env : Env) (tnow : Nat) (w : World σ) : World σ :=
  if w.sess.receiving = false then w
  else if w.sess.request_i > w.sess.request_last then w
  else
    match w.sess.link with
    | none => w.emit Event.internal_error
    | some l =>
      if env.have_payload_space w.log l MsgId.MISSION_REQUEST then
        { w with
          sess := { w.sess with timelast_request_ms := tnow }
          log := w.log ++ [Event.mavlink_msg_mission_request_send l w.sess.dest_sysid
                            w.sess.dest_compid w.sess.request_i h.mission_type] }
      else w

/-- The store dispatch of `handle_mission_item`: replace inside the list,
append at its end, `MAV_MISSION_ERROR` beyond it. -/
def store_item (h : Hooks σ) (cmd : mavlink_mission_item_int_t) (w : World σ) :
    MAV_MISSION_RESULT × World σ :=
  if cmd.seq < item_count h w then replace_item h cmd w
  else if cmd.seq = item_count h w then append_item h cmd w
  else (MAV_MISSION_ERROR, w)

/-- `handle_mission_item(msg, cmd)`. -/
def handle_mission_item (h : Hooks σ) (env : Env) (msg : mavlink_message_t)
    (cmd : mavlink_mission_item_int_t) (w : World σ) : World σ :=
  match w.sess.link with
  | none => w.emit Event.internal_error
  | some l =>
    if cmd.seq ≠ w.sess.request_i then
      send_mission_ack h env msg MAV_MISSION_INVALID_SEQUENCE w
    else if msg.sysid ≠ w.sess.dest_sysid then
      send_mission_ack h env msg MAV_MISSION_DENIED w
    else if msg.compid ≠ w.sess.dest_compid then
      send_mission_ack h env msg MAV_MISSION_DENIED w
    else if (store_item h cmd w).1 ≠ MAV_MISSION_ACCEPTED then
      let w1 := send_mission_ack h env msg (store_item h cmd w).1 (store_item h cmd w).2
      free_upload_resources h { w1 with sess := { w1.sess with receiving := false, link := none } }
    else
      let w1 := (store_item h cmd w).2
      let w2 : World σ := { w1 with
        sess := { w1.sess with
          timelast_receive_ms := env.millis 0
          request_i := (w1.sess.request_i + 1) % 65536 } }
      if w2.sess.request_i > w2.sess.request_last then
        transfer_is_complete h env l msg w2
      else if env.have_payload_space w2.log l MsgId.MISSION_REQUEST then
        queued_request_send h env (env.millis 1) w2
      else
        w2.emit (Event.send_message l h.next_item_ap_message_id)

/-- `update()`, the periodic tick. -/
def update (h : Hooks σ) (env : Env) (w : World σ) : World σ :=
  if w.sess.receiving = false then w
  else
    match w.sess.link with
    | none => w.emit Event.internal_error
    | some l =>
      if uint32_sub (env.millis 0) w.sess.timelast_receive_ms > h.upload_timeout_ms then
        let w1 := timeout h { w with sess := { w.sess with receiving := false } }
        let w2 :=
          if env.have_payload_space w1.log l MsgId.MISSION_ACK then
            w1.emit (Event.mavlink_msg_mission_ack_send l w1.sess.dest_sysid
              w1.sess.dest_compid MAV_MISSION_OPERATION_CANCELLED h.mission_type)
          else w1
        free_upload_resources h { w2 with sess := { w2.sess with link := none } }
      else if uint32_sub (env.millis 0) w.sess.timelast_request_ms >
          (1000 + env.get_stream_slowdown_ms l) % 4294967296 then
        { w with sess := { w.sess with timelast_request_ms := env.millis 0 } }.emit
          (Event.send_message l h.next_item_ap_message_id)
      else w

/-! ## Runs -/

/-- One inbound single-item payload: what the environment answers during the
call, the message header and the item. -/
structure ItemCall where
  env : Env
  msg : mavlink_message_t
  cmd : mavlink_mission_item_int_t

/-- Feed the items of a list to `handle_mission_item`, in order. -/
def feed_items (h : Hooks σ) (cs : List ItemCall) (w : World σ) : World σ :=
  cs.foldl (fun v c => handle_mission_item h c.env c.msg c.cmd v) w

/-- The entry points of a session: the packet handlers, the deferred request
sender and the periodic tick. -/
inductive Call
  | handle_mission_clear_all (_link : Nat) (msg : mavlink_message_t)
  | handle_mission_count (_link : Nat) (packet : mavlink_mission_count_t)
      (msg : mavlink_message_t)
  | handle_mission_request_list (_link : Nat) (msg : mavlink_message_t)
  | handle_mission_request_int (_link : Nat) (packet : mavlink_mission_request_int_t)
      (msg : mavlink_message_t)
  | handle_mission_request (_link : Nat) (packet : mavlink_mission_request_t)
      (msg : mavlink_message_t)
  | handle_mission_write_partial_list (_link : Nat) (msg : mavlink_message_t)
      (packet : mavlink_mission_write_partial_list_t)
  | handle_mission_item (msg : mavlink_message_t) (cmd : mavlink_mission_item_int_t)
  | send_mission_item_warning
  | queued_request_send
  | update

/-- One invocation of an entry point. -/
def step (h : Hooks σ) (env : Env) : Call → World σ → World σ
  | Call.handle_mission_clear_all l msg, w => handle_mission_clear_all h env l msg w
  | Call.handle_mission_count l packet msg, w => handle_mission_count h env l packet msg w
  | Call.handle_mission_request_list l msg, w => handle_mission_request_list h env l msg w
  | Call.handle_mission_request_int l packet msg, w =>
      handle_mission_request_int h env l packet msg w
  | Call.handle_mission_request l packet msg, w => handle_mission_request h env l packet msg w
  | Call.handle_mission_write_partial_list l msg packet, w =>
      handle_mission_write_partial_list h env l msg packet w
  | Call.handle_mission_item msg cmd, w => handle_mission_item h env msg cmd w
  | Call.send_mission_item_warning, w => send_mission_item_warning w
  | Call.queued_request_send, w => queued_request_send h env (env.millis 0) w
  | Call.update, w => update h env w

/-- A finite sequence of invocations, each with its own environment. -/
def run (h : Hooks σ) (cs : List (Env × Call)) (w : World σ) : World σ :=
  cs.foldl (fun v c => step h c.1 c.2 v) w

/-! ## Reading the log -/

/-- Is the event a MISSION_ACK written to a channel? -/
def Event.is_ack : Event → Bool
  | Event.mavlink_msg_mission_ack_send _ _ _ _ _ => true
  | _ => false

/-- The acknowledgements of a log, in order. -/
def acks (log : List Event) : List Event := log.filter Event.is_ack

/-- Is the event a call of `replace_item` or `append_item`? -/
def Event.is_store_write : Event → Bool
  | Event.replace_item _ _ => true
  | Event.append_item _ _ => true
  | _ => false

/-- Is the event a call of `complete`? -/
def Event.is_complete : Event → Bool
  | Event.complete _ _ => true
  | _ => false

/-- Is the event an item-request: the MISSION_REQUEST written to a channel, or
the request `ap_message` queued on a link? -/
def Event.is_item_request : Event → Bool
  | Event.mavlink_msg_mission_request_send _ _ _ _ _ => true
  | Event.send_message _ _ => true
  | _ => false

/-- Is the event an allocation of upload resources that the store accepted? -/
def Event.is_successful_allocation : Event → Bool
  | Event.allocate_receive_resources _ MAV_MISSION_ACCEPTED => true
  | Event.allocate_update_resources MAV_MISSION_ACCEPTED => true
  | _ => false

/-- Is the event a call of `free_upload_resources`? -/
def Event.is_free : Event → Bool
  | Event.free_upload_resources => true
  | _ => false

/-- Is the event a call of a store hook that may change the store? -/
def Event.is_store_call : Event → Bool
  | Event.free_upload_resources => true
  | Event.allocate_receive_resources _ _ => true
  | Event.allocate_update_resources _ => true
  | Event.truncate _ => true
  | Event.complete _ _ => true
  | Event.timeout => true
  | Event.replace_item _ _ => true
  | Event.append_item _ _ => true
  | Event.clear_all_items _ => true
  | Event.get_item _ _ => true
  | _ => false

/-- The number of accepted allocations of upload resources in a log. -/
def allocations (log : List Event) : Nat := log.countP Event.is_successful_allocation

/-- The number of calls of `free_upload_resources` in a log. -/
def frees (log : List Event) : Nat := log.countP Event.is_free

/-- The invariant of a session and its log: `receiving` and `link` are set
together, and the accepted allocations exceed the frees by one while
receiving and by none while idle. -/
def session_invariant (w : World σ) : Prop :=
  (w.sess.receiving = true ↔ w.sess.link.isSome = true) ∧
  allocations w.log = frees w.log + (if w.sess.receiving then 1 else 0)

/-- Between two worlds, `receiving` and `link` are both left as they were, or
both cleared, or both set. -/
def set_or_cleared_together (w v : World σ) : Prop :=
  (v.sess.receiving = w.sess.receiving ∧ v.sess.link = w.sess.link) ∨
  (v.sess.receiving = false ∧ v.sess.link = none) ∨
  (v.sess.receiving = true ∧ v.sess.link.isSome = true)

/-- Is the event a call of a store hook that changes the list or its upload
resources: `replace_item`, `append_item`, `truncate`, `clear_all_items`, an
allocation, `free_upload_resources`, `complete`? -/
def Event.is_mutating_store_call : Event → Bool
  | Event.replace_item _ _ => true
  | Event.append_item _ _ => true
  | Event.truncate _ => true
  | Event.clear_all_items _ => true
  | Event.allocate_receive_resources _ _ => true
  | Event.allocate_update_resources _ => true
  | Event.free_upload_resources => true
  | Event.complete _ _ => true
  | _ => false

/-- Between two worlds the upload state (`receiving`, `request_i`,
`request_last`, the peer, `link`, both times) is the same, and the log has only
grown by events that are no mutating store call. -/
def upload_untouched (w v : World σ) : Prop :=
  v.sess.receiving = w.sess.receiving ∧
  v.sess.request_i = w.sess.request_i ∧
  v.sess.request_last = w.sess.request_last ∧
  v.sess.dest_sysid = w.sess.dest_sysid ∧
  v.sess.dest_compid = w.sess.dest_compid ∧
  v.sess.link = w.sess.link ∧
  v.sess.timelast_receive_ms = w.sess.timelast_receive_ms ∧
  v.sess.timelast_request_ms = w.sess.timelast_request_ms ∧
  ∃ evs : List Event, v.log = w.log ++ evs ∧
    evs.all (fun e => !e.is_mutating_store_call) = true

/-- A call whose packet fields fit their wire types: the two bounds of a
partial-list request are `int16_t`. -/
def Call.well_formed : Call → Prop
  | Call.handle_mission_write_partial_list _ _ packet =>
      -32768 ≤ packet.start_index ∧ packet.start_index ≤ 32767 ∧
      -32768 ≤ packet.end_index ∧ packet.end_index ≤ 32767
  | _ => True

/-- The invariant of the upload window: `receiving` and `link` are set
together, and while receiving the next index is inside the window, whose end
is below 65535. -/
def window_invariant (w : World σ) : Prop :=
  (w.sess.receiving = true ↔ w.sess.link.isSome = true) ∧
  (w.sess.receiving = true →
    w.sess.request_i ≤ w.sess.request_last ∧ w.sess.request_last ≤ 65534)

/-- The world `v` is the world `w` after a failed version check: session and
store as they were, the text, and the MAV_MISSION_UNSUPPORTED acknowledgement
to the sender when `_link` has room for it. -/
def rejected_as_unsupported (h : Hooks σ) (env : Env) (_link : Nat) (msg : mavlink_message_t)
    (w v : World σ) : Prop :=
  v.sess = w.sess ∧ v.store = w.store ∧
  v.log = w.log ++ Event.send_text Text.need_mavlink2 ::
    (if env.have_payload_space (w.log ++ [Event.send_text Text.need_mavlink2]) _link
        MsgId.MISSION_ACK then
      [Event.mavlink_msg_mission_ack_send _link msg.sysid msg.compid MAV_MISSION_UNSUPPORTED
        h.mission_type]
     else [])

/-! ## Concrete collaborators -/

/-- A store that only counts its items: every hook accepts, an append adds one. -/
def counting_hooks (mission_type : MAV_MISSION_TYPE) : Hooks Nat where
  mission_type := mission_type
  next_item_ap_message_id := 0
  upload_timeout_ms := 8000
  item_count := fun s => s
  max_items := fun _ => 724
  get_item := fun s seq =>
    if seq < s then ((MAV_MISSION_ACCEPTED, ⟨seq, 0, 0, 0⟩), s)
    else ((MAV_MISSION_INVALID_SEQUENCE, ⟨seq, 0, 0, 0⟩), s)
  replace_item := fun s _ => (MAV_MISSION_ACCEPTED, s)
  append_item := fun s _ => (MAV_MISSION_ACCEPTED, s + 1)
  clear_all_items := fun _ => (true, 0)
  allocate_receive_resources := fun s _ => (MAV_MISSION_ACCEPTED, s)
  allocate_update_resources := fun s => (MAV_MISSION_ACCEPTED, s)
  free_upload_resources := fun s => s
  truncate := fun s packet => min s packet.count
  complete := fun s _ => (MAV_MISSION_ACCEPTED, s)
  timeout := fun s => s
  convert_MISSION_ITEM_INT_to_MISSION_ITEM := fun i =>
    (MAV_MISSION_ACCEPTED, ⟨i.seq, i.target_system, i.target_component, i.body⟩)

/-- An environment at time `t` in which every channel has room or none has. -/
def env_at (t : Nat) (room : Bool) : Env where
  millis := fun _ => t
  have_payload_space := fun _ _ _ => room
  sending_mavlink1 := fun _ => false
  get_stream_slowdown_ms := fun _ => 0

/-- An environment at time `t` in which every link is sending MAVLink 1. -/
def env_mavlink1_at (t : Nat) (room : Bool) : Env where
  millis := fun _ => t
  have_payload_space := fun _ _ _ => room
  sending_mavlink1 := fun _ => true
  get_stream_slowdown_ms := fun _ => 0

/-- A session receiving the window `request_i .. request_last` from the peer
(255, 190) over link 0, both times 0. -/
def receiving_session (request_i request_last : Nat) : Session where
  receiving := true
  link := some 0
  request_last := request_last
  request_i := request_i
  dest_sysid := 255
  dest_compid := 190
  timelast_receive_ms := 0
  timelast_request_ms := 0
  mission_item_warning_sent := false
  mission_request_warning_sent := false

/-- The idle session. -/
def idle_session : Session where
  receiving := false
  link := none
  request_last := 0
  request_i := 0
  dest_sysid := 0
  dest_compid := 0
  timelast_receive_ms := 0
  timelast_request_ms := 0
  mission_item_warning_sent := false
  mission_request_warning_sent := false

/-! ## Theorems -/

/-! ### The building blocks -/

@[simp] theorem emit_sess (w : World σ) (e : Event) : (w.emit e).sess = w.sess := rfl

@[simp] theorem emit_store (w : World σ) (e : Event) : (w.emit e).store = w.store := rfl

@[simp] theorem emit_log (w : World σ) (e : Event) : (w.emit e).log = w.log ++ [e] := rfl

@[simp] theorem send_mission_ack_link_sess (h : Hooks σ) (env : Env) (l : Nat)
    (msg : mavlink_message_t) (r : MAV_MISSION_RESULT) (w : World σ) :
    (send_mission_ack_link h env l msg r w).sess = w.sess := by
  unfold send_mission_ack_link
  split <;> rfl

@[simp] theorem send_mission_ack_link_store (h : Hooks σ) (env : Env) (l : Nat)
    (msg : mavlink_message_t) (r : MAV_MISSION_RESULT) (w : World σ) :
    (send_mission_ack_link h env l msg r w).store = w.store := by
  unfold send_mission_ack_link
  split <;> rfl

theorem send_mission_ack_link_log (h : Hooks σ) (env : Env) (l : Nat)
    (msg : mavlink_message_t) (r : MAV_MISSION_RESULT) (w : World σ) :
    (send_mission_ack_link h env l msg r w).log = w.log ++
      (if env.have_payload_space w.log l MsgId.MISSION_ACK then
        [Event.mavlink_msg_mission_ack_send l msg.sysid msg.compid r h.mission_type]
       else []) := by
  unfold send_mission_ack_link
  split <;> simp [World.emit]

@[simp] theorem free_upload_resources_sess (h : Hooks σ) (w : World σ) :
    (free_upload_resources h w).sess = w.sess := rfl

@[simp] theorem free_upload_resources_store (h : Hooks σ) (w : World σ) :
    (free_upload_resources h w).store = h.free_upload_resources w.store := rfl

@[simp] theorem free_upload_resources_log (h : Hooks σ) (w : World σ) :
    (free_upload_resources h w).log = w.log ++ [Event.free_upload_resources] := rfl

/-- `cancel_upload` succeeds exactly when no upload is active or the sender is
the uploading peer. -/
theorem cancel_upload_fst (h : Hooks σ) (env : Env) (l : Nat) (msg : mavlink_message_t)
    (w : World σ) :
    (cancel_upload h env l msg w).1 = true ↔
      (w.sess.receiving = false ∨
        (msg.sysid = w.sess.dest_sysid ∧ msg.compid = w.sess.dest_compid)) := by
  unfold cancel_upload
  by_cases hrecv : w.sess.receiving = true
  · by_cases hp : msg.sysid ≠ w.sess.dest_sysid ∨ msg.compid ≠ w.sess.dest_compid
    · have : ¬ (msg.sysid = w.sess.dest_sysid ∧ msg.compid = w.sess.dest_compid) := by
        rintro ⟨h1, h2⟩
        rcases hp with hp | hp
        · exact hp h1
        · exact hp h2
      simp [hrecv, hp, this]
    · have : msg.sysid = w.sess.dest_sysid ∧ msg.compid = w.sess.dest_compid := by
        constructor
        · by_contra hc
          exact hp (Or.inl hc)
        · by_contra hc
          exact hp (Or.inr hc)
      simp [hrecv, this]
  · simp [hrecv]

/-- A cancellation that succeeds leaves an idle session; it frees the upload
resources once if an upload was active and does nothing otherwise. -/
theorem cancel_upload_snd_of_success (h : Hooks σ) (env : Env) (l : Nat)
    (msg : mavlink_message_t) (w : World σ) (hok : (cancel_upload h env l msg w).1 = true) :
    (cancel_upload h env l msg w).2 =
      if w.sess.receiving then
        { sess := { w.sess with receiving := false, link := none }
          store := h.free_upload_resources w.store
          log := w.log ++ [Event.free_upload_resources] }
      else w := by
  unfold cancel_upload at hok ⊢
  by_cases hrecv : w.sess.receiving = true
  · by_cases hp : msg.sysid ≠ w.sess.dest_sysid ∨ msg.compid ≠ w.sess.dest_compid
    · simp [hrecv, hp] at hok
    · simp [hrecv, hp, free_upload_resources]
  · simp [hrecv]

/-- A cancellation that fails changes neither session nor store and writes at
most the MAV_MISSION_DENIED acknowledgement. -/
theorem cancel_upload_snd_of_failure (h : Hooks σ) (env : Env) (l : Nat)
    (msg : mavlink_message_t) (w : World σ) (hko : (cancel_upload h env l msg w).1 = false) :
    (cancel_upload h env l msg w).2 =
      send_mission_ack_link h env l msg MAV_MISSION_DENIED w := by
  unfold cancel_upload at hko ⊢
  by_cases hrecv : w.sess.receiving = true
  · by_cases hp : msg.sysid ≠ w.sess.dest_sysid ∨ msg.compid ≠ w.sess.dest_compid
    · simp [hrecv, hp]
    · simp [hrecv, hp] at hko
  · simp [hrecv] at hko

@[simp] theorem transfer_is_complete_sess (h : Hooks σ) (env : Env) (l : Nat)
    (msg : mavlink_message_t) (w : World σ) :
    (transfer_is_complete h env l msg w).sess =
      { w.sess with receiving := false, link := none } := by
  simp [transfer_is_complete, complete]

@[simp] theorem transfer_is_complete_store (h : Hooks σ) (env : Env) (l : Nat)
    (msg : mavlink_message_t) (w : World σ) :
    (transfer_is_complete h env l msg w).store =
      h.free_upload_resources (h.complete w.store l).2 := by
  simp [transfer_is_complete, complete]

/-- The events of a completion: `complete()`, the acknowledgement of its result
when the channel has room, `free_upload_resources()`. -/
theorem transfer_is_complete_log (h : Hooks σ) (env : Env) (l : Nat)
    (msg : mavlink_message_t) (w : World σ) :
    (transfer_is_complete h env l msg w).log =
      w.log ++ Event.complete l (h.complete w.store l).1 ::
        ((if env.have_payload_space (w.log ++ [Event.complete l (h.complete w.store l).1]) l
              MsgId.MISSION_ACK then
            [Event.mavlink_msg_mission_ack_send l msg.sysid msg.compid (h.complete w.store l).1
              h.mission_type]
          else []) ++ [Event.free_upload_resources]) := by
  simp [transfer_is_complete, complete, send_mission_ack_link_log]

/-! ### Single items -/

/-- C2. With a bound link `l`, an item whose `seq` differs from `request_i` is
answered by `handle_mission_item` with a MAV_MISSION_INVALID_SEQUENCE
acknowledgement to the sender over `l` when the channel has room for it, and
with nothing otherwise; the session (so `request_i`) and the store are
unchanged, and the log gains no other event, so neither `replace_item` nor
`append_item` is invoked. -/
theorem handle_mission_item_invalid_sequence (h : Hooks σ) (env : Env)
    (msg : mavlink_message_t) (cmd : mavlink_mission_item_int_t) (w : World σ) (l : Nat)
    (hlink : w.sess.link = some l) (hseq : cmd.seq ≠ w.sess.request_i) :
    (handle_mission_item h env msg cmd w).sess = w.sess ∧
    (handle_mission_item h env msg cmd w).sess.request_i = w.sess.request_i ∧
    (handle_mission_item h env msg cmd w).store = w.store ∧
    (handle_mission_item h env msg cmd w).log = w.log ++
      (if env.have_payload_space w.log l MsgId.MISSION_ACK then
        [Event.mavlink_msg_mission_ack_send l msg.sysid msg.compid
          MAV_MISSION_INVALID_SEQUENCE h.mission_type]
       else []) ∧
    ((handle_mission_item h env msg cmd w).log.drop w.log.length).all
      (fun e => !e.is_store_write) = true := by
  simp only [handle_mission_item, hlink, send_mission_ack, send_mission_ack_link, World.emit]
  rw [if_pos hseq]
  split <;> simp [Event.is_store_write]

/-- Witness of C2: item 2 while item 1 is requested. -/
theorem handle_mission_item_invalid_sequence_witness :
    (handle_mission_item (counting_hooks MAV_MISSION_TYPE_MISSION) (env_at 5 true) ⟨255, 190⟩
      ⟨2, 1, 1, 0⟩ ⟨receiving_session 1 2, 3, []⟩).sess.request_i = 1 ∧
    (handle_mission_item (counting_hooks MAV_MISSION_TYPE_MISSION) (env_at 5 true) ⟨255, 190⟩
      ⟨2, 1, 1, 0⟩ ⟨receiving_session 1 2, 3, []⟩).log =
      [Event.mavlink_msg_mission_ack_send 0 255 190 MAV_MISSION_INVALID_SEQUENCE
        MAV_MISSION_TYPE_MISSION] :=
  have key := handle_mission_item_invalid_sequence (counting_hooks MAV_MISSION_TYPE_MISSION)
    (env_at 5 true) ⟨255, 190⟩ ⟨2, 1, 1, 0⟩ ⟨receiving_session 1 2, 3, []⟩ 0 rfl (by decide)
  ⟨key.2.1, key.2.2.2.1⟩

/-! ### Count announcements -/

/-- The version check passes silently for the primary category and for a link
that is not sending MAVLink 1. -/
theorem mavlink2_requirement_met_of_met (h : Hooks σ) (env : Env) (_link : Nat)
    (msg : mavlink_message_t) (w : World σ)
    (hver : h.mission_type = MAV_MISSION_TYPE_MISSION ∨ env.sending_mavlink1 _link = false) :
    mavlink2_requirement_met h env _link msg w = (true, w) := by
  unfold mavlink2_requirement_met
  rcases hver with hm | hl
  · simp [hm]
  · simp [hl]

/-- The two conversions a count goes through on its way into `request_last`
give back `count - 1`. -/
theorem uint16_of_int16_of_pred (count : Nat) (h1 : 1 ≤ count) (h2 : count < 65536) :
    uint16_of (int16_of ((count : Int) - 1)) = count - 1 := by
  unfold uint16_of int16_of
  omega

/-- The start of a full upload is index 0. -/
theorem uint16_of_int16_of_zero : uint16_of (int16_of 0) = 0 := by
  decide

/-- C3 as amended. While a session is receiving from the peer
(`dest_sysid`, `dest_compid`), a count announcement from a sender that differs
in either identifier, arriving over `_link` with the version requirement met,
leaves the whole session (`receiving`, `request_i`, `request_last`, the peer,
`link`, both times) and the store unchanged and invokes no store hook: the log
gains a MAV_MISSION_DENIED acknowledgement addressed to the announcer when
`_link` has room for it, and nothing otherwise. The session therefore stays
with its first peer. -/
theorem handle_mission_count_other_peer (h : Hooks σ) (env : Env) (_link : Nat)
    (packet : mavlink_mission_count_t) (msg : mavlink_message_t) (w : World σ)
    (hrecv : w.sess.receiving = true)
    (hpeer : msg.sysid ≠ w.sess.dest_sysid ∨ msg.compid ≠ w.sess.dest_compid)
    (hver : h.mission_type = MAV_MISSION_TYPE_MISSION ∨ env.sending_mavlink1 _link = false) :
    (handle_mission_count h env _link packet msg w).sess = w.sess ∧
    (handle_mission_count h env _link packet msg w).store = w.store ∧
    (handle_mission_count h env _link packet msg w).log = w.log ++
      (if env.have_payload_space w.log _link MsgId.MISSION_ACK then
        [Event.mavlink_msg_mission_ack_send _link msg.sysid msg.compid MAV_MISSION_DENIED
          h.mission_type]
       else []) ∧
    ((handle_mission_count h env _link packet msg w).log.drop w.log.length).all
      (fun e => !e.is_store_call) = true := by
  by_cases hroom : env.have_payload_space w.log _link MsgId.MISSION_ACK = true <;>
    simp [handle_mission_count, mavlink2_requirement_met_of_met h env _link msg w hver,
      cancel_upload, hrecv, hpeer, send_mission_ack_link, World.emit, hroom,
      Event.is_store_call]

/-- Witness of C3 as amended: (1, 1) announces while (255, 190) uploads. -/
theorem handle_mission_count_other_peer_witness :
    (handle_mission_count (counting_hooks MAV_MISSION_TYPE_MISSION) (env_at 5 true) 1 ⟨4⟩
      ⟨1, 1⟩ ⟨receiving_session 1 2, 3, []⟩).sess = receiving_session 1 2 ∧
    (handle_mission_count (counting_hooks MAV_MISSION_TYPE_MISSION) (env_at 5 true) 1 ⟨4⟩
      ⟨1, 1⟩ ⟨receiving_session 1 2, 3, []⟩).log =
      [Event.mavlink_msg_mission_ack_send 1 1 1 MAV_MISSION_DENIED MAV_MISSION_TYPE_MISSION] :=
  have key := handle_mission_count_other_peer (counting_hooks MAV_MISSION_TYPE_MISSION)
    (env_at 5 true) 1 ⟨4⟩ ⟨1, 1⟩ ⟨receiving_session 1 2, 3, []⟩ rfl (by decide) (Or.inl rfl)
  ⟨key.1, key.2.2.1⟩

/-- Counterexample to C3 as stated: with (255, 190) uploading, the version
requirement met and no room on link 1 for a MISSION_ACK, the count
announcement of (1, 1) is answered by nothing at all: no
MAV_MISSION_DENIED acknowledgement is emitted. -/
theorem handle_mission_count_other_peer_no_room :
    (receiving_session 1 2).receiving = true ∧
    ((⟨1, 1⟩ : mavlink_message_t).sysid ≠ (receiving_session 1 2).dest_sysid) ∧
    (counting_hooks MAV_MISSION_TYPE_MISSION).mission_type = MAV_MISSION_TYPE_MISSION ∧
    (handle_mission_count (counting_hooks MAV_MISSION_TYPE_MISSION) (env_at 5 false) 1 ⟨4⟩
      ⟨1, 1⟩ ⟨receiving_session 1 2, 3, []⟩).log = [] := by
  decide

/-- C4. While a session is receiving from a peer, a count announcement of that
same peer over `_link`, with the version requirement met, `1 <= count <=
max_items()` and `allocate_receive_resources(count)` accepted (both asked of
the store after the old upload was released), ends with the session receiving
for that peer over `_link`, `request_i = 0`, `request_last = count - 1`, the
two times set to the two readings of the clock, and the log extended by exactly
one `free_upload_resources`, then the accepted allocation, then the truncation
to `count`, then one queued item-request. -/
theorem handle_mission_count_same_peer_restart (h : Hooks σ) (env : Env) (_link : Nat)
    (packet : mavlink_mission_count_t) (msg : mavlink_message_t) (w : World σ)
    (hrecv : w.sess.receiving = true)
    (hsys : msg.sysid = w.sess.dest_sysid) (hcomp : msg.compid = w.sess.dest_compid)
    (hver : h.mission_type = MAV_MISSION_TYPE_MISSION ∨ env.sending_mavlink1 _link = false)
    (hone : 1 ≤ packet.count)
    (hmax : packet.count ≤ max_items h (free_upload_resources h w))
    (halloc : (h.allocate_receive_resources (h.free_upload_resources w.store) packet.count).1
      = MAV_MISSION_ACCEPTED) :
    (handle_mission_count h env _link packet msg w).sess.receiving = true ∧
    (handle_mission_count h env _link packet msg w).sess.link = some _link ∧
    (handle_mission_count h env _link packet msg w).sess.dest_sysid = w.sess.dest_sysid ∧
    (handle_mission_count h env _link packet msg w).sess.dest_compid = w.sess.dest_compid ∧
    (handle_mission_count h env _link packet msg w).sess.request_i = 0 ∧
    (handle_mission_count h env _link packet msg w).sess.request_last = packet.count - 1 ∧
    (handle_mission_count h env _link packet msg w).sess.timelast_receive_ms = env.millis 0 ∧
    (handle_mission_count h env _link packet msg w).sess.timelast_request_ms = env.millis 1 ∧
    (handle_mission_count h env _link packet msg w).store =
      h.truncate (h.allocate_receive_resources (h.free_upload_resources w.store)
        packet.count).2 packet ∧
    (handle_mission_count h env _link packet msg w).log = w.log ++
      [Event.free_upload_resources,
       Event.allocate_receive_resources packet.count MAV_MISSION_ACCEPTED,
       Event.truncate packet.count,
       Event.send_message _link h.next_item_ap_message_id] := by
  have hlt : packet.count < 65536 := by
    have := Nat.mod_lt (h.max_items (h.free_upload_resources w.store))
      (show 0 < 65536 by decide)
    simp only [max_items, free_upload_resources] at hmax
    omega
  have hnot : ¬ (msg.sysid ≠ w.sess.dest_sysid ∨ msg.compid ≠ w.sess.dest_compid) := by
    simp [hsys, hcomp]
  have hgt : ¬ packet.count > max_items h (free_upload_resources h w) := by omega
  have hne : packet.count ≠ 0 := by omega
  simp only [handle_mission_count, mavlink2_requirement_met_of_met h env _link msg w hver,
    cancel_upload, hrecv, if_neg hnot]
  simp only [max_items, free_upload_resources] at hgt
  simp [max_items, free_upload_resources, allocate_receive_resources, truncate,
    init_send_requests, hgt, halloc, hne, hsys, hcomp, uint16_of_int16_of_zero,
    uint16_of_int16_of_pred packet.count hone hlt]

/-- Witness of C4: the uploader restarts with a count of 4 after item 0. -/
theorem handle_mission_count_same_peer_restart_witness :
    (handle_mission_count (counting_hooks MAV_MISSION_TYPE_MISSION) (env_at 5 true) 0 ⟨4⟩
      ⟨255, 190⟩ ⟨receiving_session 1 2, 3, []⟩).sess.request_i = 0 ∧
    (handle_mission_count (counting_hooks MAV_MISSION_TYPE_MISSION) (env_at 5 true) 0 ⟨4⟩
      ⟨255, 190⟩ ⟨receiving_session 1 2, 3, []⟩).sess.request_last = 3 ∧
    (handle_mission_count (counting_hooks MAV_MISSION_TYPE_MISSION) (env_at 5 true) 0 ⟨4⟩
      ⟨255, 190⟩ ⟨receiving_session 1 2, 3, []⟩).log =
      [Event.free_upload_resources,
       Event.allocate_receive_resources 4 MAV_MISSION_ACCEPTED,
       Event.truncate 4,
       Event.send_message 0 0] :=
  have key := handle_mission_count_same_peer_restart (counting_hooks MAV_MISSION_TYPE_MISSION)
    (env_at 5 true) 0 ⟨4⟩ ⟨255, 190⟩ ⟨receiving_session 1 2, 3, []⟩ rfl rfl rfl (Or.inl rfl)
    (by decide) (by decide) rfl
  ⟨key.2.2.2.2.1, key.2.2.2.2.2.1, key.2.2.2.2.2.2.2.2.2⟩

/-! ### The periodic tick -/

/-- The `uint32_t` difference the code compares is the difference of the two
times modulo 2^32. -/
theorem uint32_sub_gt_iff (a b t : Nat) :
    uint32_sub a b > t ↔ ((a : Int) - (b : Int)) % 4294967296 > (t : Int) := by
  unfold uint32_sub
  have hnn : 0 ≤ ((a : Int) - (b : Int)) % 4294967296 := Int.emod_nonneg _ (by decide)
  omega

/-- C5. For a receiving session bound to link `l`, `update()` abandons the
upload exactly when `(now - timelast_receive_ms) mod 2^32 > upload_timeout_ms`.
When it does, `receiving` is cleared and `link` unbound (nothing else of the
session changes), the log gains `timeout()`, then an
MAV_MISSION_OPERATION_CANCELLED acknowledgement to (`dest_sysid`,
`dest_compid`) over `l` exactly when the channel has room for it, then
`free_upload_resources()`, each hook once, and no item-request. -/
theorem update_timeout (h : Hooks σ) (env : Env) (w : World σ) (l : Nat)
    (hrecv : w.sess.receiving = true) (hlink : w.sess.link = some l) :
    ((update h env w).sess.receiving = false ↔
      ((env.millis 0 : Int) - (w.sess.timelast_receive_ms : Int)) % 4294967296
        > (h.upload_timeout_ms : Int)) ∧
    (((env.millis 0 : Int) - (w.sess.timelast_receive_ms : Int)) % 4294967296
        > (h.upload_timeout_ms : Int) →
      (update h env w).sess = { w.sess with receiving := false, link := none } ∧
      (update h env w).store = h.free_upload_resources (h.timeout w.store) ∧
      (update h env w).log = w.log ++ Event.timeout ::
        ((if env.have_payload_space (w.log ++ [Event.timeout]) l MsgId.MISSION_ACK then
            [Event.mavlink_msg_mission_ack_send l w.sess.dest_sysid w.sess.dest_compid
              MAV_MISSION_OPERATION_CANCELLED h.mission_type]
          else []) ++ [Event.free_upload_resources]) ∧
      ((update h env w).log.drop w.log.length).countP Event.is_free = 1 ∧
      ((update h env w).log.drop w.log.length).countP (fun e => e = Event.timeout) = 1 ∧
      ((update h env w).log.drop w.log.length).all (fun e => !e.is_item_request) = true) := by
  rw [← uint32_sub_gt_iff]
  by_cases hto : uint32_sub (env.millis 0) w.sess.timelast_receive_ms > h.upload_timeout_ms
  · by_cases hroom :
        env.have_payload_space (w.log ++ [Event.timeout]) l MsgId.MISSION_ACK = true <;>
      simp [update, hrecv, hlink, hto, timeout, free_upload_resources, World.emit, hroom,
        Event.is_free, Event.is_item_request, List.countP_cons]
  · by_cases hrs : uint32_sub (env.millis 0) w.sess.timelast_request_ms >
        (1000 + env.get_stream_slowdown_ms l) % 4294967296 <;>
      simp [update, hrecv, hlink, hto, hrs, World.emit]

/-- Witness of C5: the tick at 8001 ms after the last item at 0 ms. -/
theorem update_timeout_witness :
    (update (counting_hooks MAV_MISSION_TYPE_MISSION) (env_at 8001 true)
      ⟨receiving_session 1 2, 3, []⟩).sess.receiving = false ∧
    (update (counting_hooks MAV_MISSION_TYPE_MISSION) (env_at 8001 true)
      ⟨receiving_session 1 2, 3, []⟩).log =
      [Event.timeout,
       Event.mavlink_msg_mission_ack_send 0 255 190 MAV_MISSION_OPERATION_CANCELLED
         MAV_MISSION_TYPE_MISSION,
       Event.free_upload_resources] :=
  have key := update_timeout (counting_hooks MAV_MISSION_TYPE_MISSION) (env_at 8001 true)
    ⟨receiving_session 1 2, 3, []⟩ 0 rfl rfl
  ⟨key.1.2 (by decide), (key.2 (by decide)).2.2.1⟩

/-! ### An empty list -/

/-- C6. A count announcement with `count == 0` that passes the version check,
for which `cancel_upload` succeeds and `allocate_receive_resources(0)` is
accepted, leaves the session idle (`receiving` false, `link` unbound). After
the cancellation it calls the allocation, the truncation and `complete()` once,
then writes one acknowledgement carrying the result of `complete()` to the
announcer when `_link` has room for it (none otherwise), then frees the upload
resources; no item-request is sent. -/
theorem handle_mission_count_zero (h : Hooks σ) (env : Env) (_link : Nat)
    (packet : mavlink_mission_count_t) (msg : mavlink_message_t) (w : World σ)
    (hzero : packet.count = 0)
    (hver : h.mission_type = MAV_MISSION_TYPE_MISSION ∨ env.sending_mavlink1 _link = false)
    (hcancel : (cancel_upload h env _link msg w).1 = true)
    (halloc : (allocate_receive_resources h 0 (cancel_upload h env _link msg w).2).1
      = MAV_MISSION_ACCEPTED) :
    (handle_mission_count h env _link packet msg w).sess.receiving = false ∧
    (handle_mission_count h env _link packet msg w).sess.link = none ∧
    (complete h _link (truncate h packet
        (allocate_receive_resources h 0 (cancel_upload h env _link msg w).2).2)).2.log =
      w.log ++ (if w.sess.receiving then [Event.free_upload_resources] else []) ++
        [Event.allocate_receive_resources 0 MAV_MISSION_ACCEPTED, Event.truncate 0,
         Event.complete _link (complete h _link (truncate h packet
           (allocate_receive_resources h 0 (cancel_upload h env _link msg w).2).2)).1] ∧
    (handle_mission_count h env _link packet msg w).log =
      (complete h _link (truncate h packet
        (allocate_receive_resources h 0 (cancel_upload h env _link msg w).2).2)).2.log ++
      (if env.have_payload_space (complete h _link (truncate h packet
          (allocate_receive_resources h 0 (cancel_upload h env _link msg w).2).2)).2.log
          _link MsgId.MISSION_ACK then
        [Event.mavlink_msg_mission_ack_send _link msg.sysid msg.compid
          (complete h _link (truncate h packet
            (allocate_receive_resources h 0 (cancel_upload h env _link msg w).2).2)).1
          h.mission_type]
       else []) ++ [Event.free_upload_resources] ∧
    acks ((handle_mission_count h env _link packet msg w).log.drop w.log.length) =
      (if env.have_payload_space (complete h _link (truncate h packet
          (allocate_receive_resources h 0 (cancel_upload h env _link msg w).2).2)).2.log
          _link MsgId.MISSION_ACK then
        [Event.mavlink_msg_mission_ack_send _link msg.sysid msg.compid
          (complete h _link (truncate h packet
            (allocate_receive_resources h 0 (cancel_upload h env _link msg w).2).2)).1
          h.mission_type]
       else []) ∧
    ((handle_mission_count h env _link packet msg w).log.drop w.log.length).countP
      Event.is_complete = 1 ∧
    ((handle_mission_count h env _link packet msg w).log.drop w.log.length).all
      (fun e => !e.is_item_request) = true := by
  have hmeet := mavlink2_requirement_met_of_met h env _link msg w hver
  have hlog2 : (cancel_upload h env _link msg w).2.log =
      w.log ++ (if w.sess.receiving then [Event.free_upload_resources] else []) := by
    rw [cancel_upload_snd_of_success h env _link msg w hcancel]
    split <;> simp
  have hcount : packet = ⟨0⟩ := by
    cases packet
    simp_all
  subst hcount
  have hstep : handle_mission_count h env _link ⟨0⟩ msg w =
      transfer_is_complete h env _link msg
        (truncate h ⟨0⟩ (allocate_receive_resources h 0 (cancel_upload h env _link msg w).2).2) := by
    simp [handle_mission_count, hmeet, hcancel, halloc]
  rw [hstep]
  generalize (cancel_upload h env _link msg w).2 = w2 at halloc hlog2 ⊢
  have hacc : (h.allocate_receive_resources w2.store 0).1 = MAV_MISSION_ACCEPTED := halloc
  have hlen : w.log.length ≤ w2.log.length := by
    rw [hlog2]
    simp
  refine ⟨by simp, by simp, ?_, ?_, ?_, ?_, ?_⟩
  · simp [complete, truncate, allocate_receive_resources, hlog2, hacc]
  · simp [transfer_is_complete_log, complete, truncate, allocate_receive_resources, hacc]
  · rw [transfer_is_complete_log]
    simp only [complete, truncate, allocate_receive_resources, hacc, hlog2]
    by_cases hrecv : w.sess.receiving = true <;>
    split <;> simp_all [acks, Event.is_ack, List.filter_cons]
  · rw [transfer_is_complete_log]
    simp only [complete, truncate, allocate_receive_resources, hacc, hlog2]
    by_cases hrecv : w.sess.receiving = true <;>
    split <;> simp_all [Event.is_complete, List.countP_cons]
  · rw [transfer_is_complete_log]
    simp only [complete, truncate, allocate_receive_resources, hacc, hlog2]
    by_cases hrecv : w.sess.receiving = true <;>
    split <;> simp_all [Event.is_item_request]

/-- Witness of C6: an idle session is told that the list has no items. -/
theorem handle_mission_count_zero_witness :
    (handle_mission_count (counting_hooks MAV_MISSION_TYPE_MISSION) (env_at 5 true) 0 ⟨0⟩
      ⟨255, 190⟩ ⟨idle_session, 3, []⟩).sess.receiving = false ∧
    (handle_mission_count (counting_hooks MAV_MISSION_TYPE_MISSION) (env_at 5 true) 0 ⟨0⟩
      ⟨255, 190⟩ ⟨idle_session, 3, []⟩).log =
      [Event.allocate_receive_resources 0 MAV_MISSION_ACCEPTED, Event.truncate 0,
       Event.complete 0 MAV_MISSION_ACCEPTED,
       Event.mavlink_msg_mission_ack_send 0 255 190 MAV_MISSION_ACCEPTED
         MAV_MISSION_TYPE_MISSION,
       Event.free_upload_resources] :=
  have key := handle_mission_count_zero (counting_hooks MAV_MISSION_TYPE_MISSION)
    (env_at 5 true) 0 ⟨0⟩ ⟨255, 190⟩ ⟨idle_session, 3, []⟩ rfl (Or.inl rfl) rfl rfl
  ⟨key.1, key.2.2.2.1⟩

/-! ### Partial lists -/

/-- The guard of `handle_mission_write_partial_list`, with its cast to
`unsigned`, rejects exactly the windows that violate
`0 <= start_index <= end_index <= item_count()`. -/
theorem partial_list_guard_iff (s e : Int) (n : Nat) (hs : -32768 ≤ s ∧ s ≤ 32767)
    (he : -32768 ≤ e ∧ e ≤ 32767) (hn : n < 65536) :
    (unsigned_of s > n ∨ unsigned_of e > n ∨ e < s) ↔ ¬ (0 ≤ s ∧ s ≤ e ∧ e ≤ (n : Int)) := by
  unfold unsigned_of
  omega

/-- C7 as amended. For an idle session, the version requirement met and
`int16_t` bounds, `handle_mission_write_partial_list` rejects the request
(session and store unchanged, so Receiving is not entered and
`allocate_update_resources` is not invoked; one text; a MAV_MISSION_ERROR
acknowledgement to the sender when `_link` has room for it and none otherwise)
if and only if `0 <= start_index <= end_index <= item_count()` is violated.
When the guard holds, the first thing the handler does is to call
`allocate_update_resources()`. -/
theorem handle_mission_write_partial_list_guard (h : Hooks σ) (env : Env) (_link : Nat)
    (msg : mavlink_message_t) (packet : mavlink_mission_write_partial_list_t) (w : World σ)
    (hidle : w.sess.receiving = false)
    (hver : h.mission_type = MAV_MISSION_TYPE_MISSION ∨ env.sending_mavlink1 _link = false)
    (hs : -32768 ≤ packet.start_index ∧ packet.start_index ≤ 32767)
    (he : -32768 ≤ packet.end_index ∧ packet.end_index ≤ 32767) :
    (((handle_mission_write_partial_list h env _link msg packet w).sess = w.sess ∧
      (handle_mission_write_partial_list h env _link msg packet w).store = w.store ∧
      (handle_mission_write_partial_list h env _link msg packet w).log =
        w.log ++ Event.send_text Text.flight_plan_update_rejected ::
          (if env.have_payload_space
              (w.log ++ [Event.send_text Text.flight_plan_update_rejected]) _link
              MsgId.MISSION_ACK then
            [Event.mavlink_msg_mission_ack_send _link msg.sysid msg.compid MAV_MISSION_ERROR
              h.mission_type]
           else [])) ↔
      ¬ (0 ≤ packet.start_index ∧ packet.start_index ≤ packet.end_index ∧
          packet.end_index ≤ (item_count h w : Int))) ∧
    ((0 ≤ packet.start_index ∧ packet.start_index ≤ packet.end_index ∧
          packet.end_index ≤ (item_count h w : Int)) →
      ∃ rest, (handle_mission_write_partial_list h env _link msg packet w).log =
        w.log ++ Event.allocate_update_resources (h.allocate_update_resources w.store).1 ::
          rest) := by
  have hmeet := mavlink2_requirement_met_of_met h env _link msg w hver
  have hn : item_count h w < 65536 := Nat.mod_lt _ (by decide)
  have hg := partial_list_guard_iff packet.start_index packet.end_index (item_count h w) hs he hn
  by_cases hguard : 0 ≤ packet.start_index ∧ packet.start_index ≤ packet.end_index ∧
      packet.end_index ≤ (item_count h w : Int)
  · have hcode : ¬ (unsigned_of packet.start_index > item_count h w ∨
        unsigned_of packet.end_index > item_count h w ∨
        packet.end_index < packet.start_index) := by
      rw [hg]
      exact not_not.mpr hguard
    have hlog : ∃ rest, (handle_mission_write_partial_list h env _link msg packet w).log =
        w.log ++ Event.allocate_update_resources (h.allocate_update_resources w.store).1 ::
          rest := by
      by_cases halloc : (h.allocate_update_resources w.store).1 = MAV_MISSION_ACCEPTED
      · refine ⟨[Event.send_message _link h.next_item_ap_message_id], ?_⟩
        simp [handle_mission_write_partial_list, hmeet, hidle, hcode, allocate_update_resources,
          halloc, init_send_requests]
      · refine ⟨if env.have_payload_space
            (w.log ++ [Event.allocate_update_resources (h.allocate_update_resources w.store).1])
            _link MsgId.MISSION_ACK then
          [Event.mavlink_msg_mission_ack_send _link msg.sysid msg.compid
            (h.allocate_update_resources w.store).1 h.mission_type] else [], ?_⟩
        simp [handle_mission_write_partial_list, hmeet, hidle, hcode, allocate_update_resources,
          halloc, send_mission_ack_link_log]
    refine ⟨?_, fun _ => hlog⟩
    constructor
    · rintro ⟨_, _, hl⟩
      obtain ⟨rest, hrest⟩ := hlog
      rw [hrest] at hl
      simp at hl
    · intro hc
      exact absurd hguard hc
  · have hcode : unsigned_of packet.start_index > item_count h w ∨
        unsigned_of packet.end_index > item_count h w ∨
        packet.end_index < packet.start_index := hg.mpr hguard
    refine ⟨?_, fun hc => absurd hc hguard⟩
    constructor
    · intro _
      exact hguard
    · intro _
      simp [handle_mission_write_partial_list, hmeet, hidle, hcode, send_mission_ack_link_log]

/-- Witness of C7 as amended: the window 2..1 over a list of three items. -/
theorem handle_mission_write_partial_list_guard_witness :
    (handle_mission_write_partial_list (counting_hooks MAV_MISSION_TYPE_MISSION)
      (env_at 5 true) 0 ⟨255, 190⟩ ⟨2, 1⟩ ⟨idle_session, 3, []⟩).sess = idle_session ∧
    (handle_mission_write_partial_list (counting_hooks MAV_MISSION_TYPE_MISSION)
      (env_at 5 true) 0 ⟨255, 190⟩ ⟨2, 1⟩ ⟨idle_session, 3, []⟩).log =
      [Event.send_text Text.flight_plan_update_rejected,
       Event.mavlink_msg_mission_ack_send 0 255 190 MAV_MISSION_ERROR
         MAV_MISSION_TYPE_MISSION] :=
  have key := (handle_mission_write_partial_list_guard (counting_hooks MAV_MISSION_TYPE_MISSION)
    (env_at 5 true) 0 ⟨255, 190⟩ ⟨2, 1⟩ ⟨idle_session, 3, []⟩ rfl (Or.inl rfl)
    (by decide) (by decide)).1.2 (by decide)
  ⟨key.1, key.2.2⟩

/-- Counterexample to C7 as stated: an idle session, the version requirement
met, the window 2..1 (so `end_index < start_index`) and no room on the link for
a MISSION_ACK: the request is dropped with a text only, and no
MAV_MISSION_ERROR acknowledgement is emitted. -/
theorem handle_mission_write_partial_list_no_room :
    idle_session.receiving = false ∧
    (counting_hooks MAV_MISSION_TYPE_MISSION).mission_type = MAV_MISSION_TYPE_MISSION ∧
    ((⟨2, 1⟩ : mavlink_mission_write_partial_list_t).end_index <
      (⟨2, 1⟩ : mavlink_mission_write_partial_list_t).start_index) ∧
    (handle_mission_write_partial_list (counting_hooks MAV_MISSION_TYPE_MISSION)
      (env_at 5 false) 0 ⟨255, 190⟩ ⟨2, 1⟩ ⟨idle_session, 3, []⟩).log =
      [Event.send_text Text.flight_plan_update_rejected] ∧
    acks (handle_mission_write_partial_list (counting_hooks MAV_MISSION_TYPE_MISSION)
      (env_at 5 false) 0 ⟨255, 190⟩ ⟨2, 1⟩ ⟨idle_session, 3, []⟩).log = [] := by
  decide

/-! ### Fetching an item -/

/-- C8. For an idle session with the version requirement met, an indexed fetch
leaves the session unchanged and, when `get_item(seq)` does not accept, sends
no item. If the result is MAV_MISSION_INVALID_SEQUENCE, the log gains the call
of `get_item`, then a count report to the requester carrying the current
`item_count()` when `_link` has room for a MISSION_COUNT, then the
MAV_MISSION_INVALID_SEQUENCE acknowledgement when `_link` has room for a
MISSION_ACK at that point. For any other result that is not
MAV_MISSION_ACCEPTED the log gains the call of `get_item` and then only the
acknowledgement of that result (when there is room for it), and no count
report. -/
theorem handle_mission_request_int_not_accepted (h : Hooks σ) (env : Env) (_link : Nat)
    (packet : mavlink_mission_request_int_t) (msg : mavlink_message_t) (w : World σ)
    (hidle : w.sess.receiving = false)
    (hver : h.mission_type = MAV_MISSION_TYPE_MISSION ∨ env.sending_mavlink1 _link = false) :
    (handle_mission_request_int h env _link packet msg w).sess = w.sess ∧
    (handle_mission_request_int h env _link packet msg w).store =
      (h.get_item w.store packet.seq).2 ∧
    ((h.get_item w.store packet.seq).1.1 = MAV_MISSION_INVALID_SEQUENCE →
      (handle_mission_request_int h env _link packet msg w).log =
        (w.log ++ [Event.get_item packet.seq MAV_MISSION_INVALID_SEQUENCE] ++
          (if env.have_payload_space
              (w.log ++ [Event.get_item packet.seq MAV_MISSION_INVALID_SEQUENCE]) _link
              MsgId.MISSION_COUNT then
            [Event.mavlink_msg_mission_count_send _link msg.sysid msg.compid
              (h.item_count (h.get_item w.store packet.seq).2 % 65536) h.mission_type]
           else [])) ++
        (if env.have_payload_space
            (w.log ++ [Event.get_item packet.seq MAV_MISSION_INVALID_SEQUENCE] ++
              (if env.have_payload_space
                  (w.log ++ [Event.get_item packet.seq MAV_MISSION_INVALID_SEQUENCE]) _link
                  MsgId.MISSION_COUNT then
                [Event.mavlink_msg_mission_count_send _link msg.sysid msg.compid
                  (h.item_count (h.get_item w.store packet.seq).2 % 65536) h.mission_type]
               else [])) _link MsgId.MISSION_ACK then
          [Event.mavlink_msg_mission_ack_send _link msg.sysid msg.compid
            MAV_MISSION_INVALID_SEQUENCE h.mission_type]
         else [])) ∧
    ((h.get_item w.store packet.seq).1.1 ≠ MAV_MISSION_ACCEPTED →
      (h.get_item w.store packet.seq).1.1 ≠ MAV_MISSION_INVALID_SEQUENCE →
      (handle_mission_request_int h env _link packet msg w).log =
        w.log ++ [Event.get_item packet.seq (h.get_item w.store packet.seq).1.1] ++
        (if env.have_payload_space
            (w.log ++ [Event.get_item packet.seq (h.get_item w.store packet.seq).1.1]) _link
            MsgId.MISSION_ACK then
          [Event.mavlink_msg_mission_ack_send _link msg.sysid msg.compid
            (h.get_item w.store packet.seq).1.1 h.mission_type]
         else [])) := by
  have hmeet := mavlink2_requirement_met_of_met h env _link msg w hver
  refine ⟨?_, ?_, ?_, ?_⟩
  · simp only [handle_mission_request_int, hmeet, hidle, get_item]
    by_cases hacc : (h.get_item w.store packet.seq).1.1 = MAV_MISSION_ACCEPTED
    · simp [hacc]
    · by_cases hinv : (h.get_item w.store packet.seq).1.1 = MAV_MISSION_INVALID_SEQUENCE
      · simp [hinv]
        split <;> rfl
      · simp [hacc, hinv]
  · simp only [handle_mission_request_int, hmeet, hidle, get_item]
    by_cases hacc : (h.get_item w.store packet.seq).1.1 = MAV_MISSION_ACCEPTED
    · simp [hacc]
    · by_cases hinv : (h.get_item w.store packet.seq).1.1 = MAV_MISSION_INVALID_SEQUENCE
      · simp [hinv]
        split <;> rfl
      · simp [hacc, hinv]
  · intro hinv
    simp only [handle_mission_request_int, hmeet, hidle, get_item, item_count]
    by_cases hroom : env.have_payload_space
        (w.log ++ [Event.get_item packet.seq MAV_MISSION_INVALID_SEQUENCE]) _link
        MsgId.MISSION_COUNT = true <;>
      simp [hinv, hroom, send_mission_ack_link_log]
  · intro hacc hinv
    simp [handle_mission_request_int, hmeet, hidle, get_item, hacc, hinv,
      send_mission_ack_link_log]

/-- Witness of C8: item 5 is fetched from a list of three items. -/
theorem handle_mission_request_int_not_accepted_witness :
    (handle_mission_request_int (counting_hooks MAV_MISSION_TYPE_MISSION) (env_at 5 true) 0
      ⟨5⟩ ⟨255, 190⟩ ⟨idle_session, 3, []⟩).sess = idle_session ∧
    (handle_mission_request_int (counting_hooks MAV_MISSION_TYPE_MISSION) (env_at 5 true) 0
      ⟨5⟩ ⟨255, 190⟩ ⟨idle_session, 3, []⟩).log =
      [Event.get_item 5 MAV_MISSION_INVALID_SEQUENCE,
       Event.mavlink_msg_mission_count_send 0 255 190 3 MAV_MISSION_TYPE_MISSION,
       Event.mavlink_msg_mission_ack_send 0 255 190 MAV_MISSION_INVALID_SEQUENCE
         MAV_MISSION_TYPE_MISSION] :=
  have key := handle_mission_request_int_not_accepted (counting_hooks MAV_MISSION_TYPE_MISSION)
    (env_at 5 true) 0 ⟨5⟩ ⟨255, 190⟩ ⟨idle_session, 3, []⟩ rfl (Or.inl rfl)
  ⟨key.1, key.2.2.1 rfl⟩

/-! ### A whole window of items -/

@[simp] theorem store_item_sess (h : Hooks σ) (cmd : mavlink_mission_item_int_t) (w : World σ) :
    (store_item h cmd w).2.sess = w.sess := by
  unfold store_item
  split
  · rfl
  · split <;> rfl

/-- The store dispatch writes no acknowledgement. -/
theorem store_item_acks (h : Hooks σ) (cmd : mavlink_mission_item_int_t) (w : World σ) :
    acks (store_item h cmd w).2.log = acks w.log := by
  unfold store_item
  split
  · simp [replace_item, acks, Event.is_ack]
  · split
    · simp [append_item, acks, Event.is_ack]
    · rfl

/-- The store dispatch does not call `complete()`. -/
theorem store_item_complete (h : Hooks σ) (cmd : mavlink_mission_item_int_t) (w : World σ) :
    (store_item h cmd w).2.log.countP Event.is_complete = w.log.countP Event.is_complete := by
  unfold store_item
  split
  · simp [replace_item, Event.is_complete]
  · split
    · simp [append_item, Event.is_complete]
    · rfl

/-- An accepted item that is not the last of its window: the session keeps
receiving and expects the next index; no acknowledgement, no completion. -/
theorem handle_mission_item_accepted_next (h : Hooks σ) (env : Env) (msg : mavlink_message_t)
    (cmd : mavlink_mission_item_int_t) (w : World σ) (l : Nat)
    (hlink : w.sess.link = some l)
    (hseq : cmd.seq = w.sess.request_i)
    (hsys : msg.sysid = w.sess.dest_sysid) (hcomp : msg.compid = w.sess.dest_compid)
    (hacc : (store_item h cmd w).1 = MAV_MISSION_ACCEPTED)
    (hnext : w.sess.request_i + 1 ≤ w.sess.request_last)
    (hlast : w.sess.request_last < 65536) :
    (handle_mission_item h env msg cmd w).sess.receiving = w.sess.receiving ∧
    (handle_mission_item h env msg cmd w).sess.link = some l ∧
    (handle_mission_item h env msg cmd w).sess.request_i = w.sess.request_i + 1 ∧
    (handle_mission_item h env msg cmd w).sess.request_last = w.sess.request_last ∧
    (handle_mission_item h env msg cmd w).sess.dest_sysid = w.sess.dest_sysid ∧
    (handle_mission_item h env msg cmd w).sess.dest_compid = w.sess.dest_compid ∧
    acks (handle_mission_item h env msg cmd w).log = acks w.log ∧
    (handle_mission_item h env msg cmd w).log.countP Event.is_complete =
      w.log.countP Event.is_complete := by
  have hmod : (w.sess.request_i + 1) % 65536 = w.sess.request_i + 1 :=
    Nat.mod_eq_of_lt (by omega)
  have hngt : ¬ (w.sess.request_i + 1 > w.sess.request_last) := by omega
  have hacks := store_item_acks h cmd w
  have hcompl := store_item_complete h cmd w
  simp only [handle_mission_item, hlink, hseq, hsys, hcomp, ne_eq, not_true_eq_false,
    if_false, hacc, store_item_sess, hmod, hngt]
  by_cases hroom : env.have_payload_space (store_item h cmd w).2.log l MsgId.MISSION_REQUEST = true
  · simp only [hroom, if_true, queued_request_send, store_item_sess, hlink, hngt, if_false]
    by_cases hrecv : w.sess.receiving = true
    · simp only [hrecv, Bool.true_eq_false, if_false, hroom, if_true]
      simp [acks, Event.is_ack, Event.is_complete]
      exact ⟨by simpa [acks] using hacks, hcompl⟩
    · simp only [Bool.not_eq_true] at hrecv
      simp only [hrecv, if_true]
      exact ⟨trivial, trivial, trivial, trivial, trivial, trivial, hacks, hcompl⟩
  · simp only [hroom, if_false, World.emit]
    simp [acks, Event.is_ack, Event.is_complete]
    exact ⟨by simpa [acks] using hacks, hcompl⟩

/-- An accepted item that is the last of its window completes the transfer. -/
theorem handle_mission_item_accepted_last (h : Hooks σ) (env : Env) (msg : mavlink_message_t)
    (cmd : mavlink_mission_item_int_t) (w : World σ) (l : Nat)
    (hlink : w.sess.link = some l)
    (hseq : cmd.seq = w.sess.request_i)
    (hsys : msg.sysid = w.sess.dest_sysid) (hcomp : msg.compid = w.sess.dest_compid)
    (hacc : (store_item h cmd w).1 = MAV_MISSION_ACCEPTED)
    (hfinal : w.sess.request_i = w.sess.request_last)
    (hlast : w.sess.request_last < 65535) :
    handle_mission_item h env msg cmd w =
      transfer_is_complete h env l msg
        { (store_item h cmd w).2 with
          sess := { w.sess with
            timelast_receive_ms := env.millis 0
            request_i := w.sess.request_i + 1 } } := by
  have hmod : (w.sess.request_i + 1) % 65536 = w.sess.request_i + 1 :=
    Nat.mod_eq_of_lt (by omega)
  have hgt : w.sess.request_i + 1 > w.sess.request_last := by omega
  simp only [handle_mission_item, hlink, hseq, hsys, hcomp, ne_eq, not_true_eq_false,
    if_false, hacc, store_item_sess, hmod, hgt, if_true]

/-- Feeding one more item of the list. -/
theorem feed_items_take_succ (h : Hooks σ) (cs : List ItemCall) (w : World σ) (k : Nat)
    (hk : k < cs.length) :
    feed_items h (cs.take (k + 1)) w =
      handle_mission_item h (cs.get ⟨k, hk⟩).env (cs.get ⟨k, hk⟩).msg (cs.get ⟨k, hk⟩).cmd
        (feed_items h (cs.take k) w) := by
  unfold feed_items
  rw [List.take_succ, List.foldl_append]
  simp [List.getElem?_eq_getElem hk]

/-- Feeding a list and then one item. -/
theorem feed_items_concat (h : Hooks σ) (cs : List ItemCall) (c : ItemCall) (w : World σ) :
    feed_items h (cs ++ [c]) w = handle_mission_item h c.env c.msg c.cmd (feed_items h cs w) := by
  unfold feed_items
  rw [List.foldl_append]
  rfl

/-- While the items of a window arrive in order from the uploading peer and the
store accepts each, the session keeps receiving and counts them. -/
theorem feed_items_prefix (h : Hooks σ) (w : World σ) (l : Nat) (cs : List ItemCall)
    (hlink : w.sess.link = some l)
    (hlen : w.sess.request_i + cs.length ≤ w.sess.request_last)
    (hlast : w.sess.request_last < 65536)
    (hseq : ∀ k (hk : k < cs.length),
      (cs.get ⟨k, hk⟩).cmd.seq = w.sess.request_i + k ∧
      (cs.get ⟨k, hk⟩).msg.sysid = w.sess.dest_sysid ∧
      (cs.get ⟨k, hk⟩).msg.compid = w.sess.dest_compid)
    (hacc : ∀ k (hk : k < cs.length),
      (store_item h (cs.get ⟨k, hk⟩).cmd (feed_items h (cs.take k) w)).1
        = MAV_MISSION_ACCEPTED) :
    ∀ k, k ≤ cs.length →
      (feed_items h (cs.take k) w).sess.receiving = w.sess.receiving ∧
      (feed_items h (cs.take k) w).sess.link = some l ∧
      (feed_items h (cs.take k) w).sess.request_i = w.sess.request_i + k ∧
      (feed_items h (cs.take k) w).sess.request_last = w.sess.request_last ∧
      (feed_items h (cs.take k) w).sess.dest_sysid = w.sess.dest_sysid ∧
      (feed_items h (cs.take k) w).sess.dest_compid = w.sess.dest_compid ∧
      acks (feed_items h (cs.take k) w).log = acks w.log ∧
      (feed_items h (cs.take k) w).log.countP Event.is_complete =
        w.log.countP Event.is_complete := by
  intro k
  induction k with
  | zero =>
    intro _
    simp [feed_items, hlink]
  | succ k ih =>
    intro hk
    have hk2 : k < cs.length := by omega
    obtain ⟨h1, h2, h3, h4, h5, h6, h7, h8⟩ := ih (by omega)
    obtain ⟨s1, s2, s3⟩ := hseq k hk2
    have key := handle_mission_item_accepted_next h (cs.get ⟨k, hk2⟩).env (cs.get ⟨k, hk2⟩).msg
      (cs.get ⟨k, hk2⟩).cmd (feed_items h (cs.take k) w) l h2 (by rw [s1, h3]) (by rw [s2, h5])
      (by rw [s3, h6]) (hacc k hk2) (by rw [h3, h4]; omega) (by rw [h4]; exact hlast)
    rw [feed_items_take_succ h cs w k hk2]
    obtain ⟨k1, k2, k3, k4, k5, k6, k7, k8⟩ := key
    refine ⟨by rw [k1, h1], k2, by rw [k3, h3]; omega, by rw [k4, h4], by rw [k5, h5],
      by rw [k6, h6], by rw [k7, h7], by rw [k8, h8]⟩

/-- A window that ends below 65535. Let a session be receiving the window
`first .. last` with `first <= last <= 65534` over link `l` from the peer
(`dest_sysid`, `dest_compid`), and let `handle_mission_item` be fed the items
`first, first + 1, ..., last`, all from that peer and each accepted by the
store: the list `cs` holds all but the last, `c` is the last. Then the session
keeps receiving and counting up to the last item, which completes the
transfer. -/
theorem feed_items_window (h : Hooks σ) (w : World σ) (l first last : Nat)
    (cs : List ItemCall) (c : ItemCall)
    (hrecv : w.sess.receiving = true) (hlink : w.sess.link = some l)
    (hfirst : w.sess.request_i = first) (hlast : w.sess.request_last = last)
    (hwin : first ≤ last) (hbound : last ≤ 65534)
    (hlen : cs.length = last - first)
    (hseq : ∀ k (hk : k < cs.length),
      (cs.get ⟨k, hk⟩).cmd.seq = first + k ∧
      (cs.get ⟨k, hk⟩).msg.sysid = w.sess.dest_sysid ∧
      (cs.get ⟨k, hk⟩).msg.compid = w.sess.dest_compid)
    (hcseq : c.cmd.seq = last ∧ c.msg.sysid = w.sess.dest_sysid ∧
      c.msg.compid = w.sess.dest_compid)
    (hacc : ∀ k (hk : k < cs.length),
      (store_item h (cs.get ⟨k, hk⟩).cmd (feed_items h (cs.take k) w)).1
        = MAV_MISSION_ACCEPTED)
    (hcacc : (store_item h c.cmd (feed_items h cs w)).1 = MAV_MISSION_ACCEPTED) :
    (∀ k, k ≤ last - first →
      (feed_items h (cs.take k) w).sess.receiving = true ∧
      (feed_items h (cs.take k) w).sess.link = some l ∧
      (feed_items h (cs.take k) w).sess.request_i = first + k ∧
      acks (feed_items h (cs.take k) w).log = acks w.log ∧
      (feed_items h (cs.take k) w).log.countP Event.is_complete =
        w.log.countP Event.is_complete) ∧
    (feed_items h (cs ++ [c]) w).sess.receiving = false ∧
    (feed_items h (cs ++ [c]) w).sess.link = none ∧
    (feed_items h (cs ++ [c]) w).log =
      (store_item h c.cmd (feed_items h cs w)).2.log ++
        Event.complete l (h.complete (store_item h c.cmd (feed_items h cs w)).2.store l).1 ::
        ((if c.env.have_payload_space
            ((store_item h c.cmd (feed_items h cs w)).2.log ++
              [Event.complete l
                (h.complete (store_item h c.cmd (feed_items h cs w)).2.store l).1])
            l MsgId.MISSION_ACK then
          [Event.mavlink_msg_mission_ack_send l w.sess.dest_sysid w.sess.dest_compid
            (h.complete (store_item h c.cmd (feed_items h cs w)).2.store l).1 h.mission_type]
         else []) ++ [Event.free_upload_resources]) ∧
    (feed_items h (cs ++ [c]) w).log.countP Event.is_complete =
      w.log.countP Event.is_complete + 1 ∧
    acks (feed_items h (cs ++ [c]) w).log = acks w.log ++
      (if c.env.have_payload_space
          ((store_item h c.cmd (feed_items h cs w)).2.log ++
            [Event.complete l
              (h.complete (store_item h c.cmd (feed_items h cs w)).2.store l).1])
          l MsgId.MISSION_ACK then
        [Event.mavlink_msg_mission_ack_send l w.sess.dest_sysid w.sess.dest_compid
          (h.complete (store_item h c.cmd (feed_items h cs w)).2.store l).1 h.mission_type]
       else []) := by
  subst hfirst hlast
  have hpre := feed_items_prefix h w l cs hlink (by omega) (by omega) hseq hacc
  refine ⟨?_, ?_⟩
  · intro k hk
    obtain ⟨h1, h2, h3, _, _, _, h7, h8⟩ := hpre k (by omega)
    exact ⟨by rw [h1, hrecv], h2, h3, h7, h8⟩
  · obtain ⟨h1, h2, h3, h4, h5, h6, h7, h8⟩ := hpre cs.length (le_refl _)
    rw [List.take_length] at h1 h2 h3 h4 h5 h6 h7 h8
    obtain ⟨s1, s2, s3⟩ := hcseq
    have hstep := handle_mission_item_accepted_last h c.env c.msg c.cmd (feed_items h cs w) l h2
      (by rw [s1, h3]; omega) (by rw [s2, h5]) (by rw [s3, h6]) hcacc (by rw [h3, h4]; omega)
      (by rw [h4]; omega)
    have hacks := store_item_acks h c.cmd (feed_items h cs w)
    have hcompl := store_item_complete h c.cmd (feed_items h cs w)
    rw [feed_items_concat, hstep]
    refine ⟨by simp, by simp, ?_, ?_, ?_⟩
    · rw [transfer_is_complete_log]
      simp [s2, s3]
    · rw [transfer_is_complete_log]
      by_cases hroom : c.env.have_payload_space
          ((store_item h c.cmd (feed_items h cs w)).2.log ++
            [Event.complete l
              (h.complete (store_item h c.cmd (feed_items h cs w)).2.store l).1])
          l MsgId.MISSION_ACK = true <;>
        simp [hroom, List.countP_cons, hcompl, h8, Event.is_complete]
    · rw [transfer_is_complete_log]
      simp only [acks] at hacks h7 ⊢
      by_cases hroom : c.env.have_payload_space
          ((store_item h c.cmd (feed_items h cs w)).2.log ++
            [Event.complete l
              (h.complete (store_item h c.cmd (feed_items h cs w)).2.store l).1])
          l MsgId.MISSION_ACK = true <;>
        simp [hroom, List.filter_cons, hacks, h7, Event.is_ack, s2, s3]

/-! ### Invariants of every run -/

@[simp] theorem allocations_nil : allocations [] = 0 := rfl

@[simp] theorem frees_nil : frees [] = 0 := rfl

@[simp] theorem allocations_append (a b : List Event) :
    allocations (a ++ b) = allocations a + allocations b := by
  simp [allocations]

@[simp] theorem frees_append (a b : List Event) : frees (a ++ b) = frees a + frees b := by
  simp [frees]

@[simp] theorem allocations_cons (e : Event) (a : List Event) :
    allocations (e :: a) = allocations a + (if e.is_successful_allocation then 1 else 0) := by
  simp [allocations, List.countP_cons]

@[simp] theorem frees_cons (e : Event) (a : List Event) :
    frees (e :: a) = frees a + (if e.is_free then 1 else 0) := by
  simp [frees, List.countP_cons]

/-- The outcome of the version check: it passes silently, or it fails with a
text and a best-effort MAV_MISSION_UNSUPPORTED acknowledgement. -/
theorem mavlink2_requirement_met_cases (h : Hooks σ) (env : Env) (l : Nat)
    (msg : mavlink_message_t) (w : World σ) :
    mavlink2_requirement_met h env l msg w = (true, w) ∨
    mavlink2_requirement_met h env l msg w =
      (false, send_mission_ack_link h env l msg MAV_MISSION_UNSUPPORTED
        (w.emit (Event.send_text Text.need_mavlink2))) := by
  unfold mavlink2_requirement_met
  by_cases hm : h.mission_type = MAV_MISSION_TYPE_MISSION
  · simp [hm]
  · by_cases hl : env.sending_mavlink1 l = false
    · simp [hm, hl]
    · simp [hm, hl]

/-- An acknowledgement changes neither count. -/
theorem send_mission_ack_link_counts (h : Hooks σ) (env : Env) (l : Nat)
    (msg : mavlink_message_t) (r : MAV_MISSION_RESULT) (w : World σ) :
    allocations (send_mission_ack_link h env l msg r w).log = allocations w.log ∧
    frees (send_mission_ack_link h env l msg r w).log = frees w.log := by
  rw [send_mission_ack_link_log]
  split <;> simp [Event.is_successful_allocation, Event.is_free]

/-- An acknowledgement keeps the invariant. -/
theorem session_invariant_ack (h : Hooks σ) (env : Env) (l : Nat)
    (msg : mavlink_message_t) (r : MAV_MISSION_RESULT) (w : World σ)
    (hinv : session_invariant w) :
    session_invariant (send_mission_ack_link h env l msg r w) := by
  obtain ⟨h1, h2⟩ := send_mission_ack_link_counts h env l msg r w
  unfold session_invariant at hinv ⊢
  simp only [send_mission_ack_link_sess, h1, h2]
  exact hinv

/-- A failed version check keeps the invariant. -/
theorem session_invariant_unsupported (h : Hooks σ) (env : Env) (l : Nat)
    (msg : mavlink_message_t) (w : World σ) (hinv : session_invariant w) :
    session_invariant (send_mission_ack_link h env l msg MAV_MISSION_UNSUPPORTED
      (w.emit (Event.send_text Text.need_mavlink2))) := by
  apply session_invariant_ack
  unfold session_invariant at hinv ⊢
  simpa [Event.is_successful_allocation, Event.is_free] using hinv

/-- After `cancel_upload` the invariant holds again, and a cancellation that
succeeded leaves the session idle. -/
theorem session_invariant_cancel_upload (h : Hooks σ) (env : Env) (l : Nat)
    (msg : mavlink_message_t) (w : World σ) (hinv : session_invariant w) :
    session_invariant (cancel_upload h env l msg w).2 ∧
    ((cancel_upload h env l msg w).1 = true →
      (cancel_upload h env l msg w).2.sess.receiving = false ∧
      (cancel_upload h env l msg w).2.sess.link = none) := by
  by_cases hok : (cancel_upload h env l msg w).1 = true
  · rw [cancel_upload_snd_of_success h env l msg w hok]
    by_cases hrecv : w.sess.receiving = true
    · unfold session_invariant at hinv ⊢
      simp [hrecv, Event.is_successful_allocation, Event.is_free] at hinv ⊢
      omega
    · simp only [Bool.not_eq_true] at hrecv
      have hlink : w.sess.link = none := by
        unfold session_invariant at hinv
        cases hl : w.sess.link with
        | none => rfl
        | some x =>
          have := hinv.1.mpr (by simp [hl])
          simp [hrecv] at this
      simp [hrecv, hlink]
      exact hinv
  · simp only [Bool.not_eq_true] at hok
    rw [cancel_upload_snd_of_failure h env l msg w hok]
    exact ⟨session_invariant_ack h env l msg _ w hinv, by simp [hok]⟩

/-- A completion closes a session that holds one reservation. -/
theorem session_invariant_transfer_is_complete (h : Hooks σ) (env : Env) (l : Nat)
    (msg : mavlink_message_t) (w : World σ)
    (hres : allocations w.log = frees w.log + 1) :
    session_invariant (transfer_is_complete h env l msg w) := by
  unfold session_invariant
  rw [transfer_is_complete_log]
  by_cases hroom : env.have_payload_space (w.log ++ [Event.complete l (h.complete w.store l).1])
      l MsgId.MISSION_ACK = true <;>
    simp [hroom, Event.is_successful_allocation, Event.is_free, hres]

/-- The start of an upload opens a session that holds one reservation. -/
theorem session_invariant_init_send_requests (h : Hooks σ) (env : Env) (l : Nat)
    (msg : mavlink_message_t) (a b : Int) (w : World σ)
    (hres : allocations w.log = frees w.log + 1) :
    session_invariant (init_send_requests h env l msg a b w) := by
  unfold session_invariant
  simp [init_send_requests, Event.is_successful_allocation, Event.is_free, hres]

/-- An event that is neither an allocation nor a free keeps the invariant. -/
theorem session_invariant_emit (w : World σ) (e : Event)
    (ha : e.is_successful_allocation = false) (hf : e.is_free = false)
    (hinv : session_invariant w) : session_invariant (w.emit e) := by
  unfold session_invariant at hinv ⊢
  simpa [ha, hf] using hinv

theorem session_invariant_handle_mission_clear_all (h : Hooks σ) (env : Env) (l : Nat)
    (msg : mavlink_message_t) (w : World σ) (hinv : session_invariant w) :
    session_invariant (handle_mission_clear_all h env l msg w) := by
  obtain ⟨hc, _⟩ := session_invariant_cancel_upload h env l msg w hinv
  unfold handle_mission_clear_all
  split
  · apply session_invariant_ack
    exact session_invariant_emit
      { (cancel_upload h env l msg w).2 with
        store := (h.clear_all_items (cancel_upload h env l msg w).2.store).2 } _ rfl rfl hc
  · exact session_invariant_ack h env l msg _ _ hc

theorem session_invariant_handle_mission_count (h : Hooks σ) (env : Env) (l : Nat)
    (packet : mavlink_mission_count_t) (msg : mavlink_message_t) (w : World σ)
    (hinv : session_invariant w) :
    session_invariant (handle_mission_count h env l packet msg w) := by
  rcases mavlink2_requirement_met_cases h env l msg w with hm | hm
  · obtain ⟨hc, hidle⟩ := session_invariant_cancel_upload h env l msg w hinv
    simp only [handle_mission_count, hm]
    by_cases hok : (cancel_upload h env l msg w).1 = true
    · obtain ⟨hr, _⟩ := hidle hok
      generalize (cancel_upload h env l msg w).2 = w2 at hc hr ⊢
      have hbal : allocations w2.log = frees w2.log := by
        have := hc.2
        simpa [hr] using this
      simp only [hok, Bool.true_eq_false, if_false]
      by_cases hmax : packet.count > max_items h w2
      · simp only [hmax, if_true]
        refine session_invariant_emit _ _ ?_ ?_ (session_invariant_ack h env l msg _ w2 hc)
        · rfl
        · rfl
      · simp only [hmax, if_false]
        by_cases halloc :
            (h.allocate_receive_resources w2.store packet.count).1 = MAV_MISSION_ACCEPTED
        · have hres : allocations (truncate h packet
              (allocate_receive_resources h packet.count w2).2).log =
              frees (truncate h packet
                (allocate_receive_resources h packet.count w2).2).log + 1 := by
            simp [truncate, allocate_receive_resources, halloc,
              Event.is_successful_allocation, Event.is_free, hbal]
          have hne : ¬ (allocate_receive_resources h packet.count w2).1
              ≠ MAV_MISSION_ACCEPTED := by
            simpa [allocate_receive_resources] using halloc
          rw [if_neg hne]
          split
          · exact session_invariant_transfer_is_complete h env l msg _ hres
          · exact session_invariant_init_send_requests h env l msg _ _ _ hres
        · have hne : (allocate_receive_resources h packet.count w2).1
              ≠ MAV_MISSION_ACCEPTED := by
            simpa [allocate_receive_resources] using halloc
          rw [if_pos hne]
          apply session_invariant_ack
          unfold session_invariant at hc ⊢
          cases hres : (h.allocate_receive_resources w2.store packet.count).1 <;>
            simp_all [allocate_receive_resources, Event.is_successful_allocation, Event.is_free]
    · simp only [Bool.not_eq_true] at hok
      rw [if_pos hok]
      exact hc
  · simp only [handle_mission_count, hm, if_true]
    exact session_invariant_unsupported h env l msg w hinv

theorem session_invariant_handle_mission_request_list (h : Hooks σ) (env : Env) (l : Nat)
    (msg : mavlink_message_t) (w : World σ) (hinv : session_invariant w) :
    session_invariant (handle_mission_request_list h env l msg w) := by
  rcases mavlink2_requirement_met_cases h env l msg w with hm | hm
  · simp only [handle_mission_request_list, hm, Bool.true_eq_false, if_false]
    split
    · exact session_invariant_ack h env l msg _ w hinv
    · split
      · refine session_invariant_emit _ _ ?_ ?_ hinv
        · rfl
        · rfl
      · exact hinv
  · simp only [handle_mission_request_list, hm, if_true]
    exact session_invariant_unsupported h env l msg w hinv

theorem session_invariant_handle_mission_request_int (h : Hooks σ) (env : Env) (l : Nat)
    (packet : mavlink_mission_request_int_t) (msg : mavlink_message_t) (w : World σ)
    (hinv : session_invariant w) :
    session_invariant (handle_mission_request_int h env l packet msg w) := by
  have hget : session_invariant (get_item h packet.seq w).2.2 :=
    session_invariant_emit { w with store := (h.get_item w.store packet.seq).2 } _ rfl rfl hinv
  rcases mavlink2_requirement_met_cases h env l msg w with hm | hm
  · simp only [handle_mission_request_int, hm, Bool.true_eq_false, if_false]
    split
    · exact session_invariant_ack h env l msg _ w hinv
    · split
      · apply session_invariant_ack
        split
        · split
          · refine session_invariant_emit _ _ ?_ ?_ hget
            · rfl
            · rfl
          · exact hget
        · exact hget
      · refine session_invariant_emit _ _ ?_ ?_ hget
        · rfl
        · rfl
  · simp only [handle_mission_request_int, hm, if_true]
    exact session_invariant_unsupported h env l msg w hinv

theorem session_invariant_handle_mission_request (h : Hooks σ) (env : Env) (l : Nat)
    (packet : mavlink_mission_request_t) (msg : mavlink_message_t) (w : World σ)
    (hinv : session_invariant w) :
    session_invariant (handle_mission_request h env l packet msg w) := by
  have hget : session_invariant (get_item h packet.seq w).2.2 :=
    session_invariant_emit { w with store := (h.get_item w.store packet.seq).2 } _ rfl rfl hinv
  rcases mavlink2_requirement_met_cases h env l msg w with hm | hm
  · simp only [handle_mission_request, hm, Bool.true_eq_false, if_false]
    split
    · exact session_invariant_ack h env l msg _ _ hget
    · have hconv := session_invariant_emit (get_item h packet.seq w).2.2
        (Event.convert_MISSION_ITEM_INT_to_MISSION_ITEM
          (h.convert_MISSION_ITEM_INT_to_MISSION_ITEM
            { (get_item h packet.seq w).2.1 with
              target_system := msg.sysid, target_component := msg.compid }).1) rfl rfl hget
      split
      · exact session_invariant_ack h env l msg _ _ hconv
      · refine session_invariant_emit _ _ ?_ ?_ ?_
        · rfl
        · rfl
        split
        · refine session_invariant_emit _ _ ?_ ?_ ?_
          · rfl
          · rfl
          exact hconv
        · exact hconv
  · simp only [handle_mission_request, hm, if_true]
    exact session_invariant_unsupported h env l msg w hinv

theorem session_invariant_handle_mission_write_partial_list (h : Hooks σ) (env : Env)
    (l : Nat) (msg : mavlink_message_t) (packet : mavlink_mission_write_partial_list_t)
    (w : World σ) (hinv : session_invariant w) :
    session_invariant (handle_mission_write_partial_list h env l msg packet w) := by
  rcases mavlink2_requirement_met_cases h env l msg w with hm | hm
  · simp only [handle_mission_write_partial_list, hm, Bool.true_eq_false, if_false]
    by_cases hrecv : w.sess.receiving = true
    · simp only [hrecv, if_true]
      exact session_invariant_ack h env l msg _ w hinv
    · simp only [Bool.not_eq_true] at hrecv
      simp only [hrecv, Bool.false_eq_true, if_false]
      have hbal : allocations w.log = frees w.log := by
        have := hinv.2
        simpa [hrecv] using this
      split
      · apply session_invariant_ack
        refine session_invariant_emit _ _ ?_ ?_ hinv
        · rfl
        · rfl
      · by_cases halloc : (h.allocate_update_resources w.store).1 = MAV_MISSION_ACCEPTED
        · have hne : ¬ (allocate_update_resources h w).1 ≠ MAV_MISSION_ACCEPTED := by
            simpa [allocate_update_resources] using halloc
          rw [if_neg hne]
          apply session_invariant_init_send_requests
          simp [allocate_update_resources, halloc, Event.is_successful_allocation,
            Event.is_free, hbal]
        · have hne : (allocate_update_resources h w).1 ≠ MAV_MISSION_ACCEPTED := by
            simpa [allocate_update_resources] using halloc
          rw [if_pos hne]
          apply session_invariant_ack
          unfold session_invariant at hinv ⊢
          cases hres : (h.allocate_update_resources w.store).1 <;>
            simp_all [allocate_update_resources, Event.is_successful_allocation, Event.is_free]
  · simp only [handle_mission_write_partial_list, hm, if_true]
    exact session_invariant_unsupported h env l msg w hinv

/-- The store dispatch changes neither count. -/
theorem store_item_counts (h : Hooks σ) (cmd : mavlink_mission_item_int_t) (w : World σ) :
    allocations (store_item h cmd w).2.log = allocations w.log ∧
    frees (store_item h cmd w).2.log = frees w.log := by
  unfold store_item
  split
  · simp [replace_item, Event.is_successful_allocation, Event.is_free]
  · split
    · simp [append_item, Event.is_successful_allocation, Event.is_free]
    · simp

theorem session_invariant_queued_request_send (h : Hooks σ) (env : Env) (tnow : Nat)
    (w : World σ) (hinv : session_invariant w) :
    session_invariant (queued_request_send h env tnow w) := by
  unfold queued_request_send
  split
  · exact hinv
  · split
    · exact hinv
    · split
      · refine session_invariant_emit _ _ ?_ ?_ hinv
        · rfl
        · rfl
      · split
        · unfold session_invariant at hinv ⊢
          simpa [Event.is_successful_allocation, Event.is_free] using hinv
        · exact hinv

theorem session_invariant_handle_mission_item (h : Hooks σ) (env : Env)
    (msg : mavlink_message_t) (cmd : mavlink_mission_item_int_t) (w : World σ)
    (hinv : session_invariant w) :
    session_invariant (handle_mission_item h env msg cmd w) := by
  cases hlink : w.sess.link with
  | none =>
    simp only [handle_mission_item, hlink]
    refine session_invariant_emit _ _ ?_ ?_ hinv
    · rfl
    · rfl
  | some l =>
    have hrecv : w.sess.receiving = true := hinv.1.mpr (by simp [hlink])
    have hbal : allocations w.log = frees w.log + 1 := by
      have := hinv.2
      simpa [hrecv] using this
    obtain ⟨hsa, hsf⟩ := store_item_counts h cmd w
    simp only [handle_mission_item, hlink, send_mission_ack]
    split
    · exact session_invariant_ack h env l msg _ w hinv
    · split
      · exact session_invariant_ack h env l msg _ w hinv
      · split
        · exact session_invariant_ack h env l msg _ w hinv
        · split
          · obtain ⟨ha, hf⟩ := send_mission_ack_link_counts h env l msg
              (store_item h cmd w).1 (store_item h cmd w).2
            simp only [store_item_sess, hlink]
            unfold session_invariant
            simp [ha, hf, hsa, hsf, hbal, Event.is_successful_allocation, Event.is_free]
          · split
            · apply session_invariant_transfer_is_complete
              simp [hsa, hsf, hbal]
            · have hw2 : session_invariant
                  ({ (store_item h cmd w).2 with
                     sess := { (store_item h cmd w).2.sess with
                       timelast_receive_ms := env.millis 0
                       request_i := ((store_item h cmd w).2.sess.request_i + 1) % 65536 } } :
                    World σ) := by
                unfold session_invariant
                simp [hsa, hsf, hbal, hrecv, hlink]
              split
              · exact session_invariant_queued_request_send h env _ _ hw2
              · refine session_invariant_emit _ _ ?_ ?_ hw2
                · rfl
                · rfl

theorem session_invariant_send_mission_item_warning (w : World σ)
    (hinv : session_invariant w) : session_invariant (send_mission_item_warning w) := by
  unfold send_mission_item_warning
  split
  · exact hinv
  · unfold session_invariant at hinv ⊢
    simpa [Event.is_successful_allocation, Event.is_free] using hinv

theorem session_invariant_update (h : Hooks σ) (env : Env) (w : World σ)
    (hinv : session_invariant w) : session_invariant (update h env w) := by
  unfold update
  by_cases hrecv : w.sess.receiving = true
  · have hbal : allocations w.log = frees w.log + 1 := by
      have := hinv.2
      simpa [hrecv] using this
    simp only [hrecv, Bool.true_eq_false, if_false]
    cases hlink : w.sess.link with
    | none =>
      refine session_invariant_emit _ _ ?_ ?_ hinv
      · rfl
      · rfl
    | some l =>
      simp only []
      split
      · unfold session_invariant
        by_cases hroom : env.have_payload_space (w.log ++ [Event.timeout]) l
            MsgId.MISSION_ACK = true <;>
          simp [timeout, hroom, hbal, Event.is_successful_allocation, Event.is_free]
      · split
        · unfold session_invariant
          simp [Event.is_successful_allocation, Event.is_free, hbal]
        · exact hinv
  · simp only [Bool.not_eq_true] at hrecv
    simp only [hrecv, if_true]
    exact hinv

/-- Every entry point keeps the invariant. -/
theorem session_invariant_step (h : Hooks σ) (env : Env) (c : Call) (w : World σ)
    (hinv : session_invariant w) : session_invariant (step h env c w) := by
  cases c with
  | handle_mission_clear_all l msg =>
    exact session_invariant_handle_mission_clear_all h env l msg w hinv
  | handle_mission_count l packet msg =>
    exact session_invariant_handle_mission_count h env l packet msg w hinv
  | handle_mission_request_list l msg =>
    exact session_invariant_handle_mission_request_list h env l msg w hinv
  | handle_mission_request_int l packet msg =>
    exact session_invariant_handle_mission_request_int h env l packet msg w hinv
  | handle_mission_request l packet msg =>
    exact session_invariant_handle_mission_request h env l packet msg w hinv
  | handle_mission_write_partial_list l msg packet =>
    exact session_invariant_handle_mission_write_partial_list h env l msg packet w hinv
  | handle_mission_item msg cmd =>
    exact session_invariant_handle_mission_item h env msg cmd w hinv
  | send_mission_item_warning => exact session_invariant_send_mission_item_warning w hinv
  | queued_request_send => exact session_invariant_queued_request_send h env _ w hinv
  | update => exact session_invariant_update h env w hinv

/-- Every run keeps the invariant. -/
theorem session_invariant_run (h : Hooks σ) (cs : List (Env × Call)) (w : World σ)
    (hinv : session_invariant w) : session_invariant (run h cs w) := by
  induction cs generalizing w with
  | nil => exact hinv
  | cons c cs ih => exact ih (step h c.1 c.2 w) (session_invariant_step h c.1 c.2 w hinv)

/-! ### `receiving` and `link` move together -/

theorem together_of_sess_eq (w v : World σ) (hs : v.sess = w.sess) :
    set_or_cleared_together w v := by
  unfold set_or_cleared_together
  rw [hs]
  exact Or.inl ⟨rfl, rfl⟩

theorem together_of_cleared (w v : World σ) (hr : v.sess.receiving = false)
    (hl : v.sess.link = none) : set_or_cleared_together w v :=
  Or.inr (Or.inl ⟨hr, hl⟩)

theorem together_of_set (w v : World σ) (l : Nat) (hr : v.sess.receiving = true)
    (hl : v.sess.link = some l) : set_or_cleared_together w v :=
  Or.inr (Or.inr ⟨hr, by simp [hl]⟩)

/-- A change that leaves the session as it is can be added to a transition. -/
theorem together_trans_sess_eq (w u v : World σ) (hu : set_or_cleared_together w u)
    (hs : v.sess = u.sess) : set_or_cleared_together w v := by
  unfold set_or_cleared_together at hu ⊢
  rw [hs]
  exact hu

theorem together_unsupported (h : Hooks σ) (env : Env) (l : Nat) (msg : mavlink_message_t)
    (w : World σ) :
    set_or_cleared_together w (send_mission_ack_link h env l msg MAV_MISSION_UNSUPPORTED
      (w.emit (Event.send_text Text.need_mavlink2))) :=
  together_of_sess_eq _ _ (by simp)

theorem together_cancel_upload (h : Hooks σ) (env : Env) (l : Nat) (msg : mavlink_message_t)
    (w : World σ) : set_or_cleared_together w (cancel_upload h env l msg w).2 := by
  unfold cancel_upload
  split
  · split
    · exact together_of_sess_eq _ _ (by simp)
    · exact together_of_cleared _ _ rfl rfl
  · exact together_of_sess_eq _ _ rfl

theorem together_handle_mission_clear_all (h : Hooks σ) (env : Env) (l : Nat)
    (msg : mavlink_message_t) (w : World σ) :
    set_or_cleared_together w (handle_mission_clear_all h env l msg w) := by
  unfold handle_mission_clear_all
  split
  · exact together_trans_sess_eq _ _ _ (together_cancel_upload h env l msg w)
      (by simp [clear_all_items])
  · exact together_trans_sess_eq _ _ _ (together_cancel_upload h env l msg w) (by simp)

theorem together_handle_mission_count (h : Hooks σ) (env : Env) (l : Nat)
    (packet : mavlink_mission_count_t) (msg : mavlink_message_t) (w : World σ) :
    set_or_cleared_together w (handle_mission_count h env l packet msg w) := by
  rcases mavlink2_requirement_met_cases h env l msg w with hm | hm
  · simp only [handle_mission_count, hm, Bool.true_eq_false, if_false]
    split
    · exact together_cancel_upload h env l msg w
    · split
      · exact together_trans_sess_eq _ _ _ (together_cancel_upload h env l msg w) (by simp)
      · split
        · exact together_trans_sess_eq _ _ _ (together_cancel_upload h env l msg w)
            (by simp [allocate_receive_resources])
        · split
          · exact together_of_cleared _ _ (by simp) (by simp)
          · exact together_of_set _ _ l (by simp [init_send_requests])
              (by simp [init_send_requests])
  · simp only [handle_mission_count, hm, if_true]
    exact together_unsupported h env l msg w

theorem together_handle_mission_request_list (h : Hooks σ) (env : Env) (l : Nat)
    (msg : mavlink_message_t) (w : World σ) :
    set_or_cleared_together w (handle_mission_request_list h env l msg w) := by
  rcases mavlink2_requirement_met_cases h env l msg w with hm | hm
  · simp only [handle_mission_request_list, hm, Bool.true_eq_false, if_false]
    split
    · exact together_of_sess_eq _ _ (by simp)
    · split
      · exact together_of_sess_eq _ _ (by simp)
      · exact together_of_sess_eq _ _ rfl
  · simp only [handle_mission_request_list, hm, if_true]
    exact together_unsupported h env l msg w

theorem together_handle_mission_request_int (h : Hooks σ) (env : Env) (l : Nat)
    (packet : mavlink_mission_request_int_t) (msg : mavlink_message_t) (w : World σ) :
    set_or_cleared_together w (handle_mission_request_int h env l packet msg w) := by
  rcases mavlink2_requirement_met_cases h env l msg w with hm | hm
  · simp only [handle_mission_request_int, hm, Bool.true_eq_false, if_false]
    split
    · exact together_of_sess_eq _ _ (by simp)
    · split
      · apply together_of_sess_eq
        simp only [send_mission_ack_link_sess]
        split
        · split
          · simp [get_item]
          · simp [get_item]
        · simp [get_item]
      · exact together_of_sess_eq _ _ (by simp [get_item])
  · simp only [handle_mission_request_int, hm, if_true]
    exact together_unsupported h env l msg w

theorem together_handle_mission_write_partial_list (h : Hooks σ) (env : Env) (l : Nat)
    (msg : mavlink_message_t) (packet : mavlink_mission_write_partial_list_t) (w : World σ) :
    set_or_cleared_together w (handle_mission_write_partial_list h env l msg packet w) := by
  rcases mavlink2_requirement_met_cases h env l msg w with hm | hm
  · simp only [handle_mission_write_partial_list, hm, Bool.true_eq_false, if_false]
    split
    · exact together_of_sess_eq _ _ (by simp)
    · split
      · exact together_of_sess_eq _ _ (by simp)
      · split
        · exact together_of_sess_eq _ _ (by simp [allocate_update_resources])
        · exact together_of_set _ _ l (by simp [init_send_requests])
            (by simp [init_send_requests])
  · simp only [handle_mission_write_partial_list, hm, if_true]
    exact together_unsupported h env l msg w

theorem together_queued_request_send (h : Hooks σ) (env : Env) (tnow : Nat) (w : World σ) :
    set_or_cleared_together w (queued_request_send h env tnow w) := by
  unfold queued_request_send
  split
  · exact together_of_sess_eq _ _ rfl
  · split
    · exact together_of_sess_eq _ _ rfl
    · split
      · exact together_of_sess_eq _ _ rfl
      · split
        · exact Or.inl ⟨rfl, rfl⟩
        · exact together_of_sess_eq _ _ rfl

theorem together_send_mission_item_warning (w : World σ) :
    set_or_cleared_together w (send_mission_item_warning w) := by
  unfold send_mission_item_warning
  split
  · exact together_of_sess_eq _ _ rfl
  · exact Or.inl ⟨rfl, rfl⟩

theorem together_handle_mission_request (h : Hooks σ) (env : Env) (l : Nat)
    (packet : mavlink_mission_request_t) (msg : mavlink_message_t) (w : World σ) :
    set_or_cleared_together w (handle_mission_request h env l packet msg w) := by
  rcases mavlink2_requirement_met_cases h env l msg w with hm | hm
  · simp only [handle_mission_request, hm, Bool.true_eq_false, if_false]
    split
    · exact together_of_sess_eq _ _ (by simp [get_item])
    · split
      · exact together_of_sess_eq _ _ (by simp [get_item])
      · split
        · exact Or.inl ⟨rfl, rfl⟩
        · exact together_of_sess_eq _ _ (by simp [get_item])
  · simp only [handle_mission_request, hm, if_true]
    exact together_unsupported h env l msg w

theorem together_handle_mission_item (h : Hooks σ) (env : Env) (msg : mavlink_message_t)
    (cmd : mavlink_mission_item_int_t) (w : World σ) :
    set_or_cleared_together w (handle_mission_item h env msg cmd w) := by
  cases hlink : w.sess.link with
  | none =>
    simp only [handle_mission_item, hlink]
    exact together_of_sess_eq _ _ rfl
  | some l =>
    simp only [handle_mission_item, hlink, send_mission_ack]
    split
    · exact together_of_sess_eq _ _ (by simp)
    · split
      · exact together_of_sess_eq _ _ (by simp)
      · split
        · exact together_of_sess_eq _ _ (by simp)
        · split
          · exact together_of_cleared _ _ rfl rfl
          · split
            · exact together_of_cleared _ _ (by simp) (by simp)
            · split
              · have hq := together_queued_request_send h env (env.millis 1)
                  ({ (store_item h cmd w).2 with
                     sess := { (store_item h cmd w).2.sess with
                       timelast_receive_ms := env.millis 0
                       request_i := ((store_item h cmd w).2.sess.request_i + 1) % 65536 } } :
                    World σ)
                unfold set_or_cleared_together at hq ⊢
                simpa using hq
              · exact Or.inl ⟨by simp, by simp⟩

theorem together_update (h : Hooks σ) (env : Env) (w : World σ) :
    set_or_cleared_together w (update h env w) := by
  unfold update
  split
  · exact together_of_sess_eq _ _ rfl
  · split
    · exact together_of_sess_eq _ _ rfl
    · split
      · refine together_of_cleared _ _ ?_ (by simp)
        simp only [free_upload_resources_sess, timeout]
        split <;> rfl
      · split
        · exact Or.inl ⟨rfl, rfl⟩
        · exact together_of_sess_eq _ _ rfl

/-- Every entry point leaves `receiving` and `link` as they were, clears both
or sets both. -/
theorem together_step (h : Hooks σ) (env : Env) (c : Call) (w : World σ) :
    set_or_cleared_together w (step h env c w) := by
  cases c with
  | handle_mission_clear_all l msg => exact together_handle_mission_clear_all h env l msg w
  | handle_mission_count l packet msg =>
    exact together_handle_mission_count h env l packet msg w
  | handle_mission_request_list l msg =>
    exact together_handle_mission_request_list h env l msg w
  | handle_mission_request_int l packet msg =>
    exact together_handle_mission_request_int h env l packet msg w
  | handle_mission_request l packet msg =>
    exact together_handle_mission_request h env l packet msg w
  | handle_mission_write_partial_list l msg packet =>
    exact together_handle_mission_write_partial_list h env l msg packet w
  | handle_mission_item msg cmd => exact together_handle_mission_item h env msg cmd w
  | send_mission_item_warning => exact together_send_mission_item_warning w
  | queued_request_send => exact together_queued_request_send h env _ w
  | update => exact together_update h env w

/-- A transition that moves the two together keeps them equivalent. -/
theorem together_keeps_iff (w v : World σ) (ht : set_or_cleared_together w v)
    (hw : w.sess.receiving = true ↔ w.sess.link.isSome = true) :
    v.sess.receiving = true ↔ v.sess.link.isSome = true := by
  rcases ht with ⟨h1, h2⟩ | ⟨h1, h2⟩ | ⟨h1, h2⟩
  · rw [h1, h2]
    exact hw
  · simp [h1, h2]
  · simp [h1, h2]

/-- Every run keeps `receiving` and `link` equivalent. -/
theorem run_keeps_iff (h : Hooks σ) (cs : List (Env × Call)) (w : World σ)
    (hw : w.sess.receiving = true ↔ w.sess.link.isSome = true) :
    (run h cs w).sess.receiving = true ↔ (run h cs w).sess.link.isSome = true := by
  induction cs generalizing w with
  | nil => exact hw
  | cons c cs ih =>
    exact ih (step h c.1 c.2 w) (together_keeps_iff w _ (together_step h c.1 c.2 w) hw)

/-- C9. In every state reached from an idle session (`receiving` false, `link`
unbound) by a finite sequence of invocations of the handlers, of the deferred
request sender and of `update()`, each in an arbitrary environment,
`receiving` is true if and only if `link` is bound; and every further
invocation leaves the two as they are, clears both or sets both. -/
theorem receiving_iff_link_bound (h : Hooks σ) (cs : List (Env × Call)) (w : World σ)
    (hrecv : w.sess.receiving = false) (hlink : w.sess.link = none) :
    ((run h cs w).sess.receiving = true ↔ (run h cs w).sess.link.isSome = true) ∧
    (∀ (env : Env) (c : Call),
      set_or_cleared_together (run h cs w) (step h env c (run h cs w))) := by
  refine ⟨run_keeps_iff h cs w ?_, fun env c => together_step h env c _⟩
  simp [hrecv, hlink]

/-- Witness of C9: a count of 2 is announced, then item 0 arrives. -/
theorem receiving_iff_link_bound_witness :
    (run (counting_hooks MAV_MISSION_TYPE_MISSION)
      [(env_at 5 true, Call.handle_mission_count 0 ⟨2⟩ ⟨255, 190⟩),
       (env_at 6 true, Call.handle_mission_item ⟨255, 190⟩ ⟨0, 1, 1, 7⟩)]
      ⟨idle_session, 0, []⟩).sess.receiving = true ∧
    (run (counting_hooks MAV_MISSION_TYPE_MISSION)
      [(env_at 5 true, Call.handle_mission_count 0 ⟨2⟩ ⟨255, 190⟩),
       (env_at 6 true, Call.handle_mission_item ⟨255, 190⟩ ⟨0, 1, 1, 7⟩)]
      ⟨idle_session, 0, []⟩).sess.link.isSome = true :=
  ⟨by decide,
   (receiving_iff_link_bound (counting_hooks MAV_MISSION_TYPE_MISSION)
      [(env_at 5 true, Call.handle_mission_count 0 ⟨2⟩ ⟨255, 190⟩),
       (env_at 6 true, Call.handle_mission_item ⟨255, 190⟩ ⟨0, 1, 1, 7⟩)]
      ⟨idle_session, 0, []⟩ rfl rfl).1.mp (by decide)⟩

/-- C10. In every state reached from an idle session without an outstanding
reservation (as many accepted allocations as frees so far) by a finite sequence
of invocations of the handlers, of the deferred request sender and of
`update()`, the number of accepted calls of
`allocate_receive_resources` and `allocate_update_resources` minus the number
of calls of `free_upload_resources` is 1 if the session is receiving and 0 if
it is idle. Hence every invocation frees as often as it obtains an allocation,
plus once if it ends an upload and minus once if it starts one; in particular
an invocation that takes the session from receiving to idle calls
`free_upload_resources` once more often than it obtains an allocation: the
upload it ends is freed exactly once. -/
theorem reservation_balance (h : Hooks σ) (cs : List (Env × Call)) (w : World σ)
    (hrecv : w.sess.receiving = false) (hlink : w.sess.link = none)
    (hnone : allocations w.log = frees w.log) :
    ((allocations (run h cs w).log : Int) - (frees (run h cs w).log : Int) =
      if (run h cs w).sess.receiving then 1 else 0) ∧
    (∀ (env : Env) (c : Call),
      ((frees (step h env c (run h cs w)).log : Int) - (frees (run h cs w).log : Int)) -
        ((allocations (step h env c (run h cs w)).log : Int) -
          (allocations (run h cs w).log : Int)) =
        (if (run h cs w).sess.receiving then 1 else 0) -
          (if (step h env c (run h cs w)).sess.receiving then 1 else 0)) ∧
    (∀ (env : Env) (c : Call),
      (run h cs w).sess.receiving = true →
      (step h env c (run h cs w)).sess.receiving = false →
      (frees (step h env c (run h cs w)).log : Int) - (frees (run h cs w).log : Int) =
        1 + ((allocations (step h env c (run h cs w)).log : Int) -
              (allocations (run h cs w).log : Int))) := by
  have hinv : session_invariant w := by
    unfold session_invariant
    simp [hrecv, hlink, hnone]
  have hrun := session_invariant_run h cs w hinv
  refine ⟨?_, ?_, ?_⟩
  · have h2 := hrun.2
    split <;> simp_all
  · intro env c
    have h2 := hrun.2
    have h3 := (session_invariant_step h env c _ hrun).2
    cases hr : (run h cs w).sess.receiving <;>
    cases hs : (step h env c (run h cs w)).sess.receiving <;>
    simp only [hr, hs, if_true, Bool.false_eq_true, if_false] at h2 h3 ⊢ <;>
    omega
  · intro env c hr hs
    have h2 := hrun.2
    have h3 := (session_invariant_step h env c _ hrun).2
    simp only [hr, hs, if_true, Bool.false_eq_true, if_false] at h2 h3
    omega

/-- Witness of C10: a count of 2 is announced, item 0 arrives, and the upload
times out. -/
theorem reservation_balance_witness :
    ((allocations (run (counting_hooks MAV_MISSION_TYPE_MISSION)
      [(env_at 5 true, Call.handle_mission_count 0 ⟨2⟩ ⟨255, 190⟩),
       (env_at 6 true, Call.handle_mission_item ⟨255, 190⟩ ⟨0, 1, 1, 7⟩),
       (env_at 9000 true, Call.update)]
      ⟨idle_session, 0, []⟩).log : Int) -
     (frees (run (counting_hooks MAV_MISSION_TYPE_MISSION)
      [(env_at 5 true, Call.handle_mission_count 0 ⟨2⟩ ⟨255, 190⟩),
       (env_at 6 true, Call.handle_mission_item ⟨255, 190⟩ ⟨0, 1, 1, 7⟩),
       (env_at 9000 true, Call.update)]
      ⟨idle_session, 0, []⟩).log : Int) = 0) ∧
    frees (run (counting_hooks MAV_MISSION_TYPE_MISSION)
      [(env_at 5 true, Call.handle_mission_count 0 ⟨2⟩ ⟨255, 190⟩),
       (env_at 6 true, Call.handle_mission_item ⟨255, 190⟩ ⟨0, 1, 1, 7⟩),
       (env_at 9000 true, Call.update)]
      ⟨idle_session, 0, []⟩).log = 1 :=
  ⟨(reservation_balance (counting_hooks MAV_MISSION_TYPE_MISSION)
      [(env_at 5 true, Call.handle_mission_count 0 ⟨2⟩ ⟨255, 190⟩),
       (env_at 6 true, Call.handle_mission_item ⟨255, 190⟩ ⟨0, 1, 1, 7⟩),
       (env_at 9000 true, Call.update)]
      ⟨idle_session, 0, []⟩ rfl rfl rfl).1, by decide⟩

/-! ### Downloads during an upload -/

/-- C11 as amended. While a session is receiving, with the version requirement
met, `handle_mission_request_list` and `handle_mission_request_int` leave
session and store unchanged and write nothing but a MAV_MISSION_DENIED
acknowledgement to the requester, and that only when `_link` has room for it:
no count report, no item, no call of `get_item`. -/
theorem download_denied_while_receiving (h : Hooks σ) (env : Env) (_link : Nat)
    (packet : mavlink_mission_request_int_t) (msg : mavlink_message_t) (w : World σ)
    (hrecv : w.sess.receiving = true)
    (hver : h.mission_type = MAV_MISSION_TYPE_MISSION ∨ env.sending_mavlink1 _link = false) :
    ((handle_mission_request_list h env _link msg w).sess = w.sess ∧
     (handle_mission_request_list h env _link msg w).store = w.store ∧
     (handle_mission_request_list h env _link msg w).log = w.log ++
       (if env.have_payload_space w.log _link MsgId.MISSION_ACK then
         [Event.mavlink_msg_mission_ack_send _link msg.sysid msg.compid MAV_MISSION_DENIED
           h.mission_type]
        else [])) ∧
    ((handle_mission_request_int h env _link packet msg w).sess = w.sess ∧
     (handle_mission_request_int h env _link packet msg w).store = w.store ∧
     (handle_mission_request_int h env _link packet msg w).log = w.log ++
       (if env.have_payload_space w.log _link MsgId.MISSION_ACK then
         [Event.mavlink_msg_mission_ack_send _link msg.sysid msg.compid MAV_MISSION_DENIED
           h.mission_type]
        else [])) := by
  have hmeet := mavlink2_requirement_met_of_met h env _link msg w hver
  constructor
  · simp [handle_mission_request_list, hmeet, hrecv, send_mission_ack_link_log]
  · simp [handle_mission_request_int, hmeet, hrecv, send_mission_ack_link_log]

/-- Witness of C11 as amended: (1, 1) asks for the list and for item 0 while
(255, 190) uploads. -/
theorem download_denied_while_receiving_witness :
    (handle_mission_request_list (counting_hooks MAV_MISSION_TYPE_MISSION) (env_at 5 true) 1
      ⟨1, 1⟩ ⟨receiving_session 1 2, 3, []⟩).log =
      [Event.mavlink_msg_mission_ack_send 1 1 1 MAV_MISSION_DENIED MAV_MISSION_TYPE_MISSION] ∧
    (handle_mission_request_int (counting_hooks MAV_MISSION_TYPE_MISSION) (env_at 5 true) 1
      ⟨0⟩ ⟨1, 1⟩ ⟨receiving_session 1 2, 3, []⟩).log =
      [Event.mavlink_msg_mission_ack_send 1 1 1 MAV_MISSION_DENIED MAV_MISSION_TYPE_MISSION] :=
  have key := download_denied_while_receiving (counting_hooks MAV_MISSION_TYPE_MISSION)
    (env_at 5 true) 1 ⟨0⟩ ⟨1, 1⟩ ⟨receiving_session 1 2, 3, []⟩ rfl (Or.inl rfl)
  ⟨key.1.2.2, key.2.2.2⟩

/-- Counterexample to C11 as stated: with an upload in progress, the version
requirement met and no room on the link for a MISSION_ACK, neither handler
replies at all: no MAV_MISSION_DENIED acknowledgement is emitted. -/
theorem download_denied_no_room :
    (receiving_session 1 2).receiving = true ∧
    (counting_hooks MAV_MISSION_TYPE_MISSION).mission_type = MAV_MISSION_TYPE_MISSION ∧
    (handle_mission_request_list (counting_hooks MAV_MISSION_TYPE_MISSION) (env_at 5 false) 1
      ⟨1, 1⟩ ⟨receiving_session 1 2, 3, []⟩).log = [] ∧
    (handle_mission_request_int (counting_hooks MAV_MISSION_TYPE_MISSION) (env_at 5 false) 1
      ⟨0⟩ ⟨1, 1⟩ ⟨receiving_session 1 2, 3, []⟩).log = [] := by
  decide

/-- C12, the code at the failing input. While (255, 190) uploads the window
1..2 into a list of three items, a legacy MISSION_REQUEST for item 0 arrives
from (1, 1) over link 1, in the primary category, with room on the link.
`handle_mission_request` does not look at `receiving`: it calls `get_item`,
converts the item and sends it; no MAV_MISSION_DENIED acknowledgement is
written. -/
theorem handle_mission_request_serves_during_upload :
    (receiving_session 1 2).receiving = true ∧
    (handle_mission_request (counting_hooks MAV_MISSION_TYPE_MISSION) (env_at 5 true) 1
      ⟨0⟩ ⟨1, 1⟩ ⟨receiving_session 1 2, 3, []⟩).log =
      [Event.get_item 0 MAV_MISSION_ACCEPTED,
       Event.convert_MISSION_ITEM_INT_to_MISSION_ITEM MAV_MISSION_ACCEPTED,
       Event.send_text Text.got_mission_request,
       Event.send_message_mission_item 1 ⟨0, 1, 1, 0⟩] ∧
    acks (handle_mission_request (counting_hooks MAV_MISSION_TYPE_MISSION) (env_at 5 true) 1
      ⟨0⟩ ⟨1, 1⟩ ⟨receiving_session 1 2, 3, []⟩).log = [] ∧
    (handle_mission_request_int (counting_hooks MAV_MISSION_TYPE_MISSION) (env_at 5 true) 1
      ⟨0⟩ ⟨1, 1⟩ ⟨receiving_session 1 2, 3, []⟩).log =
      [Event.mavlink_msg_mission_ack_send 1 1 1 MAV_MISSION_DENIED MAV_MISSION_TYPE_MISSION] := by
  decide

/-! ### Clearing the list -/

/-- C13, the code at the failing input. While (255, 190) uploads, a
MISSION_CLEAR_ALL arrives from (1, 1) over link 1, with room on the link.
`cancel_upload` fails and writes a MAV_MISSION_DENIED acknowledgement, and
`handle_mission_clear_all` then writes a MAV_MISSION_ERROR acknowledgement as
well: two acknowledgements answer one request. `clear_all_items` is not called
and the session is untouched. -/
theorem handle_mission_clear_all_acknowledges_twice :
    (receiving_session 1 2).receiving = true ∧
    (cancel_upload (counting_hooks MAV_MISSION_TYPE_MISSION) (env_at 5 true) 1 ⟨1, 1⟩
      ⟨receiving_session 1 2, 3, []⟩).1 = false ∧
    (handle_mission_clear_all (counting_hooks MAV_MISSION_TYPE_MISSION) (env_at 5 true) 1
      ⟨1, 1⟩ ⟨receiving_session 1 2, 3, []⟩).log =
      [Event.mavlink_msg_mission_ack_send 1 1 1 MAV_MISSION_DENIED MAV_MISSION_TYPE_MISSION,
       Event.mavlink_msg_mission_ack_send 1 1 1 MAV_MISSION_ERROR MAV_MISSION_TYPE_MISSION] ∧
    (handle_mission_clear_all (counting_hooks MAV_MISSION_TYPE_MISSION) (env_at 5 true) 1
      ⟨1, 1⟩ ⟨receiving_session 1 2, 3, []⟩).sess = receiving_session 1 2 ∧
    (handle_mission_clear_all (counting_hooks MAV_MISSION_TYPE_MISSION) (env_at 5 true) 1
      ⟨1, 1⟩ ⟨receiving_session 1 2, 3, []⟩).store = 3 ∧
    (handle_mission_count (counting_hooks MAV_MISSION_TYPE_MISSION) (env_at 5 true) 1 ⟨4⟩
      ⟨1, 1⟩ ⟨receiving_session 1 2, 3, []⟩).log =
      [Event.mavlink_msg_mission_ack_send 1 1 1 MAV_MISSION_DENIED MAV_MISSION_TYPE_MISSION] := by
  decide

/-! ### The version check -/

/-- The version check fails for another category than the primary one on a link
that is sending MAVLink 1. -/
theorem mavlink2_requirement_met_of_unmet (h : Hooks σ) (env : Env) (_link : Nat)
    (msg : mavlink_message_t) (w : World σ)
    (hcat : h.mission_type ≠ MAV_MISSION_TYPE_MISSION)
    (hv1 : env.sending_mavlink1 _link = true) :
    mavlink2_requirement_met h env _link msg w =
      (false, send_mission_ack_link h env _link msg MAV_MISSION_UNSUPPORTED
        (w.emit (Event.send_text Text.need_mavlink2))) := by
  simp [mavlink2_requirement_met, hcat, hv1]

/-- What a failed version check leaves behind. -/
theorem rejected_as_unsupported_intro (h : Hooks σ) (env : Env) (_link : Nat)
    (msg : mavlink_message_t) (w : World σ) :
    rejected_as_unsupported h env _link msg w
      (send_mission_ack_link h env _link msg MAV_MISSION_UNSUPPORTED
        (w.emit (Event.send_text Text.need_mavlink2))) := by
  unfold rejected_as_unsupported
  simp [send_mission_ack_link_log]

/-- C14 as amended. When the category of the session is not the primary
mission category and `_link` is sending MAVLink 1, each of the handlers of a
count announcement, a partial-list request, a list request, an indexed item
request and a legacy item request performs the version check first and stops:
session and store are unchanged, no store hook is called, and the log gains the
text and then the MAV_MISSION_UNSUPPORTED acknowledgement to the sender when
`_link` has room for it (the text alone otherwise). When the category is the
primary one, or the link is not sending MAVLink 1, `mavlink2_requirement_met`
returns true and emits nothing. -/
theorem version_check_first (h : Hooks σ) (env : Env) (_link : Nat) (msg : mavlink_message_t)
    (w : World σ) (count : mavlink_mission_count_t)
    (window : mavlink_mission_write_partial_list_t) (fetch : mavlink_mission_request_int_t)
    (legacy : mavlink_mission_request_t) :
    (h.mission_type ≠ MAV_MISSION_TYPE_MISSION ∧ env.sending_mavlink1 _link = true →
      rejected_as_unsupported h env _link msg w
        (handle_mission_count h env _link count msg w) ∧
      rejected_as_unsupported h env _link msg w
        (handle_mission_write_partial_list h env _link msg window w) ∧
      rejected_as_unsupported h env _link msg w
        (handle_mission_request_list h env _link msg w) ∧
      rejected_as_unsupported h env _link msg w
        (handle_mission_request_int h env _link fetch msg w) ∧
      rejected_as_unsupported h env _link msg w
        (handle_mission_request h env _link legacy msg w)) ∧
    (h.mission_type = MAV_MISSION_TYPE_MISSION ∨ env.sending_mavlink1 _link = false →
      mavlink2_requirement_met h env _link msg w = (true, w)) := by
  refine ⟨?_, mavlink2_requirement_met_of_met h env _link msg w⟩
  rintro ⟨hcat, hv1⟩
  have hun := mavlink2_requirement_met_of_unmet h env _link msg w hcat hv1
  have hrej := rejected_as_unsupported_intro h env _link msg w
  refine ⟨?_, ?_, ?_, ?_, ?_⟩
  · simpa [handle_mission_count, hun] using hrej
  · simpa [handle_mission_write_partial_list, hun] using hrej
  · simpa [handle_mission_request_list, hun] using hrej
  · simpa [handle_mission_request_int, hun] using hrej
  · simpa [handle_mission_request, hun] using hrej

/-- Witness of C14 as amended: a fence session on a MAVLink 1 link is announced
a count of 4; a mission session is not rejected. -/
theorem version_check_first_witness :
    (handle_mission_count (counting_hooks MAV_MISSION_TYPE_FENCE) (env_mavlink1_at 5 true) 0
      ⟨4⟩ ⟨255, 190⟩ ⟨idle_session, 3, []⟩).log =
      [Event.send_text Text.need_mavlink2,
       Event.mavlink_msg_mission_ack_send 0 255 190 MAV_MISSION_UNSUPPORTED
         MAV_MISSION_TYPE_FENCE] ∧
    mavlink2_requirement_met (counting_hooks MAV_MISSION_TYPE_MISSION) (env_mavlink1_at 5 true)
      0 ⟨255, 190⟩ ⟨idle_session, 3, []⟩ = (true, ⟨idle_session, 3, []⟩) :=
  ⟨((version_check_first (counting_hooks MAV_MISSION_TYPE_FENCE) (env_mavlink1_at 5 true) 0
      ⟨255, 190⟩ ⟨idle_session, 3, []⟩ ⟨4⟩ ⟨0, 0⟩ ⟨0⟩ ⟨0⟩).1 ⟨by decide, rfl⟩).1.2.2,
   (version_check_first (counting_hooks MAV_MISSION_TYPE_MISSION) (env_mavlink1_at 5 true) 0
      ⟨255, 190⟩ ⟨idle_session, 3, []⟩ ⟨4⟩ ⟨0, 0⟩ ⟨0⟩ ⟨0⟩).2 (Or.inl rfl)⟩

/-- Counterexample to C14 as stated: a fence session on a link that is sending
MAVLink 1. Without room on the link, the handler of a count announcement
writes the text and no MAV_MISSION_UNSUPPORTED acknowledgement; with room, it
writes the text before the acknowledgement; and `handle_mission_clear_all`
performs no version check at all: it clears the list of three items and
acknowledges MAV_MISSION_ACCEPTED. -/
theorem version_check_outputs :
    (counting_hooks MAV_MISSION_TYPE_FENCE).mission_type ≠ MAV_MISSION_TYPE_MISSION ∧
    (env_mavlink1_at 5 false).sending_mavlink1 0 = true ∧
    (handle_mission_count (counting_hooks MAV_MISSION_TYPE_FENCE) (env_mavlink1_at 5 false) 0
      ⟨4⟩ ⟨255, 190⟩ ⟨idle_session, 3, []⟩).log = [Event.send_text Text.need_mavlink2] ∧
    (handle_mission_count (counting_hooks MAV_MISSION_TYPE_FENCE) (env_mavlink1_at 5 true) 0
      ⟨4⟩ ⟨255, 190⟩ ⟨idle_session, 3, []⟩).log =
      [Event.send_text Text.need_mavlink2,
       Event.mavlink_msg_mission_ack_send 0 255 190 MAV_MISSION_UNSUPPORTED
         MAV_MISSION_TYPE_FENCE] ∧
    (handle_mission_clear_all (counting_hooks MAV_MISSION_TYPE_FENCE) (env_mavlink1_at 5 true) 0
      ⟨255, 190⟩ ⟨idle_session, 3, []⟩).log =
      [Event.clear_all_items true,
       Event.mavlink_msg_mission_ack_send 0 255 190 MAV_MISSION_ACCEPTED
         MAV_MISSION_TYPE_FENCE] ∧
    (handle_mission_clear_all (counting_hooks MAV_MISSION_TYPE_FENCE) (env_mavlink1_at 5 true) 0
      ⟨255, 190⟩ ⟨idle_session, 3, []⟩).store = 0 := by
  decide

/-! ### Items out of order -/

/-- C15 as amended. For a receiving session and an item whose `seq` differs
from `request_i`, `handle_mission_item` rejects the item without buffering or
reordering it and without aborting the transfer: the session is exactly as it
was (still receiving, `link` as it was, `request_i` unchanged), the store is
unchanged, and the log gains no call of `free_upload_resources`,
`replace_item` or `append_item`; over a bound link `l` it gains the
MAV_MISSION_INVALID_SEQUENCE acknowledgement when `l` has room for it and
nothing otherwise. -/
theorem handle_mission_item_out_of_order (h : Hooks σ) (env : Env) (msg : mavlink_message_t)
    (cmd : mavlink_mission_item_int_t) (w : World σ)
    (hrecv : w.sess.receiving = true) (hseq : cmd.seq ≠ w.sess.request_i) :
    (handle_mission_item h env msg cmd w).sess = w.sess ∧
    (handle_mission_item h env msg cmd w).sess.receiving = true ∧
    (handle_mission_item h env msg cmd w).sess.link = w.sess.link ∧
    (handle_mission_item h env msg cmd w).store = w.store ∧
    (∃ evs : List Event, (handle_mission_item h env msg cmd w).log = w.log ++ evs ∧
      evs.all (fun e => !e.is_free && !e.is_store_write) = true) ∧
    (∀ l, w.sess.link = some l →
      (handle_mission_item h env msg cmd w).log = w.log ++
        (if env.have_payload_space w.log l MsgId.MISSION_ACK then
          [Event.mavlink_msg_mission_ack_send l msg.sysid msg.compid
            MAV_MISSION_INVALID_SEQUENCE h.mission_type]
         else [])) := by
  cases hlink : w.sess.link with
  | none =>
    simp only [handle_mission_item, hlink]
    refine ⟨rfl, hrecv, hlink, rfl, ⟨[Event.internal_error], rfl, by decide⟩, ?_⟩
    intro l hl
    cases hl
  | some l =>
    simp only [handle_mission_item, hlink, send_mission_ack]
    rw [if_pos hseq]
    refine ⟨by simp, by simp [hrecv], by simp [hlink], by simp, ?_, ?_⟩
    · refine ⟨_, send_mission_ack_link_log h env l msg _ w, ?_⟩
      split <;> simp [Event.is_free, Event.is_store_write]
    · intro l2 hl2
      cases hl2
      exact send_mission_ack_link_log h env l msg _ w

/-- Witness of C15 as amended: item 2 arrives while item 1 is requested. -/
theorem handle_mission_item_out_of_order_witness :
    (handle_mission_item (counting_hooks MAV_MISSION_TYPE_MISSION) (env_at 5 true) ⟨255, 190⟩
      ⟨2, 1, 1, 0⟩ ⟨receiving_session 1 2, 3, []⟩).sess = receiving_session 1 2 ∧
    (handle_mission_item (counting_hooks MAV_MISSION_TYPE_MISSION) (env_at 5 true) ⟨255, 190⟩
      ⟨2, 1, 1, 0⟩ ⟨receiving_session 1 2, 3, []⟩).store = 3 :=
  have key := handle_mission_item_out_of_order (counting_hooks MAV_MISSION_TYPE_MISSION)
    (env_at 5 true) ⟨255, 190⟩ ⟨2, 1, 1, 0⟩ ⟨receiving_session 1 2, 3, []⟩ rfl (by decide)
  ⟨key.1, key.2.2.2.1⟩

/-- Counterexample to C15 as stated: item 2 arrives from the uploading peer
while item 1 is requested. Afterwards the session is still receiving over its
link with `request_i = 1`, and `free_upload_resources` has not been called:
the transfer is not aborted. -/
theorem handle_mission_item_out_of_order_no_abort :
    (receiving_session 1 2).receiving = true ∧
    ((⟨2, 1, 1, 0⟩ : mavlink_mission_item_int_t).seq ≠ (receiving_session 1 2).request_i) ∧
    (handle_mission_item (counting_hooks MAV_MISSION_TYPE_MISSION) (env_at 5 true) ⟨255, 190⟩
      ⟨2, 1, 1, 0⟩ ⟨receiving_session 1 2, 3, []⟩).sess.receiving = true ∧
    (handle_mission_item (counting_hooks MAV_MISSION_TYPE_MISSION) (env_at 5 true) ⟨255, 190⟩
      ⟨2, 1, 1, 0⟩ ⟨receiving_session 1 2, 3, []⟩).sess.link = some 0 ∧
    (handle_mission_item (counting_hooks MAV_MISSION_TYPE_MISSION) (env_at 5 true) ⟨255, 190⟩
      ⟨2, 1, 1, 0⟩ ⟨receiving_session 1 2, 3, []⟩).sess.request_i = 1 ∧
    (handle_mission_item (counting_hooks MAV_MISSION_TYPE_MISSION) (env_at 5 true) ⟨255, 190⟩
      ⟨2, 1, 1, 0⟩ ⟨receiving_session 1 2, 3, []⟩).log =
      [Event.mavlink_msg_mission_ack_send 0 255 190 MAV_MISSION_INVALID_SEQUENCE
        MAV_MISSION_TYPE_MISSION] := by
  decide

/-! ### A competing peer -/

theorem upload_untouched_refl (w : World σ) : upload_untouched w w :=
  ⟨rfl, rfl, rfl, rfl, rfl, rfl, rfl, rfl, [], by simp, rfl⟩

/-- An event that is no mutating store call can be added. -/
theorem upload_untouched_emit (w u : World σ) (e : Event)
    (he : e.is_mutating_store_call = false) (hu : upload_untouched w u) :
    upload_untouched w (u.emit e) := by
  obtain ⟨h1, h2, h3, h4, h5, h6, h7, h8, evs, hl, hall⟩ := hu
  refine ⟨h1, h2, h3, h4, h5, h6, h7, h8, evs ++ [e], ?_, ?_⟩
  · simp [hl]
  · simp only [List.all_append, hall, List.all_cons, he, List.all_nil]
    rfl

/-- An acknowledgement can be added. -/
theorem upload_untouched_ack (h : Hooks σ) (env : Env) (l : Nat) (msg : mavlink_message_t)
    (r : MAV_MISSION_RESULT) (w u : World σ) (hu : upload_untouched w u) :
    upload_untouched w (send_mission_ack_link h env l msg r u) := by
  unfold send_mission_ack_link
  split
  · exact upload_untouched_emit w u _ rfl hu
  · exact hu

/-- A call of `get_item` can be added. -/
theorem upload_untouched_get_item (h : Hooks σ) (seq : Nat) (w u : World σ)
    (hu : upload_untouched w u) : upload_untouched w (get_item h seq u).2.2 :=
  upload_untouched_emit w { u with store := (h.get_item u.store seq).2 } _ rfl hu

/-- A failed version check leaves the upload untouched. -/
theorem upload_untouched_unsupported (h : Hooks σ) (env : Env) (l : Nat)
    (msg : mavlink_message_t) (w : World σ) :
    upload_untouched w (send_mission_ack_link h env l msg MAV_MISSION_UNSUPPORTED
      (w.emit (Event.send_text Text.need_mavlink2))) :=
  upload_untouched_ack h env l msg _ w _ (upload_untouched_emit w w _ rfl (upload_untouched_refl w))

/-- For a sender that is not the uploading peer, `cancel_upload` fails and only
writes its acknowledgement. -/
theorem cancel_upload_of_other_peer (h : Hooks σ) (env : Env) (l : Nat)
    (msg : mavlink_message_t) (w : World σ) (hrecv : w.sess.receiving = true)
    (hpeer : msg.sysid ≠ w.sess.dest_sysid ∨ msg.compid ≠ w.sess.dest_compid) :
    cancel_upload h env l msg w =
      (false, send_mission_ack_link h env l msg MAV_MISSION_DENIED w) := by
  simp [cancel_upload, hrecv, hpeer]

/-- C16. While a session is receiving from the peer (`dest_sysid`,
`dest_compid`), a message from a sender that differs in either identifier
leaves the upload state (`receiving`, `request_i`, `request_last`,
`dest_sysid`, `dest_compid`, `link`, `timelast_receive_ms`,
`timelast_request_ms`) as it was in every handler (count announcement,
partial-list request, single item, list request, indexed item request, legacy
item request, clear-all), and the handler calls none of `replace_item`,
`append_item`, `truncate`, `clear_all_items`, the two allocations,
`free_upload_resources` and `complete`. -/
theorem other_peer_leaves_upload_untouched (h : Hooks σ) (env : Env) (_link : Nat)
    (msg : mavlink_message_t) (w : World σ) (count : mavlink_mission_count_t)
    (window : mavlink_mission_write_partial_list_t) (cmd : mavlink_mission_item_int_t)
    (fetch : mavlink_mission_request_int_t) (legacy : mavlink_mission_request_t)
    (hrecv : w.sess.receiving = true)
    (hpeer : msg.sysid ≠ w.sess.dest_sysid ∨ msg.compid ≠ w.sess.dest_compid) :
    upload_untouched w (handle_mission_count h env _link count msg w) ∧
    upload_untouched w (handle_mission_write_partial_list h env _link msg window w) ∧
    upload_untouched w (handle_mission_item h env msg cmd w) ∧
    upload_untouched w (handle_mission_request_list h env _link msg w) ∧
    upload_untouched w (handle_mission_request_int h env _link fetch msg w) ∧
    upload_untouched w (handle_mission_request h env _link legacy msg w) ∧
    upload_untouched w (handle_mission_clear_all h env _link msg w) := by
  have hun := upload_untouched_unsupported h env _link msg w
  have hden := upload_untouched_ack h env _link msg MAV_MISSION_DENIED w w
    (upload_untouched_refl w)
  have hcancel := cancel_upload_of_other_peer h env _link msg w hrecv hpeer
  refine ⟨?_, ?_, ?_, ?_, ?_, ?_, ?_⟩
  · rcases mavlink2_requirement_met_cases h env _link msg w with hm | hm
    · simpa [handle_mission_count, hm, hcancel] using hden
    · simpa [handle_mission_count, hm] using hun
  · rcases mavlink2_requirement_met_cases h env _link msg w with hm | hm
    · simpa [handle_mission_write_partial_list, hm, hrecv] using hden
    · simpa [handle_mission_write_partial_list, hm] using hun
  · cases hlink : w.sess.link with
    | none =>
      simp only [handle_mission_item, hlink]
      exact upload_untouched_emit w w _ rfl (upload_untouched_refl w)
    | some l =>
      simp only [handle_mission_item, hlink, send_mission_ack]
      split
      · exact upload_untouched_ack h env l msg _ w w (upload_untouched_refl w)
      · split
        · exact upload_untouched_ack h env l msg _ w w (upload_untouched_refl w)
        · split
          · exact upload_untouched_ack h env l msg _ w w (upload_untouched_refl w)
          · rename_i hs hc
            rcases hpeer with hp | hp
            · exact absurd hp hs
            · exact absurd hp hc
  · rcases mavlink2_requirement_met_cases h env _link msg w with hm | hm
    · simpa [handle_mission_request_list, hm, hrecv] using hden
    · simpa [handle_mission_request_list, hm] using hun
  · rcases mavlink2_requirement_met_cases h env _link msg w with hm | hm
    · simpa [handle_mission_request_int, hm, hrecv] using hden
    · simpa [handle_mission_request_int, hm] using hun
  · rcases mavlink2_requirement_met_cases h env _link msg w with hm | hm
    · have hget := upload_untouched_get_item h legacy.seq w w (upload_untouched_refl w)
      simp only [handle_mission_request, hm, Bool.true_eq_false, if_false]
      split
      · exact upload_untouched_ack h env _link msg _ w _ hget
      · have hconv := upload_untouched_emit w (get_item h legacy.seq w).2.2
          (Event.convert_MISSION_ITEM_INT_to_MISSION_ITEM
            (h.convert_MISSION_ITEM_INT_to_MISSION_ITEM
              { (get_item h legacy.seq w).2.1 with
                target_system := msg.sysid, target_component := msg.compid }).1) rfl hget
        split
        · exact upload_untouched_ack h env _link msg _ w _ hconv
        · refine upload_untouched_emit w _ _ rfl ?_
          split
          · refine upload_untouched_emit w _ _ rfl ?_
            exact hconv
          · exact hconv
    · simpa [handle_mission_request, hm] using hun
  · simp only [handle_mission_clear_all, hcancel, Bool.false_eq_true, if_false]
    exact upload_untouched_ack h env _link msg _ w _ hden

/-- Witness of C16: (1, 1) announces a count and asks to clear the list while
(255, 190) uploads the window 1..2. -/
theorem other_peer_leaves_upload_untouched_witness :
    (handle_mission_count (counting_hooks MAV_MISSION_TYPE_MISSION) (env_at 5 true) 1 ⟨4⟩
      ⟨1, 1⟩ ⟨receiving_session 1 2, 3, []⟩).sess.request_i = 1 ∧
    (handle_mission_clear_all (counting_hooks MAV_MISSION_TYPE_MISSION) (env_at 5 true) 1
      ⟨1, 1⟩ ⟨receiving_session 1 2, 3, []⟩).sess.receiving = true :=
  have key := other_peer_leaves_upload_untouched (counting_hooks MAV_MISSION_TYPE_MISSION)
    (env_at 5 true) 1 ⟨1, 1⟩ ⟨receiving_session 1 2, 3, []⟩ ⟨4⟩ ⟨0, 0⟩ ⟨1, 1, 1, 0⟩ ⟨0⟩ ⟨0⟩
    rfl (by decide)
  ⟨key.1.2.1, key.2.2.2.2.2.2.1⟩

/-! ### The window of an upload -/

theorem window_invariant_of_fields (w v : World σ)
    (hr : v.sess.receiving = w.sess.receiving) (hl : v.sess.link = w.sess.link)
    (hi : v.sess.request_i = w.sess.request_i)
    (hlast : v.sess.request_last = w.sess.request_last) (hw : window_invariant w) :
    window_invariant v := by
  unfold window_invariant at hw ⊢
  rw [hr, hl, hi, hlast]
  exact hw

theorem window_invariant_of_sess_eq (w v : World σ) (hs : v.sess = w.sess)
    (hw : window_invariant w) : window_invariant v :=
  window_invariant_of_fields w v (by rw [hs]) (by rw [hs]) (by rw [hs]) (by rw [hs]) hw

theorem window_invariant_of_cleared (v : World σ) (hr : v.sess.receiving = false)
    (hl : v.sess.link = none) : window_invariant v := by
  unfold window_invariant
  simp [hr, hl]

theorem window_invariant_ack (h : Hooks σ) (env : Env) (l : Nat) (msg : mavlink_message_t)
    (r : MAV_MISSION_RESULT) (u : World σ) (hu : window_invariant u) :
    window_invariant (send_mission_ack_link h env l msg r u) :=
  window_invariant_of_sess_eq u _ (by simp) hu

theorem window_invariant_unsupported (h : Hooks σ) (env : Env) (l : Nat)
    (msg : mavlink_message_t) (w : World σ) (hw : window_invariant w) :
    window_invariant (send_mission_ack_link h env l msg MAV_MISSION_UNSUPPORTED
      (w.emit (Event.send_text Text.need_mavlink2))) :=
  window_invariant_of_sess_eq w _ (by simp) hw

theorem window_invariant_cancel_upload (h : Hooks σ) (env : Env) (l : Nat)
    (msg : mavlink_message_t) (w : World σ) (hw : window_invariant w) :
    window_invariant (cancel_upload h env l msg w).2 := by
  unfold cancel_upload
  split
  · split
    · exact window_invariant_ack h env l msg _ w hw
    · exact window_invariant_of_cleared _ rfl rfl
  · exact hw

/-- The start of an upload over a window inside 0..65534 opens the window. -/
theorem window_invariant_init_send_requests (h : Hooks σ) (env : Env) (l : Nat)
    (msg : mavlink_message_t) (a b : Int) (w : World σ)
    (hab : uint16_of a ≤ uint16_of b) (hb : uint16_of b ≤ 65534) :
    window_invariant (init_send_requests h env l msg a b w) := by
  unfold window_invariant
  simp [init_send_requests, hab, hb]

theorem window_invariant_handle_mission_clear_all (h : Hooks σ) (env : Env) (l : Nat)
    (msg : mavlink_message_t) (w : World σ) (hw : window_invariant w) :
    window_invariant (handle_mission_clear_all h env l msg w) := by
  have hc := window_invariant_cancel_upload h env l msg w hw
  unfold handle_mission_clear_all
  split
  · exact window_invariant_of_sess_eq _ _ (by simp [clear_all_items]) hc
  · exact window_invariant_ack h env l msg _ _ hc

theorem window_invariant_handle_mission_count (h : Hooks σ) (env : Env) (l : Nat)
    (packet : mavlink_mission_count_t) (msg : mavlink_message_t) (w : World σ)
    (hw : window_invariant w) :
    window_invariant (handle_mission_count h env l packet msg w) := by
  rcases mavlink2_requirement_met_cases h env l msg w with hm | hm
  · have hc := window_invariant_cancel_upload h env l msg w hw
    simp only [handle_mission_count, hm, Bool.true_eq_false, if_false]
    split
    · exact hc
    · split
      · exact window_invariant_of_sess_eq _ _ (by simp) hc
      · rename_i hmax
        split
        · exact window_invariant_of_sess_eq _ _ (by simp [allocate_receive_resources]) hc
        · split
          · exact window_invariant_of_cleared _ (by simp) (by simp)
          · rename_i hne
            have hlt : max_items h (cancel_upload h env l msg w).2 < 65536 :=
              Nat.mod_lt _ (by decide)
            have hcount : packet.count < 65536 := by omega
            apply window_invariant_init_send_requests
            · rw [uint16_of_int16_of_zero]
              exact Nat.zero_le _
            · rw [uint16_of_int16_of_pred packet.count (by omega) hcount]
              omega
  · simp only [handle_mission_count, hm, if_true]
    exact window_invariant_unsupported h env l msg w hw

theorem window_invariant_handle_mission_request_list (h : Hooks σ) (env : Env) (l : Nat)
    (msg : mavlink_message_t) (w : World σ) (hw : window_invariant w) :
    window_invariant (handle_mission_request_list h env l msg w) := by
  rcases mavlink2_requirement_met_cases h env l msg w with hm | hm
  · simp only [handle_mission_request_list, hm, Bool.true_eq_false, if_false]
    split
    · exact window_invariant_ack h env l msg _ w hw
    · split
      · exact window_invariant_of_sess_eq w _ (by simp) hw
      · exact hw
  · simp only [handle_mission_request_list, hm, if_true]
    exact window_invariant_unsupported h env l msg w hw

theorem window_invariant_handle_mission_request_int (h : Hooks σ) (env : Env) (l : Nat)
    (packet : mavlink_mission_request_int_t) (msg : mavlink_message_t) (w : World σ)
    (hw : window_invariant w) :
    window_invariant (handle_mission_request_int h env l packet msg w) := by
  rcases mavlink2_requirement_met_cases h env l msg w with hm | hm
  · simp only [handle_mission_request_int, hm, Bool.true_eq_false, if_false]
    split
    · exact window_invariant_ack h env l msg _ w hw
    · split
      · apply window_invariant_of_sess_eq w _ _ hw
        simp only [send_mission_ack_link_sess]
        split
        · split
          · simp [get_item]
          · simp [get_item]
        · simp [get_item]
      · exact window_invariant_of_sess_eq w _ (by simp [get_item]) hw
  · simp only [handle_mission_request_int, hm, if_true]
    exact window_invariant_unsupported h env l msg w hw

theorem window_invariant_handle_mission_request (h : Hooks σ) (env : Env) (l : Nat)
    (packet : mavlink_mission_request_t) (msg : mavlink_message_t) (w : World σ)
    (hw : window_invariant w) :
    window_invariant (handle_mission_request h env l packet msg w) := by
  rcases mavlink2_requirement_met_cases h env l msg w with hm | hm
  · simp only [handle_mission_request, hm, Bool.true_eq_false, if_false]
    split
    · exact window_invariant_of_sess_eq w _ (by simp [get_item]) hw
    · split
      · exact window_invariant_of_sess_eq w _ (by simp [get_item]) hw
      · split
        · exact window_invariant_of_fields w _ rfl rfl rfl rfl hw
        · exact window_invariant_of_sess_eq w _ (by simp [get_item]) hw
  · simp only [handle_mission_request, hm, if_true]
    exact window_invariant_unsupported h env l msg w hw

theorem window_invariant_handle_mission_write_partial_list (h : Hooks σ) (env : Env) (l : Nat)
    (msg : mavlink_message_t) (packet : mavlink_mission_write_partial_list_t) (w : World σ)
    (hwf : -32768 ≤ packet.start_index ∧ packet.start_index ≤ 32767 ∧
      -32768 ≤ packet.end_index ∧ packet.end_index ≤ 32767)
    (hw : window_invariant w) :
    window_invariant (handle_mission_write_partial_list h env l msg packet w) := by
  rcases mavlink2_requirement_met_cases h env l msg w with hm | hm
  · simp only [handle_mission_write_partial_list, hm, Bool.true_eq_false, if_false]
    split
    · exact window_invariant_ack h env l msg _ w hw
    · split
      · exact window_invariant_of_sess_eq w _ (by simp) hw
      · rename_i hguard
        split
        · exact window_invariant_of_sess_eq w _ (by simp [allocate_update_resources]) hw
        · have hn : item_count h w < 65536 := Nat.mod_lt _ (by decide)
          have hg := (partial_list_guard_iff packet.start_index packet.end_index
            (item_count h w) ⟨hwf.1, hwf.2.1⟩ ⟨hwf.2.2.1, hwf.2.2.2⟩ hn).not.mp hguard
          rw [not_not] at hg
          obtain ⟨g1, g2, g3⟩ := hg
          apply window_invariant_init_send_requests
          · unfold uint16_of
            omega
          · unfold uint16_of
            omega
  · simp only [handle_mission_write_partial_list, hm, if_true]
    exact window_invariant_unsupported h env l msg w hw

theorem window_invariant_queued_request_send (h : Hooks σ) (env : Env) (tnow : Nat)
    (w : World σ) (hw : window_invariant w) :
    window_invariant (queued_request_send h env tnow w) := by
  unfold queued_request_send
  split
  · exact hw
  · split
    · exact hw
    · split
      · exact window_invariant_of_sess_eq w _ rfl hw
      · split
        · exact window_invariant_of_fields w _ rfl rfl rfl rfl hw
        · exact hw

theorem window_invariant_handle_mission_item (h : Hooks σ) (env : Env)
    (msg : mavlink_message_t) (cmd : mavlink_mission_item_int_t) (w : World σ)
    (hw : window_invariant w) :
    window_invariant (handle_mission_item h env msg cmd w) := by
  cases hlink : w.sess.link with
  | none =>
    simp only [handle_mission_item, hlink]
    exact window_invariant_of_sess_eq w _ rfl hw
  | some l =>
    have hrecv : w.sess.receiving = true := hw.1.mpr (by simp [hlink])
    obtain ⟨hi, hlast⟩ := hw.2 hrecv
    simp only [handle_mission_item, hlink, send_mission_ack]
    split
    · exact window_invariant_ack h env l msg _ w hw
    · split
      · exact window_invariant_ack h env l msg _ w hw
      · split
        · exact window_invariant_ack h env l msg _ w hw
        · split
          · exact window_invariant_of_cleared _ rfl rfl
          · split
            · exact window_invariant_of_cleared _ (by simp) (by simp)
            · rename_i hngt
              simp only [store_item_sess] at hngt
              have hmod : (w.sess.request_i + 1) % 65536 = w.sess.request_i + 1 :=
                Nat.mod_eq_of_lt (by omega)
              rw [hmod] at hngt
              have hw2 : window_invariant
                  ({ (store_item h cmd w).2 with
                     sess := { (store_item h cmd w).2.sess with
                       timelast_receive_ms := env.millis 0
                       request_i := ((store_item h cmd w).2.sess.request_i + 1) % 65536 } } :
                    World σ) := by
                unfold window_invariant
                simp only [store_item_sess, hrecv, hlink, hmod]
                refine ⟨by simp, fun _ => ⟨by omega, hlast⟩⟩
              split
              · exact window_invariant_queued_request_send h env _ _ hw2
              · exact window_invariant_of_sess_eq _ _ rfl hw2

theorem window_invariant_send_mission_item_warning (w : World σ) (hw : window_invariant w) :
    window_invariant (send_mission_item_warning w) := by
  unfold send_mission_item_warning
  split
  · exact hw
  · exact window_invariant_of_fields w _ rfl rfl rfl rfl hw

theorem window_invariant_update (h : Hooks σ) (env : Env) (w : World σ)
    (hw : window_invariant w) : window_invariant (update h env w) := by
  unfold update
  split
  · exact hw
  · split
    · exact window_invariant_of_sess_eq w _ rfl hw
    · split
      · refine window_invariant_of_cleared _ ?_ (by simp)
        simp only [free_upload_resources_sess, timeout]
        split <;> rfl
      · split
        · exact window_invariant_of_fields w _ rfl rfl rfl rfl hw
        · exact hw

/-- Every entry point keeps the window invariant, for a call whose packet
fields fit their types. -/
theorem window_invariant_step (h : Hooks σ) (env : Env) (c : Call) (w : World σ)
    (hwf : c.well_formed) (hw : window_invariant w) : window_invariant (step h env c w) := by
  cases c with
  | handle_mission_clear_all l msg =>
    exact window_invariant_handle_mission_clear_all h env l msg w hw
  | handle_mission_count l packet msg =>
    exact window_invariant_handle_mission_count h env l packet msg w hw
  | handle_mission_request_list l msg =>
    exact window_invariant_handle_mission_request_list h env l msg w hw
  | handle_mission_request_int l packet msg =>
    exact window_invariant_handle_mission_request_int h env l packet msg w hw
  | handle_mission_request l packet msg =>
    exact window_invariant_handle_mission_request h env l packet msg w hw
  | handle_mission_write_partial_list l msg packet =>
    exact window_invariant_handle_mission_write_partial_list h env l msg packet w hwf hw
  | handle_mission_item msg cmd =>
    exact window_invariant_handle_mission_item h env msg cmd w hw
  | send_mission_item_warning => exact window_invariant_send_mission_item_warning w hw
  | queued_request_send => exact window_invariant_queued_request_send h env _ w hw
  | update => exact window_invariant_update h env w hw

/-- Every run of well-formed calls keeps the window invariant. -/
theorem window_invariant_run (h : Hooks σ) (cs : List (Env × Call)) (w : World σ)
    (hwf : ∀ c ∈ cs, c.2.well_formed) (hw : window_invariant w) :
    window_invariant (run h cs w) := by
  induction cs generalizing w with
  | nil => exact hw
  | cons c cs ih =>
    exact ih (step h c.1 c.2 w) (fun d hd => hwf d (List.mem_cons_of_mem c hd))
      (window_invariant_step h c.1 c.2 w (hwf c (List.mem_cons_self c cs)) hw)

/-- An acknowledgement is no call of `complete()`. -/
theorem send_mission_ack_link_complete (h : Hooks σ) (env : Env) (l : Nat)
    (msg : mavlink_message_t) (r : MAV_MISSION_RESULT) (w : World σ) :
    (send_mission_ack_link h env l msg r w).log.countP Event.is_complete =
      w.log.countP Event.is_complete := by
  rw [send_mission_ack_link_log]
  split <;> simp [Event.is_complete]

/-- `handle_mission_item` calls `complete()` once if the item is the requested
one, comes from the uploading peer over a bound link, is accepted by the store
and the incremented `request_i` exceeds `request_last`; otherwise not at all. -/
theorem handle_mission_item_complete_count (h : Hooks σ) (env : Env)
    (msg : mavlink_message_t) (cmd : mavlink_mission_item_int_t) (w : World σ) :
    (handle_mission_item h env msg cmd w).log.countP Event.is_complete =
      w.log.countP Event.is_complete +
        (if w.sess.link.isSome = true ∧ cmd.seq = w.sess.request_i ∧
            msg.sysid = w.sess.dest_sysid ∧ msg.compid = w.sess.dest_compid ∧
            (store_item h cmd w).1 = MAV_MISSION_ACCEPTED ∧
            (w.sess.request_i + 1) % 65536 > w.sess.request_last then 1 else 0) := by
  have hst := store_item_complete h cmd w
  cases hlink : w.sess.link with
  | none => simp [handle_mission_item, hlink, Event.is_complete]
  | some l =>
    simp only [handle_mission_item, hlink, send_mission_ack, Option.isSome_some, true_and]
    by_cases hseq : cmd.seq = w.sess.request_i
    · by_cases hsys : msg.sysid = w.sess.dest_sysid
      · by_cases hcomp : msg.compid = w.sess.dest_compid
        · by_cases hacc : (store_item h cmd w).1 = MAV_MISSION_ACCEPTED
          · by_cases hgt : (w.sess.request_i + 1) % 65536 > w.sess.request_last
            · simp only [hseq, hsys, hcomp, hacc, ne_eq, not_true_eq_false, if_false,
                store_item_sess, hgt, if_true, and_self]
              rw [transfer_is_complete_log]
              split <;> simp [Event.is_complete, List.countP_cons, hst]
            · simp only [hseq, hsys, hcomp, hacc, ne_eq, not_true_eq_false, if_false,
                store_item_sess, hgt, and_false, and_true, Nat.add_zero]
              split
              · simp only [queued_request_send, store_item_sess, hlink]
                repeat' split
                all_goals first | exact hst | simp [Event.is_complete, hst]
              · simp [Event.is_complete, hst]
          · simp only [hseq, hsys, hcomp, ne_eq, not_true_eq_false, if_false, hacc,
              not_false_eq_true, if_true, false_and, and_false, Nat.add_zero,
              store_item_sess, hlink]
            simp [send_mission_ack_link_complete, Event.is_complete, hst]
        · simp [hseq, hsys, hcomp, send_mission_ack_link_complete]
      · simp [hseq, hsys, send_mission_ack_link_complete]
    · simp [hseq, send_mission_ack_link_complete]

/-- C17. In every state reached from an idle session by a finite sequence of
invocations of the handlers, of the deferred request sender and of `update()`,
with packet fields that fit their types, a receiving session has
`request_i <= request_last + 1` (indeed `request_i <= request_last <= 65534`,
so that the 16-bit increment cannot wrap). In such a state
`handle_mission_item` calls `complete()` once exactly when it increments
`request_i` (the requested item, from the uploading peer, accepted by the
store) and the incremented `request_i` exceeds `request_last`, and not at all
otherwise. -/
theorem window_holds (h : Hooks σ) (cs : List (Env × Call)) (w : World σ)
    (hrecv : w.sess.receiving = false) (hlink : w.sess.link = none)
    (hwf : ∀ c ∈ cs, c.2.well_formed) :
    ((run h cs w).sess.receiving = true →
      (run h cs w).sess.request_i ≤ (run h cs w).sess.request_last + 1) ∧
    ((run h cs w).sess.receiving = true →
      (run h cs w).sess.request_i ≤ (run h cs w).sess.request_last ∧
      (run h cs w).sess.request_last ≤ 65534) ∧
    (∀ (env : Env) (msg : mavlink_message_t) (cmd : mavlink_mission_item_int_t),
      (handle_mission_item h env msg cmd (run h cs w)).log.countP Event.is_complete =
        (run h cs w).log.countP Event.is_complete +
          (if (run h cs w).sess.link.isSome = true ∧
              cmd.seq = (run h cs w).sess.request_i ∧
              msg.sysid = (run h cs w).sess.dest_sysid ∧
              msg.compid = (run h cs w).sess.dest_compid ∧
              (store_item h cmd (run h cs w)).1 = MAV_MISSION_ACCEPTED ∧
              (run h cs w).sess.request_i + 1 > (run h cs w).sess.request_last
            then 1 else 0)) := by
  have hw : window_invariant w := window_invariant_of_cleared w hrecv hlink
  have hrun := window_invariant_run h cs w hwf hw
  refine ⟨fun hr => ?_, hrun.2, fun env msg cmd => ?_⟩
  · have := (hrun.2 hr).1
    omega
  · rw [handle_mission_item_complete_count]
    by_cases hl : (run h cs w).sess.link.isSome = true
    · obtain ⟨hi, hlast⟩ := hrun.2 (hrun.1.mpr hl)
      have hmod : ((run h cs w).sess.request_i + 1) % 65536 =
          (run h cs w).sess.request_i + 1 := Nat.mod_eq_of_lt (by omega)
      rw [hmod]
    · simp [hl]

/-- Witness of C17: a count of 2 is announced and item 0 arrives; the next
item, item 1, completes the transfer. -/
theorem window_holds_witness :
    ((run (counting_hooks MAV_MISSION_TYPE_MISSION)
      [(env_at 5 true, Call.handle_mission_count 0 ⟨2⟩ ⟨255, 190⟩),
       (env_at 6 true, Call.handle_mission_item ⟨255, 190⟩ ⟨0, 1, 1, 7⟩)]
      ⟨idle_session, 0, []⟩).sess.request_i ≤
     (run (counting_hooks MAV_MISSION_TYPE_MISSION)
      [(env_at 5 true, Call.handle_mission_count 0 ⟨2⟩ ⟨255, 190⟩),
       (env_at 6 true, Call.handle_mission_item ⟨255, 190⟩ ⟨0, 1, 1, 7⟩)]
      ⟨idle_session, 0, []⟩).sess.request_last + 1) ∧
    (run (counting_hooks MAV_MISSION_TYPE_MISSION)
      [(env_at 5 true, Call.handle_mission_count 0 ⟨2⟩ ⟨255, 190⟩),
       (env_at 6 true, Call.handle_mission_item ⟨255, 190⟩ ⟨0, 1, 1, 7⟩)]
      ⟨idle_session, 0, []⟩).sess.request_i = 1 :=
  ⟨(window_holds (counting_hooks MAV_MISSION_TYPE_MISSION)
      [(env_at 5 true, Call.handle_mission_count 0 ⟨2⟩ ⟨255, 190⟩),
       (env_at 6 true, Call.handle_mission_item ⟨255, 190⟩ ⟨0, 1, 1, 7⟩)]
      ⟨idle_session, 0, []⟩ rfl rfl
      (by
        intro c hc
        simp only [List.mem_cons, List.mem_singleton, List.not_mem_nil, or_false] at hc
        rcases hc with hc | hc <;> subst hc <;> trivial)).1 (by decide),
   by decide⟩

/-! ### The dispatch of an item -/

/-- After the store dispatch, `handle_mission_item` calls neither
`replace_item` nor `append_item` again. -/
theorem handle_mission_item_log_after_store (h : Hooks σ) (env : Env)
    (msg : mavlink_message_t) (cmd : mavlink_mission_item_int_t) (w : World σ) (l : Nat)
    (hlink : w.sess.link = some l) (hseq : cmd.seq = w.sess.request_i)
    (hsys : msg.sysid = w.sess.dest_sysid) (hcomp : msg.compid = w.sess.dest_compid) :
    ∃ rest : List Event,
      (handle_mission_item h env msg cmd w).log = (store_item h cmd w).2.log ++ rest ∧
      rest.all (fun e => !e.is_store_write) = true := by
  have hseq2 : ¬ cmd.seq ≠ w.sess.request_i := not_not.mpr hseq
  have hsys2 : ¬ msg.sysid ≠ w.sess.dest_sysid := not_not.mpr hsys
  have hcomp2 : ¬ msg.compid ≠ w.sess.dest_compid := not_not.mpr hcomp
  simp only [handle_mission_item, hlink, send_mission_ack, if_neg hseq2, if_neg hsys2,
    if_neg hcomp2, store_item_sess]
  split
  · refine ⟨(if env.have_payload_space (store_item h cmd w).2.log l MsgId.MISSION_ACK then
        [Event.mavlink_msg_mission_ack_send l msg.sysid msg.compid (store_item h cmd w).1
          h.mission_type]
       else []) ++ [Event.free_upload_resources], ?_, ?_⟩
    · simp only [free_upload_resources_log, send_mission_ack_link_log, List.append_assoc]
    · split <;> simp [Event.is_store_write]
  · split
    · refine ⟨Event.complete l (h.complete (store_item h cmd w).2.store l).1 ::
        ((if env.have_payload_space ((store_item h cmd w).2.log ++
              [Event.complete l (h.complete (store_item h cmd w).2.store l).1]) l
              MsgId.MISSION_ACK then
            [Event.mavlink_msg_mission_ack_send l msg.sysid msg.compid
              (h.complete (store_item h cmd w).2.store l).1 h.mission_type]
          else []) ++ [Event.free_upload_resources]), ?_, ?_⟩
      · rw [transfer_is_complete_log]
      · split <;> simp [Event.is_store_write]
    · rename_i hngt
      split
      · rename_i hroom
        simp only [queued_request_send, store_item_sess, hlink, if_neg hngt]
        by_cases hr : w.sess.receiving = false
        · rw [if_pos hr]
          exact ⟨[], by simp, rfl⟩
        · rw [if_neg hr]
          simp only [hroom, if_true]
          exact ⟨[_], rfl, by simp [Event.is_store_write]⟩
      · exact ⟨[_], rfl, by simp [Event.is_store_write]⟩

/-- C18 as amended. For a session bound to link `l` and the requested item
(`seq == request_i`) from the uploading peer, `handle_mission_item` calls
`replace_item` (and not `append_item`) exactly when `seq < item_count()`,
`append_item` (and not `replace_item`) exactly when `seq == item_count()`, and
neither when `seq > item_count()`, where the result is MAV_MISSION_ERROR.
Whenever the resulting code is not MAV_MISSION_ACCEPTED, it writes an
acknowledgement with that code to the sender when `l` has room for it (none
otherwise), clears `receiving`, unbinds `link`, calls `free_upload_resources`
exactly once, leaves `request_i` as it was and requests no further item. -/
theorem handle_mission_item_dispatch (h : Hooks σ) (env : Env) (msg : mavlink_message_t)
    (cmd : mavlink_mission_item_int_t) (w : World σ) (l : Nat)
    (hlink : w.sess.link = some l) (hseq : cmd.seq = w.sess.request_i)
    (hsys : msg.sysid = w.sess.dest_sysid) (hcomp : msg.compid = w.sess.dest_compid) :
    (cmd.seq < item_count h w →
      (store_item h cmd w).1 = (h.replace_item w.store cmd).1 ∧
      ∃ rest : List Event, (handle_mission_item h env msg cmd w).log =
        w.log ++ Event.replace_item cmd (h.replace_item w.store cmd).1 :: rest ∧
        rest.all (fun e => !e.is_store_write) = true) ∧
    (cmd.seq = item_count h w →
      (store_item h cmd w).1 = (h.append_item w.store cmd).1 ∧
      ∃ rest : List Event, (handle_mission_item h env msg cmd w).log =
        w.log ++ Event.append_item cmd (h.append_item w.store cmd).1 :: rest ∧
        rest.all (fun e => !e.is_store_write) = true) ∧
    (cmd.seq > item_count h w →
      (store_item h cmd w).1 = MAV_MISSION_ERROR ∧
      ∃ rest : List Event, (handle_mission_item h env msg cmd w).log = w.log ++ rest ∧
        rest.all (fun e => !e.is_store_write) = true) ∧
    ((store_item h cmd w).1 ≠ MAV_MISSION_ACCEPTED →
      (handle_mission_item h env msg cmd w).sess =
        { w.sess with receiving := false, link := none } ∧
      (handle_mission_item h env msg cmd w).sess.request_i = w.sess.request_i ∧
      (handle_mission_item h env msg cmd w).store =
        h.free_upload_resources (store_item h cmd w).2.store ∧
      (handle_mission_item h env msg cmd w).log = (store_item h cmd w).2.log ++
        (if env.have_payload_space (store_item h cmd w).2.log l MsgId.MISSION_ACK then
          [Event.mavlink_msg_mission_ack_send l msg.sysid msg.compid (store_item h cmd w).1
            h.mission_type]
         else []) ++ [Event.free_upload_resources] ∧
      frees (handle_mission_item h env msg cmd w).log = frees w.log + 1 ∧
      (handle_mission_item h env msg cmd w).log.countP Event.is_item_request =
        w.log.countP Event.is_item_request) := by
  obtain ⟨rest, hrest, hall⟩ :=
    handle_mission_item_log_after_store h env msg cmd w l hlink hseq hsys hcomp
  refine ⟨?_, ?_, ?_, ?_⟩
  · intro hlt
    have hs : store_item h cmd w = replace_item h cmd w := by
      simp [store_item, hlt]
    refine ⟨by rw [hs]; rfl, rest, ?_, hall⟩
    rw [hrest, hs]
    simp [replace_item]
  · intro heq
    have hs : store_item h cmd w = append_item h cmd w := by
      simp [store_item, heq]
    refine ⟨by rw [hs]; rfl, rest, ?_, hall⟩
    rw [hrest, hs]
    simp [append_item]
  · intro hgt
    have hs : store_item h cmd w = (MAV_MISSION_ERROR, w) := by
      have h1 : ¬ cmd.seq < item_count h w := by omega
      have h2 : ¬ cmd.seq = item_count h w := by omega
      simp [store_item, h1, h2]
    refine ⟨by rw [hs], rest, ?_, hall⟩
    rw [hrest, hs]
  · intro hne
    obtain ⟨hsa, hsf⟩ := store_item_counts h cmd w
    have hreq : (store_item h cmd w).2.log.countP Event.is_item_request =
        w.log.countP Event.is_item_request := by
      unfold store_item
      split
      · simp [replace_item, Event.is_item_request]
      · split
        · simp [append_item, Event.is_item_request]
        · rfl
    have hseq2 : ¬ cmd.seq ≠ w.sess.request_i := not_not.mpr hseq
    have hsys2 : ¬ msg.sysid ≠ w.sess.dest_sysid := not_not.mpr hsys
    have hcomp2 : ¬ msg.compid ≠ w.sess.dest_compid := not_not.mpr hcomp
    simp only [handle_mission_item, hlink, send_mission_ack, if_neg hseq2, if_neg hsys2,
      if_neg hcomp2, store_item_sess]
    rw [if_pos hne]
    refine ⟨by simp, by simp, by simp, ?_, ?_, ?_⟩
    · simp [send_mission_ack_link_log]
    · simp only [free_upload_resources_log, send_mission_ack_link_log, frees_append, hsf]
      split <;> simp [Event.is_free]
    · simp only [free_upload_resources_log, send_mission_ack_link_log, List.countP_append,
        hreq]
      split <;> simp [Event.is_item_request]

/-- Witness of C18 as amended: item 1 is the requested one, but the list is
empty, so the item would leave a gap. -/
theorem handle_mission_item_dispatch_witness :
    (handle_mission_item (counting_hooks MAV_MISSION_TYPE_MISSION) (env_at 5 true) ⟨255, 190⟩
      ⟨1, 1, 1, 7⟩ ⟨receiving_session 1 2, 0, []⟩).sess.receiving = false ∧
    (handle_mission_item (counting_hooks MAV_MISSION_TYPE_MISSION) (env_at 5 true) ⟨255, 190⟩
      ⟨1, 1, 1, 7⟩ ⟨receiving_session 1 2, 0, []⟩).sess.request_i = 1 ∧
    (handle_mission_item (counting_hooks MAV_MISSION_TYPE_MISSION) (env_at 5 true) ⟨255, 190⟩
      ⟨1, 1, 1, 7⟩ ⟨receiving_session 1 2, 0, []⟩).log =
      [Event.mavlink_msg_mission_ack_send 0 255 190 MAV_MISSION_ERROR MAV_MISSION_TYPE_MISSION,
       Event.free_upload_resources] :=
  have key := (handle_mission_item_dispatch (counting_hooks MAV_MISSION_TYPE_MISSION)
    (env_at 5 true) ⟨255, 190⟩ ⟨1, 1, 1, 7⟩ ⟨receiving_session 1 2, 0, []⟩ 0 rfl rfl rfl
    rfl).2.2.2 (by decide)
  ⟨congrArg Session.receiving key.1, key.2.1, key.2.2.2.1⟩

/-- Counterexample to C18 as stated: the requested item 1 arrives from the
uploading peer, the list is empty (the result is MAV_MISSION_ERROR), and the
link has no room for a MISSION_ACK. The upload is aborted and its resources
are freed, but no acknowledgement is emitted. -/
theorem handle_mission_item_dispatch_no_room :
    (receiving_session 1 2).link = some 0 ∧
    (store_item (counting_hooks MAV_MISSION_TYPE_MISSION) ⟨1, 1, 1, 7⟩
      ⟨receiving_session 1 2, 0, []⟩).1 = MAV_MISSION_ERROR ∧
    (handle_mission_item (counting_hooks MAV_MISSION_TYPE_MISSION) (env_at 5 false) ⟨255, 190⟩
      ⟨1, 1, 1, 7⟩ ⟨receiving_session 1 2, 0, []⟩).log = [Event.free_upload_resources] ∧
    acks (handle_mission_item (counting_hooks MAV_MISSION_TYPE_MISSION) (env_at 5 false)
      ⟨255, 190⟩ ⟨1, 1, 1, 7⟩ ⟨receiving_session 1 2, 0, []⟩).log = [] := by
  decide

/-! ### The resend of a request -/

/-- C19. For a receiving session bound to link `l` that has not timed out at
the tick time `now`, with a `uint16_t` stream slowdown, `update()` queues the
item-request again and sets `timelast_request_ms` to `now` if and only if
`(now - timelast_request_ms) mod 2^32 > 1000 + stream_slowdown_ms`; nothing
else of the session changes then, and otherwise the world is unchanged: in
both cases `receiving`, `request_i`, `request_last`, the peer, `link` and
`timelast_receive_ms` are as they were. On an idle session `update()` does
nothing. -/
theorem update_resend (h : Hooks σ) (env : Env) (w v : World σ) (l : Nat)
    (hrecv : w.sess.receiving = true) (hlink : w.sess.link = some l)
    (hnot : ¬ (((env.millis 0 : Int) - (w.sess.timelast_receive_ms : Int)) % 4294967296
      > (h.upload_timeout_ms : Int)))
    (hslow : env.get_stream_slowdown_ms l < 65536) :
    ((((env.millis 0 : Int) - (w.sess.timelast_request_ms : Int)) % 4294967296
        > 1000 + (env.get_stream_slowdown_ms l : Int)) →
      update h env w =
        { w with
          sess := { w.sess with timelast_request_ms := env.millis 0 }
          log := w.log ++ [Event.send_message l h.next_item_ap_message_id] }) ∧
    (¬ (((env.millis 0 : Int) - (w.sess.timelast_request_ms : Int)) % 4294967296
        > 1000 + (env.get_stream_slowdown_ms l : Int)) →
      update h env w = w) ∧
    (((update h env w).log = w.log ++ [Event.send_message l h.next_item_ap_message_id] ∧
      (update h env w).sess.timelast_request_ms = env.millis 0) ↔
      (((env.millis 0 : Int) - (w.sess.timelast_request_ms : Int)) % 4294967296
        > 1000 + (env.get_stream_slowdown_ms l : Int))) ∧
    ((update h env w).sess.receiving = w.sess.receiving ∧
     (update h env w).sess.request_i = w.sess.request_i ∧
     (update h env w).sess.request_last = w.sess.request_last ∧
     (update h env w).sess.dest_sysid = w.sess.dest_sysid ∧
     (update h env w).sess.dest_compid = w.sess.dest_compid ∧
     (update h env w).sess.link = w.sess.link ∧
     (update h env w).sess.timelast_receive_ms = w.sess.timelast_receive_ms ∧
     (update h env w).store = w.store) ∧
    (v.sess.receiving = false → update h env v = v) := by
  rw [← uint32_sub_gt_iff] at hnot
  have hmod : (1000 + env.get_stream_slowdown_ms l) % 4294967296 =
      1000 + env.get_stream_slowdown_ms l := Nat.mod_eq_of_lt (by omega)
  have hiff : uint32_sub (env.millis 0) w.sess.timelast_request_ms >
      1000 + env.get_stream_slowdown_ms l ↔
      ((env.millis 0 : Int) - (w.sess.timelast_request_ms : Int)) % 4294967296
        > 1000 + (env.get_stream_slowdown_ms l : Int) := by
    have := uint32_sub_gt_iff (env.millis 0) w.sess.timelast_request_ms
      (1000 + env.get_stream_slowdown_ms l)
    rw [this]
    push_cast
    rfl
  rw [← hiff]
  have hstep : update h env w =
      if uint32_sub (env.millis 0) w.sess.timelast_request_ms >
          1000 + env.get_stream_slowdown_ms l then
        { w with
          sess := { w.sess with timelast_request_ms := env.millis 0 }
          log := w.log ++ [Event.send_message l h.next_item_ap_message_id] }
      else w := by
    simp only [update, hrecv, hlink, hnot, hmod, Bool.true_eq_false, if_false, World.emit]
  have hidle : v.sess.receiving = false → update h env v = v := by
    intro hv
    simp [update, hv]
  rw [hstep]
  refine ⟨?_, ?_, ?_, ?_, hidle⟩ <;>
    by_cases hc : uint32_sub (env.millis 0) w.sess.timelast_request_ms >
      1000 + env.get_stream_slowdown_ms l <;>
    simp [hc]

/-- Witness of C19: the tick comes 1001 ms after the last request. -/
theorem update_resend_witness :
    (update (counting_hooks MAV_MISSION_TYPE_MISSION) (env_at 1001 true)
      ⟨receiving_session 1 2, 3, []⟩).log = [Event.send_message 0 0] ∧
    (update (counting_hooks MAV_MISSION_TYPE_MISSION) (env_at 1001 true)
      ⟨receiving_session 1 2, 3, []⟩).sess.timelast_request_ms = 1001 :=
  have key := (update_resend (counting_hooks MAV_MISSION_TYPE_MISSION) (env_at 1001 true)
    ⟨receiving_session 1 2, 3, []⟩ ⟨idle_session, 3, []⟩ 0 rfl rfl (by decide)
    (by decide)).2.2.1.mpr (by decide)
  ⟨key.1, key.2⟩

/-! ### A refused announcement -/

/-- C20. Take any session state (`receiving` true exactly when `link` is
bound), let a count announcement pass the version check and let
`cancel_upload` succeed, which frees the resources of an upload of the
announcer that was in progress and clears the session. If then
`count > max_items()`, the handler writes the MAV_MISSION_NO_SPACE
acknowledgement (when `_link` has room for it) and a text, and calls neither
`allocate_receive_resources` nor `truncate`; if instead
`allocate_receive_resources(count)` returns a code other than
MAV_MISSION_ACCEPTED, the handler writes the acknowledgement carrying that
code unchanged (when `_link` has room for it). In both cases the session is
idle afterwards and the store is the one the cancellation (and the refused
allocation) left. -/
theorem handle_mission_count_refused (h : Hooks σ) (env : Env) (_link : Nat)
    (packet : mavlink_mission_count_t) (msg : mavlink_message_t) (w : World σ)
    (hver : h.mission_type = MAV_MISSION_TYPE_MISSION ∨ env.sending_mavlink1 _link = false)
    (hcancel : (cancel_upload h env _link msg w).1 = true)
    (hstate : w.sess.receiving = true ↔ w.sess.link.isSome = true) :
    ((cancel_upload h env _link msg w).2.log =
      w.log ++ (if w.sess.receiving then [Event.free_upload_resources] else []) ∧
     (cancel_upload h env _link msg w).2.store =
      (if w.sess.receiving then h.free_upload_resources w.store else w.store)) ∧
    (packet.count > max_items h (cancel_upload h env _link msg w).2 →
      (handle_mission_count h env _link packet msg w).sess.receiving = false ∧
      (handle_mission_count h env _link packet msg w).sess.link = none ∧
      (handle_mission_count h env _link packet msg w).store =
        (cancel_upload h env _link msg w).2.store ∧
      (handle_mission_count h env _link packet msg w).log =
        (cancel_upload h env _link msg w).2.log ++
        (if env.have_payload_space (cancel_upload h env _link msg w).2.log _link
            MsgId.MISSION_ACK then
          [Event.mavlink_msg_mission_ack_send _link msg.sysid msg.compid MAV_MISSION_NO_SPACE
            h.mission_type]
         else []) ++
        [Event.send_text (Text.only_n_items_supported
          (max_items h (cancel_upload h env _link msg w).2))]) ∧
    (packet.count ≤ max_items h (cancel_upload h env _link msg w).2 →
      (h.allocate_receive_resources (cancel_upload h env _link msg w).2.store packet.count).1
        ≠ MAV_MISSION_ACCEPTED →
      (handle_mission_count h env _link packet msg w).sess.receiving = false ∧
      (handle_mission_count h env _link packet msg w).sess.link = none ∧
      (handle_mission_count h env _link packet msg w).store =
        (h.allocate_receive_resources (cancel_upload h env _link msg w).2.store
          packet.count).2 ∧
      (handle_mission_count h env _link packet msg w).log =
        (cancel_upload h env _link msg w).2.log ++
        [Event.allocate_receive_resources packet.count
          (h.allocate_receive_resources (cancel_upload h env _link msg w).2.store
            packet.count).1] ++
        (if env.have_payload_space
            ((cancel_upload h env _link msg w).2.log ++
              [Event.allocate_receive_resources packet.count
                (h.allocate_receive_resources (cancel_upload h env _link msg w).2.store
                  packet.count).1]) _link MsgId.MISSION_ACK then
          [Event.mavlink_msg_mission_ack_send _link msg.sysid msg.compid
            (h.allocate_receive_resources (cancel_upload h env _link msg w).2.store
              packet.count).1 h.mission_type]
         else [])) := by
  have hmeet := mavlink2_requirement_met_of_met h env _link msg w hver
  have hsnd := cancel_upload_snd_of_success h env _link msg w hcancel
  have hidle : (cancel_upload h env _link msg w).2.sess.receiving = false ∧
      (cancel_upload h env _link msg w).2.sess.link = none := by
    rw [hsnd]
    cases hr : w.sess.receiving with
    | true => simp
    | false =>
      simp only [Bool.false_eq_true, if_false]
      refine ⟨hr, ?_⟩
      cases hl : w.sess.link with
      | none => rfl
      | some x =>
        have := hstate.mpr (by simp [hl])
        simp [hr] at this
  have hok : ¬ (cancel_upload h env _link msg w).1 = false := by simp [hcancel]
  refine ⟨?_, ?_, ?_⟩
  · rw [hsnd]
    cases hr : w.sess.receiving <;> simp
  · intro hgt
    simp only [handle_mission_count, hmeet, Bool.true_eq_false, if_false, if_neg hok,
      if_pos hgt]
    refine ⟨by simpa using hidle.1, by simpa using hidle.2, by simp, ?_⟩
    simp [send_mission_ack_link_log]
  · intro hle hne
    have hngt : ¬ packet.count > max_items h (cancel_upload h env _link msg w).2 := by omega
    have hne2 : (allocate_receive_resources h packet.count
        (cancel_upload h env _link msg w).2).1 ≠ MAV_MISSION_ACCEPTED := hne
    simp only [handle_mission_count, hmeet, Bool.true_eq_false, if_false, if_neg hok,
      if_neg hngt, if_pos hne2]
    refine ⟨by simpa [allocate_receive_resources] using hidle.1,
      by simpa [allocate_receive_resources] using hidle.2,
      by simp [allocate_receive_resources], ?_⟩
    simp [send_mission_ack_link_log, allocate_receive_resources]

/-- Witness of C20: the uploader of the window 1..2 announces 1000 items, more
than the 724 the list can hold. -/
theorem handle_mission_count_refused_witness :
    (handle_mission_count (counting_hooks MAV_MISSION_TYPE_MISSION) (env_at 5 true) 0 ⟨1000⟩
      ⟨255, 190⟩ ⟨receiving_session 1 2, 3, []⟩).sess.receiving = false ∧
    (handle_mission_count (counting_hooks MAV_MISSION_TYPE_MISSION) (env_at 5 true) 0 ⟨1000⟩
      ⟨255, 190⟩ ⟨receiving_session 1 2, 3, []⟩).sess.link = none ∧
    (handle_mission_count (counting_hooks MAV_MISSION_TYPE_MISSION) (env_at 5 true) 0 ⟨1000⟩
      ⟨255, 190⟩ ⟨receiving_session 1 2, 3, []⟩).log =
      [Event.free_upload_resources,
       Event.mavlink_msg_mission_ack_send 0 255 190 MAV_MISSION_NO_SPACE
         MAV_MISSION_TYPE_MISSION,
       Event.send_text (Text.only_n_items_supported 724)] :=
  have key := (handle_mission_count_refused (counting_hooks MAV_MISSION_TYPE_MISSION)
    (env_at 5 true) 0 ⟨1000⟩ ⟨255, 190⟩ ⟨receiving_session 1 2, 3, []⟩ (Or.inl rfl) rfl
    (by decide)).2.1 (by decide)
  ⟨key.1, key.2.1, key.2.2.2⟩

/-! ### A whole window, from any session the code can reach -/

/-- C1. Let a session that was reached from an idle session by a finite
sequence of invocations of the handlers, of the deferred request sender and of
`update()` (with packet fields that fit their types) be receiving the window
`first .. last`, `first <= last`, over link `l` from the peer (`dest_sysid`,
`dest_compid`), and let `handle_mission_item` be fed the items
`first, first + 1, ..., last`, all from that peer and each accepted by the
store: the list `cs` holds all but the last, `c` is the last. Then after each
of the first `k <= last - first` items the session is still receiving over `l`
with `request_i = first + k`, and no acknowledgement has been written and
`complete()` has not been called since the start. After the last item the
session is idle (`receiving` false, `link` unbound): that call stores the item,
calls `complete()` once, writes one acknowledgement carrying its result to the
peer when `l` has room for it (none otherwise) and frees the upload resources;
in total `complete()` has been called once and no other acknowledgement has
been written. -/
theorem upload_window_completes (h : Hooks σ) (w0 : World σ) (before : List (Env × Call))
    (w : World σ) (l first last : Nat) (cs : List ItemCall) (c : ItemCall)
    (hidle : w0.sess.receiving = false) (hunbound : w0.sess.link = none)
    (hwf : ∀ d ∈ before, d.2.well_formed) (hreach : w = run h before w0)
    (hrecv : w.sess.receiving = true) (hlink : w.sess.link = some l)
    (hfirst : w.sess.request_i = first) (hlast : w.sess.request_last = last)
    (hwin : first ≤ last)
    (hlen : cs.length = last - first)
    (hseq : ∀ k (hk : k < cs.length),
      (cs.get ⟨k, hk⟩).cmd.seq = first + k ∧
      (cs.get ⟨k, hk⟩).msg.sysid = w.sess.dest_sysid ∧
      (cs.get ⟨k, hk⟩).msg.compid = w.sess.dest_compid)
    (hcseq : c.cmd.seq = last ∧ c.msg.sysid = w.sess.dest_sysid ∧
      c.msg.compid = w.sess.dest_compid)
    (hacc : ∀ k (hk : k < cs.length),
      (store_item h (cs.get ⟨k, hk⟩).cmd (feed_items h (cs.take k) w)).1
        = MAV_MISSION_ACCEPTED)
    (hcacc : (store_item h c.cmd (feed_items h cs w)).1 = MAV_MISSION_ACCEPTED) :
    (∀ k, k ≤ last - first →
      (feed_items h (cs.take k) w).sess.receiving = true ∧
      (feed_items h (cs.take k) w).sess.link = some l ∧
      (feed_items h (cs.take k) w).sess.request_i = first + k ∧
      acks (feed_items h (cs.take k) w).log = acks w.log ∧
      (feed_items h (cs.take k) w).log.countP Event.is_complete =
        w.log.countP Event.is_complete) ∧
    (feed_items h (cs ++ [c]) w).sess.receiving = false ∧
    (feed_items h (cs ++ [c]) w).sess.link = none ∧
    (feed_items h (cs ++ [c]) w).log =
      (store_item h c.cmd (feed_items h cs w)).2.log ++
        Event.complete l (h.complete (store_item h c.cmd (feed_items h cs w)).2.store l).1 ::
        ((if c.env.have_payload_space
            ((store_item h c.cmd (feed_items h cs w)).2.log ++
              [Event.complete l
                (h.complete (store_item h c.cmd (feed_items h cs w)).2.store l).1])
            l MsgId.MISSION_ACK then
          [Event.mavlink_msg_mission_ack_send l w.sess.dest_sysid w.sess.dest_compid
            (h.complete (store_item h c.cmd (feed_items h cs w)).2.store l).1 h.mission_type]
         else []) ++ [Event.free_upload_resources]) ∧
    (feed_items h (cs ++ [c]) w).log.countP Event.is_complete =
      w.log.countP Event.is_complete + 1 ∧
    acks (feed_items h (cs ++ [c]) w).log = acks w.log ++
      (if c.env.have_payload_space
          ((store_item h c.cmd (feed_items h cs w)).2.log ++
            [Event.complete l
              (h.complete (store_item h c.cmd (feed_items h cs w)).2.store l).1])
          l MsgId.MISSION_ACK then
        [Event.mavlink_msg_mission_ack_send l w.sess.dest_sysid w.sess.dest_compid
          (h.complete (store_item h c.cmd (feed_items h cs w)).2.store l).1 h.mission_type]
       else []) := by
  have hinv : window_invariant w := by
    rw [hreach]
    exact window_invariant_run h before w0 hwf (window_invariant_of_cleared w0 hidle hunbound)
  have hbound : last ≤ 65534 := by
    rw [← hlast]
    exact (hinv.2 hrecv).2
  exact feed_items_window h w l first last cs c hrecv hlink hfirst hlast hwin hbound hlen hseq
    hcseq hacc hcacc

/-- Witness of C1: an idle session is announced a count of 2, then items 0 and
1 arrive from the announcer. -/
theorem upload_window_completes_witness :
    (feed_items (counting_hooks MAV_MISSION_TYPE_MISSION)
      ([⟨env_at 6 true, ⟨255, 190⟩, ⟨0, 1, 1, 7⟩⟩] ++ [⟨env_at 7 true, ⟨255, 190⟩, ⟨1, 1, 1, 8⟩⟩])
      (run (counting_hooks MAV_MISSION_TYPE_MISSION)
        [(env_at 5 true, Call.handle_mission_count 0 ⟨2⟩ ⟨255, 190⟩)]
        ⟨idle_session, 0, []⟩)).sess.receiving = false ∧
    (feed_items (counting_hooks MAV_MISSION_TYPE_MISSION)
      ([⟨env_at 6 true, ⟨255, 190⟩, ⟨0, 1, 1, 7⟩⟩] ++ [⟨env_at 7 true, ⟨255, 190⟩, ⟨1, 1, 1, 8⟩⟩])
      (run (counting_hooks MAV_MISSION_TYPE_MISSION)
        [(env_at 5 true, Call.handle_mission_count 0 ⟨2⟩ ⟨255, 190⟩)]
        ⟨idle_session, 0, []⟩)).sess.link = none ∧
    acks (feed_items (counting_hooks MAV_MISSION_TYPE_MISSION)
      ([⟨env_at 6 true, ⟨255, 190⟩, ⟨0, 1, 1, 7⟩⟩] ++ [⟨env_at 7 true, ⟨255, 190⟩, ⟨1, 1, 1, 8⟩⟩])
      (run (counting_hooks MAV_MISSION_TYPE_MISSION)
        [(env_at 5 true, Call.handle_mission_count 0 ⟨2⟩ ⟨255, 190⟩)]
        ⟨idle_session, 0, []⟩)).log =
      [Event.mavlink_msg_mission_ack_send 0 255 190 MAV_MISSION_ACCEPTED
        MAV_MISSION_TYPE_MISSION] :=
  have key := upload_window_completes (counting_hooks MAV_MISSION_TYPE_MISSION)
    ⟨idle_session, 0, []⟩ [(env_at 5 true, Call.handle_mission_count 0 ⟨2⟩ ⟨255, 190⟩)]
    (run (counting_hooks MAV_MISSION_TYPE_MISSION)
      [(env_at 5 true, Call.handle_mission_count 0 ⟨2⟩ ⟨255, 190⟩)] ⟨idle_session, 0, []⟩)
    0 0 1 [⟨env_at 6 true, ⟨255, 190⟩, ⟨0, 1, 1, 7⟩⟩]
    ⟨env_at 7 true, ⟨255, 190⟩, ⟨1, 1, 1, 8⟩⟩ rfl rfl
    (by
      intro d hd
      simp only [List.mem_singleton] at hd
      subst hd
      trivial)
    rfl (by decide) (by decide) (by decide) (by decide) (by decide) rfl
    (by
      intro k hk
      have hk0 : k = 0 := by
        simp at hk
        exact hk
      subst hk0
      exact ⟨rfl, rfl, rfl⟩)
    (by decide)
    (by
      intro k hk
      have hk0 : k = 0 := by
        simp at hk
        exact hk
      subst hk0
      rfl)
    (by decide)
  ⟨key.2.1, key.2.2.1, key.2.2.2.2.2⟩

end MissionItemProtocol
